import Mathlib

/-!
# The InnoDB doublewrite buffer (storage/innobase/buf/buf0dblwr.cc)

A shallow embedding of the doublewrite buffer module: the in-memory batch
(`buf_dblwr_t`), the flush protocol, completion tracking, and the startup
recovery path, followed by theorems about them.

Conventions of the embedding.

* Memory and file contents are functions from byte offsets to byte values
  (`Bytes`); a pointer `p + n` is the function shifted by `n`.
* The mutex `buf_dblwr->mutex` makes each critical section atomic; a critical
  section is one function of the state.  A thread that would block in
  `os_event_wait_low` is reported with outcome `waiting`: it re-enters at
  `try_again` once woken, which is a fresh call on the state of that moment.
* Everything the code asks of the I/O layer is recorded, in program order,
  in a trace of `Event`s.
* A terminated process (`ib::fatal`, a failed `ut_a`, a null dereference) is
  the outcome `fatal`.  The checks of debug builds (`ut_ad`, `ut_d`) are not
  part of the functions.
* A buffer-pool page is a value: between `add_to_batch` and the completion of
  its write the page is fixed for I/O, so what the flush reads of it is what
  `add_to_batch` saw.
* Constants and helpers declared in headers outside this file are fields of
  `Config`, `Env` and `RecvEnv`; the file and tablespace I/O layer is modelled
  from its interface.
-/

namespace Dblwr

/-- Contents of a memory region or of a file: the byte at each offset. -/
abbrev Bytes := Nat → Nat

/-- Pointer arithmetic `p + n` on a byte region. -/
def Bytes.plus (p : Bytes) (n : Nat) : Bytes := fun j => p (n + j)

/-- The C library `memcpy(dst + pos, src, n)`, as a new value of `dst`. -/
def memcpy (dst : Bytes) (pos : Nat) (src : Bytes) (n : Nat) : Bytes :=
  fun j => if pos ≤ j ∧ j < pos + n then src (j - pos) else dst j

/-- The C library `memset(dst, 0, n)`, as a new value of `dst`. -/
def memset_zero (dst : Bytes) (n : Nat) : Bytes :=
  fun j => if j < n then 0 else dst j

/-- Modelled from the spec: `mach_read_from_2` (mach0data) is missing from the
sources; it reads a 2-byte big-endian field. -/
def mach_read_from_2 (b : Bytes) (off : Nat) : Nat :=
  b off * 2 ^ 8 + b (off + 1)

/-- Modelled from the spec: `mach_read_from_4` (mach0data) is missing from the
sources; the header and page fields are "4-byte fields at fixed offsets",
stored most significant byte first. -/
def mach_read_from_4 (b : Bytes) (off : Nat) : Nat :=
  b off * 2 ^ 24 + b (off + 1) * 2 ^ 16 + b (off + 2) * 2 ^ 8 + b (off + 3)

/-- Modelled from the spec: `mach_read_from_8` (mach0data) is missing from the
sources; it reads the "8-byte LSN", most significant byte first. -/
def mach_read_from_8 (b : Bytes) (off : Nat) : Nat :=
  mach_read_from_4 b off * 2 ^ 32 + mach_read_from_4 b (off + 4)

/-- Modelled from the spec: `mach_write_to_4` (mach0data) is missing from the
sources; it stores a 4-byte field most significant byte first. -/
def mach_write_to_4 (b : Bytes) (off : Nat) (n : Nat) : Bytes :=
  fun j =>
    if j = off then n / 2 ^ 24 % 256
    else if j = off + 1 then n / 2 ^ 16 % 256
    else if j = off + 2 then n / 2 ^ 8 % 256
    else if j = off + 3 then n % 256
    else b j

/-- `#define TRX_SYS_DOUBLEWRITE_BLOCKS 2` -/
def TRX_SYS_DOUBLEWRITE_BLOCKS : Nat := 2

/-- Constants that the module takes from headers outside the sources, and the
global `srv_use_doublewrite_buf`.  The counters `first_free` and `b_reserved`
are `ulint`, and so is the capacity they are compared with. -/
structure Config where
  srv_page_size_shift : Nat
  srv_use_doublewrite_buf : Bool
  TRX_SYS_DOUBLEWRITE_BLOCK_SIZE : Nat
  TRX_SYS_SPACE : Nat
  TRX_SYS_PAGE_NO : Nat
  TRX_SYS_DOUBLEWRITE : Nat
  TRX_SYS_DOUBLEWRITE_MAGIC : Nat
  TRX_SYS_DOUBLEWRITE_BLOCK1 : Nat
  TRX_SYS_DOUBLEWRITE_BLOCK2 : Nat
  TRX_SYS_DOUBLEWRITE_SPACE_ID_STORED : Nat
  TRX_SYS_DOUBLEWRITE_MAGIC_N : Nat
  TRX_SYS_DOUBLEWRITE_SPACE_ID_STORED_N : Nat
  FIL_PAGE_OFFSET : Nat
  FIL_PAGE_LSN : Nat
  FIL_PAGE_TYPE : Nat
  FIL_PAGE_ARCH_LOG_NO_OR_SPACE_ID : Nat
  FIL_PAGE_INDEX : Nat
  FIL_PAGE_TYPE_INSTANT : Nat
  FIL_PAGE_RTREE : Nat
  FIL_PAGE_TYPE_FSP_HDR : Nat
  FIL_PAGE_IBUF_BITMAP : Nat
  FIL_PAGE_TYPE_UNKNOWN : Nat
  FIL_PAGE_UNDO_LOG : Nat
  FIL_PAGE_INODE : Nat
  FIL_PAGE_IBUF_FREE_LIST : Nat
  FIL_PAGE_TYPE_SYS : Nat
  FIL_PAGE_TYPE_TRX_SYS : Nat
  FIL_PAGE_TYPE_XDES : Nat
  FIL_PAGE_TYPE_BLOB : Nat
  FIL_PAGE_TYPE_ZBLOB : Nat
  FIL_PAGE_TYPE_ZBLOB2 : Nat
  FIL_PAGE_TYPE_ALLOCATED : Nat
  /-- The expression `TRX_SYS_DOUBLEWRITE_BLOCKS * TRX_SYS_DOUBLEWRITE_BLOCK_SIZE`
  of the source has type `ulint`: the number of slots is below `2^64`. -/
  capacity_is_ulint : TRX_SYS_DOUBLEWRITE_BLOCKS * TRX_SYS_DOUBLEWRITE_BLOCK_SIZE < 2 ^ 64

/-- The page size in bytes, `srv_page_size == 1 << srv_page_size_shift`. -/
def srv_page_size (cfg : Config) : Nat := 1 <<< cfg.srv_page_size_shift

/-- Number of slots of the batch,
`TRX_SYS_DOUBLEWRITE_BLOCKS * TRX_SYS_DOUBLEWRITE_BLOCK_SIZE`. -/
def buf_size (cfg : Config) : Nat :=
  TRX_SYS_DOUBLEWRITE_BLOCKS * cfg.TRX_SYS_DOUBLEWRITE_BLOCK_SIZE

/-- Page-level helpers of the page module that are outside the sources. -/
structure Env where
  page_is_comp : Bytes → Bool
  page_simple_validate_new : Bytes → Bool
  page_simple_validate_old : Bytes → Bool

/-- A page identifier `page_id_t(space, page_no)`. -/
structure page_id_t where
  space : Nat
  page_no : Nat
deriving DecidableEq

/-- The states of a buffer-pool page (`buf_page_state`). -/
inductive buf_page_state where
  | BUF_BLOCK_NOT_USED
  | BUF_BLOCK_MEMORY
  | BUF_BLOCK_REMOVE_HASH
  | BUF_BLOCK_FILE_PAGE
  | BUF_BLOCK_ZIP_PAGE
deriving DecidableEq

/-- What the module observes of a buffer-pool page `buf_page_t` (and of the
`buf_block_t` that contains it): `id()`, `state()`, `in_file()`,
`zip.data != NULL`, `zip_size()`, `block->frame` and the result of
`buf_page_get_frame(bpage)`. -/
structure buf_page_t where
  id : page_id_t
  state : buf_page_state
  in_file : Bool
  zip_data : Bool
  zip_size : Nat
  frame : Bytes
  get_frame : Bytes

/-- A slot of the batch, `buf_dblwr_t::element`. -/
structure element where
  bpage : buf_page_t
  lru : Bool
  size : Nat

/-- The doublewrite buffer `buf_dblwr_t`.  A slot of `buf_block_arr` that was
never assigned (zero-filled by `ut_zalloc_nokey`) is `none`. -/
structure buf_dblwr_t where
  first_free : Nat
  b_reserved : Nat
  block1 : Nat
  block2 : Nat
  batch_running : Bool
  write_buf : Bytes
  buf_block_arr : Nat → Option element

/-- Requests to the I/O layer and to the batch event, as they appear in the
trace of an operation. -/
inductive Event where
  /-- `fil_io(IORequestWrite or IORequest(WRITE, bpage, lru), sync, page_id,
  zip_size, 0, len, buf, message)` -/
  | fil_io_write (sync : Bool) (page_id : page_id_t) (zip_size : Nat) (len : Nat)
      (buf : Bytes) (message : Option buf_page_t) (lru : Bool)
  /-- `fil_io(request, true, page_id, zip_size, 0, len, read_buf, NULL)` with a
  read request -/
  | fil_io_read (page_id : page_id_t) (zip_size : Nat) (len : Nat)
  /-- `fil_flush(space_id)` -/
  | fil_flush (space_id : Nat)
  /-- `fil_flush_file_spaces()` -/
  | fil_flush_file_spaces
  /-- `os_aio_wait_until_no_pending_writes()` -/
  | os_aio_wait_until_no_pending_writes
  /-- `os_event_set(buf_dblwr->b_event)` -/
  | os_event_set
  /-- `os_file_read(read_request, file, buf, offset, len)` -/
  | os_file_read (offset : Nat) (len : Nat)
  /-- `os_file_write(IORequestWrite, path, file, buf, offset, len)` -/
  | os_file_write (offset : Nat) (len : Nat) (buf : Bytes)
  /-- `os_file_flush(file)` -/
  | os_file_flush

/-- How a call ends: it returns, it blocks in `os_event_wait_low` until the
batch event is set, the process is terminated, or the model ran out of
fuel for a retry loop. -/
inductive Outcome where
  | returned
  | waiting
  | fatal
  | out_of_fuel
deriving DecidableEq

/-- `buf_dblwr_init`: the freshly allocated structure.  `fresh` is the
content of the newly allocated (uninitialised) `write_buf`. -/
def buf_dblwr_init (cfg : Config) (doublewrite : Bytes) (fresh : Bytes) : buf_dblwr_t :=
  { first_free := 0
    b_reserved := 0
    block1 := mach_read_from_4 doublewrite cfg.TRX_SYS_DOUBLEWRITE_BLOCK1
    block2 := mach_read_from_4 doublewrite cfg.TRX_SYS_DOUBLEWRITE_BLOCK2
    batch_running := false
    write_buf := fresh
    buf_block_arr := fun _ => none }

/-- `fil_page_get_type(page)`: the 2-byte field at `FIL_PAGE_TYPE`. -/
def fil_page_get_type (cfg : Config) (page : Bytes) : Nat :=
  mach_read_from_2 page cfg.FIL_PAGE_TYPE

/-- `buf_dblwr_check_block`: `true` when the function returns, `false` when it
reaches `buf_dblwr_assert_on_corrupt_block` (which ends in `ib::fatal`). -/
def buf_dblwr_check_block (cfg : Config) (env : Env) (block : buf_page_t) : Bool :=
  let t := fil_page_get_type cfg block.frame
  if t = cfg.FIL_PAGE_INDEX ∨ t = cfg.FIL_PAGE_TYPE_INSTANT ∨ t = cfg.FIL_PAGE_RTREE then
    if env.page_is_comp block.frame then
      env.page_simple_validate_new block.frame
    else
      env.page_simple_validate_old block.frame
  else if t = cfg.FIL_PAGE_TYPE_FSP_HDR ∨ t = cfg.FIL_PAGE_IBUF_BITMAP
      ∨ t = cfg.FIL_PAGE_TYPE_UNKNOWN ∨ t = cfg.FIL_PAGE_UNDO_LOG
      ∨ t = cfg.FIL_PAGE_INODE ∨ t = cfg.FIL_PAGE_IBUF_FREE_LIST
      ∨ t = cfg.FIL_PAGE_TYPE_SYS ∨ t = cfg.FIL_PAGE_TYPE_TRX_SYS
      ∨ t = cfg.FIL_PAGE_TYPE_XDES ∨ t = cfg.FIL_PAGE_TYPE_BLOB
      ∨ t = cfg.FIL_PAGE_TYPE_ZBLOB ∨ t = cfg.FIL_PAGE_TYPE_ZBLOB2 then
    true
  else if t = cfg.FIL_PAGE_TYPE_ALLOCATED then
    true
  else
    false

/-- One iteration of the validation loop of `buf_dblwr_flush_buffered_writes`
on slot `i`: `true` when the loop goes on, `false` when the process is
terminated (corrupt block, or a slot that holds no page). -/
def buf_dblwr_check_slot (cfg : Config) (env : Env) (d : buf_dblwr_t) (i : Nat) : Bool :=
  match d.buf_block_arr i with
  | none => false
  | some e =>
    if e.bpage.state ≠ buf_page_state.BUF_BLOCK_FILE_PAGE ∨ e.bpage.zip_data = true then
      true
    else
      buf_dblwr_check_block cfg env e.bpage

/-- The validation loop `for (i = 0; i < buf_dblwr->first_free; i++)`:
`true` when every iteration goes on. -/
def buf_dblwr_check_slots (cfg : Config) (env : Env) (d : buf_dblwr_t) : Bool :=
  (List.range d.first_free).all (buf_dblwr_check_slot cfg env d)

/-- `buf_dblwr_write_block_to_datafile`: the write request for a slot, or
`none` when `ut_a(bpage->in_file())` fails. -/
def buf_dblwr_write_block_to_datafile (e : element) : Option Event :=
  if e.bpage.in_file then
    let size := if e.bpage.zip_data then e.bpage.zip_size else e.size
    some (Event.fil_io_write false e.bpage.id e.bpage.zip_size size
      e.bpage.get_frame (some e.bpage) e.lru)
  else
    none

/-- The loop `for (i = 0; i < first_free; i++)
buf_dblwr_write_block_to_datafile(buf_dblwr->buf_block_arr[i])`, from slot `i`
for `n` more slots: the requests issued and how the loop ended. -/
def buf_dblwr_write_blocks (d : buf_dblwr_t) : Nat → Nat → List Event × Outcome
  | _, 0 => ([], Outcome.returned)
  | i, n + 1 =>
    match d.buf_block_arr i with
    | none => ([], Outcome.fatal)
    | some e =>
      match buf_dblwr_write_block_to_datafile e with
      | none => ([], Outcome.fatal)
      | some ev =>
        let r := buf_dblwr_write_blocks d (i + 1) n
        (ev :: r.1, r.2)

/-- The writes of the staged pages to the two doublewrite blocks, between the
validation loop and the label `flush`. -/
def buf_dblwr_stage_writes (cfg : Config) (d : buf_dblwr_t) : List Event :=
  let write_buf := d.write_buf
  let len := (min cfg.TRX_SYS_DOUBLEWRITE_BLOCK_SIZE d.first_free) <<< cfg.srv_page_size_shift
  let first := Event.fil_io_write true ⟨cfg.TRX_SYS_SPACE, d.block1⟩ 0 len write_buf none false
  if d.first_free ≤ cfg.TRX_SYS_DOUBLEWRITE_BLOCK_SIZE then
    [first]
  else
    let len := (d.first_free - cfg.TRX_SYS_DOUBLEWRITE_BLOCK_SIZE) <<< cfg.srv_page_size_shift
    let write_buf := d.write_buf.plus (cfg.TRX_SYS_DOUBLEWRITE_BLOCK_SIZE <<< cfg.srv_page_size_shift)
    [first, Event.fil_io_write true ⟨cfg.TRX_SYS_SPACE, d.block2⟩ 0 len write_buf none false]

/-- Result of `buf_dblwr_flush_buffered_writes`. -/
structure Flushed where
  buf_dblwr : Option buf_dblwr_t
  trace : List Event
  outcome : Outcome

/-- `buf_dblwr_flush_buffered_writes`, on the global `buf_dblwr`. -/
def buf_dblwr_flush_buffered_writes (cfg : Config) (env : Env)
    (buf_dblwr : Option buf_dblwr_t) : Flushed :=
  match buf_dblwr with
  | none =>
    ⟨none, [Event.os_aio_wait_until_no_pending_writes, Event.fil_flush_file_spaces],
      Outcome.returned⟩
  | some d =>
    if cfg.srv_use_doublewrite_buf = false then
      ⟨some d, [Event.os_aio_wait_until_no_pending_writes, Event.fil_flush_file_spaces],
        Outcome.returned⟩
    else if d.first_free = 0 then
      ⟨some d, [], Outcome.returned⟩
    else if d.batch_running = true then
      ⟨some d, [], Outcome.waiting⟩
    else
      let d := { d with batch_running := true }
      let first_free := d.first_free
      if buf_dblwr_check_slots cfg env d = false then
        ⟨some d, [], Outcome.fatal⟩
      else
        let r := buf_dblwr_write_blocks d 0 first_free
        ⟨some d, buf_dblwr_stage_writes cfg d ++ [Event.fil_flush cfg.TRX_SYS_SPACE] ++ r.1, r.2⟩

/-- The increment `n++` of a `ulint`, which wraps around at `2^64`. -/
def ulint_inc (n : Nat) : Nat := (n + 1) % 2 ^ 64

/-- The decrement `--n` of a `ulint`, which wraps around at zero. -/
def ulint_dec (n : Nat) : Nat := if n = 0 then 2 ^ 64 - 1 else n - 1

/-- `buf_dblwr_update`, first critical section: `--buf_dblwr->b_reserved`. -/
def buf_dblwr_update_decrement (d : buf_dblwr_t) : buf_dblwr_t :=
  { d with b_reserved := ulint_dec d.b_reserved }

/-- `buf_dblwr_update`, second critical section, entered after
`fil_flush_file_spaces()` when the decrement reached zero. -/
def buf_dblwr_update_finish (d : buf_dblwr_t) : buf_dblwr_t :=
  { d with first_free := 0, batch_running := false }

/-- `buf_dblwr_update`: the state after the call and its trace. -/
def buf_dblwr_update (d : buf_dblwr_t) : buf_dblwr_t × List Event :=
  let d1 := buf_dblwr_update_decrement d
  if d1.b_reserved = 0 then
    (buf_dblwr_update_finish d1, [Event.fil_flush_file_spaces, Event.os_event_set])
  else
    (d1, [])

/-- Result of `buf_dblwr_t::add_to_batch`. -/
structure Added where
  d : buf_dblwr_t
  trace : List Event
  outcome : Outcome

/-- `buf_dblwr_t::add_to_batch(bpage, lru, size)`; `fuel` bounds the number of
passes through `try_again`. -/
def add_to_batch (cfg : Config) (env : Env) :
    Nat → buf_dblwr_t → buf_page_t → Bool → Nat → Added
  | 0, d, _, _, _ => ⟨d, [], Outcome.out_of_fuel⟩
  | fuel + 1, d, bpage, lru, size =>
    if d.batch_running = true then
      ⟨d, [], Outcome.waiting⟩
    else if d.first_free = buf_size cfg then
      let r := buf_dblwr_flush_buffered_writes cfg env (some d)
      let d := r.buf_dblwr.getD d
      match r.outcome with
      | Outcome.returned =>
        let a := add_to_batch cfg env fuel d bpage lru size
        ⟨a.d, r.trace ++ a.trace, a.outcome⟩
      | o => ⟨d, r.trace, o⟩
    else
      let p := srv_page_size cfg * d.first_free
      let d : buf_dblwr_t :=
        { d with
          write_buf := memcpy d.write_buf p bpage.get_frame size
          buf_block_arr := Function.update d.buf_block_arr d.first_free (some ⟨bpage, lru, size⟩)
          first_free := ulint_inc d.first_free
          b_reserved := ulint_inc d.b_reserved }
      let need_flush : Bool := d.first_free = buf_size cfg
      if need_flush then
        let r := buf_dblwr_flush_buffered_writes cfg env (some d)
        ⟨r.buf_dblwr.getD d, r.trace, r.outcome⟩
      else
        ⟨d, [], Outcome.returned⟩

/-! ### Startup recovery -/

/-- Error codes `dberr_t`: `DB_SUCCESS` or any other code. -/
inductive dberr_t where
  | DB_SUCCESS
  | DB_FAIL (code : Nat)
deriving DecidableEq

/-- Modelled from the spec: the file layer (`os_file_read`, `os_file_write`,
`os_file_flush`) is missing from the sources; the spec gives
`readPages(file, offset, count) -> bytes`.  A file is its content together
with the result the layer reports for a read or a write of `len` bytes at
`offset`. -/
structure os_file_t where
  content : Bytes
  read_err : Nat → Nat → dberr_t
  write_err : Nat → Nat → dberr_t

/-- Modelled from the spec: `os_file_read(request, file, buf + pos, offset, n)`
is missing from the sources; a successful read copies `n` bytes of the file
from `offset`, a failed one reports its error and leaves the buffer. -/
def os_file_read (file : os_file_t) (buf : Bytes) (pos : Nat) (offset n : Nat) :
    dberr_t × Bytes :=
  match file.read_err offset n with
  | dberr_t.DB_SUCCESS => (dberr_t.DB_SUCCESS, memcpy buf pos (file.content.plus offset) n)
  | e => (e, buf)

/-- Modelled from the spec: `os_file_write(IORequestWrite, path, file, buf,
offset, n)` is missing from the sources; a successful write stores `n` bytes
at `offset`, a failed one reports its error and leaves the file. -/
def os_file_write (file : os_file_t) (buf : Bytes) (offset n : Nat) :
    dberr_t × os_file_t :=
  match file.write_err offset n with
  | dberr_t.DB_SUCCESS =>
    (dberr_t.DB_SUCCESS, { file with content := memcpy file.content offset buf n })
  | e => (e, file)

/-- Modelled from the spec: `recv_dblwr_t::add` (log0recv) is missing from the
sources; the candidate set is "an ordered collection of raw page copies",
processed "in the order loaded": the page is appended.  A candidate is the
memory the stored pointer refers to. -/
def recv_dblwr_add (pages : List Bytes) (page : Bytes) : List Bytes :=
  pages ++ [page]

/-- `page_get_page_no(page)`: the 4-byte field at `FIL_PAGE_OFFSET`. -/
def page_get_page_no (cfg : Config) (page : Bytes) : Nat :=
  mach_read_from_4 page cfg.FIL_PAGE_OFFSET

/-- `page_get_space_id(page)`: the 4-byte field at
`FIL_PAGE_ARCH_LOG_NO_OR_SPACE_ID`. -/
def page_get_space_id (cfg : Config) (page : Bytes) : Nat :=
  mach_read_from_4 page cfg.FIL_PAGE_ARCH_LOG_NO_OR_SPACE_ID

/-- State of the page loop of `buf_dblwr_init_or_load_pages`: the buffer
`buf_dblwr->write_buf`, the file, `recv_sys.dblwr.pages` and the trace. -/
structure LoadState where
  buf : Bytes
  file : os_file_t
  pages : List Bytes
  trace : List Event

/-- The loop `for (i = 0; i < TRX_SYS_DOUBLEWRITE_BLOCK_SIZE * 2; i++)` of
`buf_dblwr_init_or_load_pages`, from iteration `i` for `n` more iterations;
`page` is `buf + i * srv_page_size`.  The result is the state when the loop
ends and `DB_SUCCESS`, or the state and error of the failed write. -/
def buf_dblwr_load_loop (cfg : Config) (reset_space_ids : Bool) (block1 block2 : Nat) :
    Nat → Nat → LoadState → LoadState × dberr_t
  | 0, _, st => (st, dberr_t.DB_SUCCESS)
  | n + 1, i, st =>
    let pos := i * srv_page_size cfg
    if reset_space_ids then
      let space_id := 0
      let buf := mach_write_to_4 st.buf (pos + cfg.FIL_PAGE_ARCH_LOG_NO_OR_SPACE_ID) space_id
      let source_page_no :=
        if i < cfg.TRX_SYS_DOUBLEWRITE_BLOCK_SIZE then block1 + i
        else block2 + i - cfg.TRX_SYS_DOUBLEWRITE_BLOCK_SIZE
      let w := os_file_write st.file (buf.plus pos)
        (source_page_no <<< cfg.srv_page_size_shift) (srv_page_size cfg)
      let st : LoadState :=
        { st with
          buf := buf
          file := w.2
          trace := st.trace ++ [Event.os_file_write
            (source_page_no <<< cfg.srv_page_size_shift) (srv_page_size cfg) (buf.plus pos)] }
      if w.1 ≠ dberr_t.DB_SUCCESS then
        (st, w.1)
      else
        buf_dblwr_load_loop cfg reset_space_ids block1 block2 n (i + 1) st
    else if mach_read_from_8 (st.buf.plus pos) cfg.FIL_PAGE_LSN ≠ 0 then
      buf_dblwr_load_loop cfg reset_space_ids block1 block2 n (i + 1)
        { st with pages := recv_dblwr_add st.pages (st.buf.plus pos) }
    else
      buf_dblwr_load_loop cfg reset_space_ids block1 block2 n (i + 1) st

/-- Result of `buf_dblwr_init_or_load_pages`: the error code returned, the
global `buf_dblwr`, `recv_sys.dblwr.pages`, the file and the trace. -/
structure Loaded where
  err : dberr_t
  buf_dblwr : Option buf_dblwr_t
  pages : List Bytes
  file : os_file_t
  trace : List Event

/-- `buf_dblwr_init_or_load_pages(file, path)`.  `fresh_read_buf` and `fresh`
are the contents of the newly allocated `read_buf` and `write_buf`;
`buf_dblwr` and `pages` are the globals before the call. -/
def buf_dblwr_init_or_load_pages (cfg : Config) (file : os_file_t)
    (fresh_read_buf fresh : Bytes) (buf_dblwr : Option buf_dblwr_t) (pages : List Bytes) :
    Loaded :=
  let r0 := os_file_read file fresh_read_buf 0
    (cfg.TRX_SYS_PAGE_NO <<< cfg.srv_page_size_shift) (srv_page_size cfg)
  let t0 := [Event.os_file_read (cfg.TRX_SYS_PAGE_NO <<< cfg.srv_page_size_shift)
    (srv_page_size cfg)]
  if r0.1 ≠ dberr_t.DB_SUCCESS then
    ⟨r0.1, buf_dblwr, pages, file, t0⟩
  else
    let doublewrite := r0.2.plus cfg.TRX_SYS_DOUBLEWRITE
    if mach_read_from_4 doublewrite cfg.TRX_SYS_DOUBLEWRITE_MAGIC
        = cfg.TRX_SYS_DOUBLEWRITE_MAGIC_N then
      let d := buf_dblwr_init cfg doublewrite fresh
      let block1 := d.block1
      let block2 := d.block2
      let buf := d.write_buf
      let reset_space_ids : Bool :=
        decide (mach_read_from_4 doublewrite cfg.TRX_SYS_DOUBLEWRITE_SPACE_ID_STORED
          ≠ cfg.TRX_SYS_DOUBLEWRITE_SPACE_ID_STORED_N)
      let r1 := os_file_read file buf 0 (block1 <<< cfg.srv_page_size_shift)
        (cfg.TRX_SYS_DOUBLEWRITE_BLOCK_SIZE <<< cfg.srv_page_size_shift)
      let t1 := t0 ++ [Event.os_file_read (block1 <<< cfg.srv_page_size_shift)
        (cfg.TRX_SYS_DOUBLEWRITE_BLOCK_SIZE <<< cfg.srv_page_size_shift)]
      if r1.1 ≠ dberr_t.DB_SUCCESS then
        ⟨r1.1, some { d with write_buf := r1.2 }, pages, file, t1⟩
      else
        let r2 := os_file_read file r1.2
          (cfg.TRX_SYS_DOUBLEWRITE_BLOCK_SIZE <<< cfg.srv_page_size_shift)
          (block2 <<< cfg.srv_page_size_shift)
          (cfg.TRX_SYS_DOUBLEWRITE_BLOCK_SIZE <<< cfg.srv_page_size_shift)
        let t2 := t1 ++ [Event.os_file_read (block2 <<< cfg.srv_page_size_shift)
          (cfg.TRX_SYS_DOUBLEWRITE_BLOCK_SIZE <<< cfg.srv_page_size_shift)]
        if r2.1 ≠ dberr_t.DB_SUCCESS then
          ⟨r2.1, some { d with write_buf := r2.2 }, pages, file, t2⟩
        else
          let l := buf_dblwr_load_loop cfg reset_space_ids block1 block2
            (cfg.TRX_SYS_DOUBLEWRITE_BLOCK_SIZE * 2) 0 ⟨r2.2, file, pages, t2⟩
          if l.2 ≠ dberr_t.DB_SUCCESS then
            ⟨l.2, some { d with write_buf := l.1.buf }, l.1.pages, l.1.file, l.1.trace⟩
          else
            let t3 := if reset_space_ids then l.1.trace ++ [Event.os_file_flush] else l.1.trace
            ⟨dberr_t.DB_SUCCESS, some { d with write_buf := l.1.buf }, l.1.pages, l.1.file, t3⟩
    else
      ⟨dberr_t.DB_SUCCESS, buf_dblwr, pages, file, t0⟩

/-- What `buf_dblwr_process` uses of a tablespace `fil_space_t`: `size` (in
pages), `physical_size()` and `zip_size()`. -/
structure fil_space_t where
  size : Nat
  physical_size : Nat
  zip_size : Nat

/-- The data files: for each tablespace id, the bytes at each offset. -/
abbrev Disk := Nat → Bytes

/-- The recovery system and the helpers of other modules that
`buf_dblwr_process` calls: `recv_sys.parse_start_lsn`, `recv_sys.scanned_lsn`,
`fil_space_acquire_for_io` followed by `fil_space_open_if_needed`,
`recv_dblwr_t::validate_page`, `recv_dblwr_t::find_page` (on the candidate
list), the error reported by a `fil_io` read of a page, and whether a
`fil_io` write of a page finds its file node. -/
structure RecvEnv where
  parse_start_lsn : Nat
  scanned_lsn : Nat
  fil_space_acquire_for_io : Nat → Option fil_space_t
  validate_page : page_id_t → Bytes → fil_space_t → Bool
  find_page : List Bytes → page_id_t → fil_space_t → Option Bytes
  fil_io_read_err : page_id_t → dberr_t
  fil_io_write_node : page_id_t → Bool

/-- Modelled from the spec: `fil_io` (fil0fil) is missing from the sources;
a request for page `page_no` addresses the byte offset `page_no` times the
physical page size given by `zip_size` (`srv_page_size` when it is zero). -/
def fil_io_offset (cfg : Config) (page_no zip_size : Nat) : Nat :=
  page_no * (if zip_size = 0 then srv_page_size cfg else zip_size)

/-- Modelled from the spec: the effect on the data files of a `fil_io` write
(`writePages(file_or_space, page_id, bytes)`) that is carried out. -/
def fil_io_write_apply (cfg : Config) (disk : Disk) (page_id : page_id_t)
    (zip_size len : Nat) (buf : Bytes) : Disk :=
  Function.update disk page_id.space
    (memcpy (disk page_id.space) (fil_io_offset cfg page_id.page_no zip_size) buf len)

/-- The first `n` bytes of a region as a page image (zero beyond `n`). -/
def page_image (src : Bytes) (n : Nat) : Bytes :=
  fun j => if j < n then src j else 0

/-- `buf_is_zeroes(span<const byte>(buf, n))`. -/
def buf_is_zeroes (buf : Bytes) (n : Nat) : Bool :=
  (List.range n).all (fun j => decide (buf j = 0))

/-- Modelled from the spec: the content of `read_buf` after `memset(read_buf,
0, physical_size)` and the `fil_io` read of the page; a failed read leaves
the zeros. -/
def fil_io_read_page (cfg : Config) (renv : RecvEnv) (disk : Disk) (page_id : page_id_t)
    (zip_size physical_size : Nat) : Bytes :=
  match renv.fil_io_read_err page_id with
  | dberr_t.DB_SUCCESS =>
    page_image ((disk page_id.space).plus (fil_io_offset cfg page_id.page_no zip_size))
      physical_size
  | _ => fun _ => 0

/-- The data files and the trace during `buf_dblwr_process`. -/
structure ProcessState where
  disk : Disk
  trace : List Event

/-- One iteration of the loop of `buf_dblwr_process`, for the candidate
`page`; `pages` is `recv_dblwr.pages`. -/
def buf_dblwr_process_page (cfg : Config) (renv : RecvEnv) (pages : List Bytes)
    (st : ProcessState) (page : Bytes) : ProcessState :=
  let page_no := page_get_page_no cfg page
  if page_no = 0 then st
  else
    let space_id := page_get_space_id cfg page
    let lsn := mach_read_from_8 page cfg.FIL_PAGE_LSN
    if renv.parse_start_lsn > lsn then st
    else
      let page_id : page_id_t := ⟨space_id, page_no⟩
      if renv.scanned_lsn < lsn then st
      else
        match renv.fil_space_acquire_for_io space_id with
        | none => st
        | some space =>
          if page_no ≥ space.size then st
          else
            let physical_size := space.physical_size
            let zip_size := space.zip_size
            let read_buf := fil_io_read_page cfg renv st.disk page_id zip_size physical_size
            let st : ProcessState :=
              { st with trace := st.trace ++ [Event.fil_io_read page_id zip_size physical_size] }
            if buf_is_zeroes read_buf physical_size = false
                ∧ renv.validate_page page_id read_buf space = true then
              st
            else
              match renv.find_page pages page_id space with
              | none => st
              | some page =>
                { disk :=
                    if renv.fil_io_write_node page_id then
                      fil_io_write_apply cfg st.disk page_id zip_size physical_size page
                    else st.disk
                  trace := st.trace ++
                    [Event.fil_io_write true page_id zip_size physical_size page none false] }

/-- Result of `buf_dblwr_process`: `recv_sys.dblwr.pages`, the data files and
the trace. -/
structure Processed where
  pages : List Bytes
  disk : Disk
  trace : List Event

/-- `buf_dblwr_process()`. -/
def buf_dblwr_process (cfg : Config) (renv : RecvEnv) (buf_dblwr : Option buf_dblwr_t)
    (pages : List Bytes) (disk : Disk) : Processed :=
  match buf_dblwr with
  | none => ⟨pages, disk, []⟩
  | some _ =>
    let st := pages.foldl (buf_dblwr_process_page cfg renv pages) ⟨disk, []⟩
    ⟨[], st.disk, st.trace ++ [Event.fil_flush_file_spaces]⟩

/-- The data files after the `fil_io` writes of a trace were carried out, in
order. -/
def apply_writes (cfg : Config) : Disk → List Event → Disk
  | disk, [] => disk
  | disk, Event.fil_io_write _ page_id zip_size len buf _ _ :: t =>
    apply_writes cfg (fil_io_write_apply cfg disk page_id zip_size len buf) t
  | disk, _ :: t => apply_writes cfg disk t

/-- The requests of a trace that precede its first `fil_flush`: the writes
that are on stable storage once that `fil_flush` has returned. -/
def writes_before_flush : List Event → List Event
  | [] => []
  | Event.fil_flush _ :: _ => []
  | ev :: t => ev :: writes_before_flush t

/-- The page of the system tablespace that holds staged page `i`: page
`block1 + i` for `i < N`, page `block2 + (i - N)` after that. -/
def staging_page_no (cfg : Config) (block1 block2 : Nat) (i : Nat) : Nat :=
  if i < cfg.TRX_SYS_DOUBLEWRITE_BLOCK_SIZE then block1 + i
  else block2 + (i - cfg.TRX_SYS_DOUBLEWRITE_BLOCK_SIZE)

/-- Every header field and page field that the module reads lies within one
page. -/
def layout_ok (cfg : Config) : Prop :=
  cfg.TRX_SYS_DOUBLEWRITE + cfg.TRX_SYS_DOUBLEWRITE_MAGIC + 4 ≤ srv_page_size cfg ∧
  cfg.TRX_SYS_DOUBLEWRITE + cfg.TRX_SYS_DOUBLEWRITE_BLOCK1 + 4 ≤ srv_page_size cfg ∧
  cfg.TRX_SYS_DOUBLEWRITE + cfg.TRX_SYS_DOUBLEWRITE_BLOCK2 + 4 ≤ srv_page_size cfg ∧
  cfg.TRX_SYS_DOUBLEWRITE + cfg.TRX_SYS_DOUBLEWRITE_SPACE_ID_STORED + 4 ≤ srv_page_size cfg ∧
  cfg.FIL_PAGE_OFFSET + 4 ≤ srv_page_size cfg ∧
  cfg.FIL_PAGE_LSN + 8 ≤ srv_page_size cfg ∧
  cfg.FIL_PAGE_ARCH_LOG_NO_OR_SPACE_ID + 4 ≤ srv_page_size cfg

/-- The doublewrite header inside the TRX_SYS page of a system tablespace
file, `page + TRX_SYS_DOUBLEWRITE`. -/
def doublewrite_header (cfg : Config) (sys : Bytes) : Bytes :=
  sys.plus (cfg.TRX_SYS_PAGE_NO * srv_page_size cfg + cfg.TRX_SYS_DOUBLEWRITE)

/-- The buffer `buf_dblwr->write_buf` after the two extent reads of
`buf_dblwr_init_or_load_pages` succeeded: `N` pages read from page `b1` of
the file, followed by `N` pages read from page `b2`. -/
def loaded_write_buf (cfg : Config) (content fresh : Bytes) (b1 b2 : Nat) : Bytes :=
  memcpy
    (memcpy fresh 0 (content.plus (b1 <<< cfg.srv_page_size_shift))
      (cfg.TRX_SYS_DOUBLEWRITE_BLOCK_SIZE <<< cfg.srv_page_size_shift))
    (cfg.TRX_SYS_DOUBLEWRITE_BLOCK_SIZE <<< cfg.srv_page_size_shift)
    (content.plus (b2 <<< cfg.srv_page_size_shift))
    (cfg.TRX_SYS_DOUBLEWRITE_BLOCK_SIZE <<< cfg.srv_page_size_shift)

/-- Whether `page` has a higher LSN than the best candidate so far. -/
def newer_than (cfg : Config) (page : Bytes) : Option Bytes → Bool
  | none => true
  | some b => decide (mach_read_from_8 b cfg.FIL_PAGE_LSN < mach_read_from_8 page cfg.FIL_PAGE_LSN)

/-- Modelled from the spec: `recv_dblwr_t::find_page` (log0recv) is missing
from the sources; it is to "select the best candidate for this page identity
(highest LSN not exceeding the log's validated point, passing validation)".
Of equally good candidates the first is kept. -/
def recv_dblwr_find_page (cfg : Config) (scanned_lsn : Nat)
    (validate_page : page_id_t → Bytes → fil_space_t → Bool)
    (pages : List Bytes) (page_id : page_id_t) (space : fil_space_t) : Option Bytes :=
  pages.foldl
    (fun best page =>
      if page_get_page_no cfg page = page_id.page_no
          ∧ page_get_space_id cfg page = page_id.space
          ∧ mach_read_from_8 page cfg.FIL_PAGE_LSN ≤ scanned_lsn
          ∧ validate_page page_id page space = true
          ∧ newer_than cfg page best = true then
        some page
      else best)
    none

/-! ### Location test and creation -/

/-- `buf_dblwr_page_inside(page_no)`, on the global `buf_dblwr`. -/
def buf_dblwr_page_inside (cfg : Config) (buf_dblwr : Option buf_dblwr_t) (page_no : Nat) :
    Bool :=
  match buf_dblwr with
  | none => false
  | some d =>
    if page_no ≥ d.block1 ∧ page_no < d.block1 + cfg.TRX_SYS_DOUBLEWRITE_BLOCK_SIZE then
      true
    else if page_no ≥ d.block2 ∧ page_no < d.block2 + cfg.TRX_SYS_DOUBLEWRITE_BLOCK_SIZE then
      true
    else
      false

/-- What `buf_dblwr_create` takes from outside the sources: the constants
`FSP_EXTENT_SIZE` and `TRX_SYS_DOUBLEWRITE_REPEAT`, the size in pages of the
first file of the system tablespace, the result of `fseg_create` (the frame
of the TRX_SYS page with the segment header written, or `none` for `NULL`),
and the page number returned by the `i`-th call of `fseg_alloc_free_page`
(`none` for `NULL`). -/
structure CreateEnv where
  FSP_EXTENT_SIZE : Nat
  TRX_SYS_DOUBLEWRITE_REPEAT : Nat
  sys_space_first_size : Nat
  fseg_create : Bytes → Option Bytes
  fseg_alloc_free_page : Nat → Option Nat

/-- What `buf_dblwr_create` asks of the mini-transaction, the allocator, the
log and the buffer pool, as it appears in its trace. -/
inductive CreateEvent where
  /-- `mtr.start()` -/
  | mtr_start
  /-- `mtr.commit()` -/
  | mtr_commit
  /-- `fseg_create(fil_system.sys_space, TRX_SYS_DOUBLEWRITE +
  TRX_SYS_DOUBLEWRITE_FSEG, &mtr, false, trx_sys_block)` and whether it
  returned a block -/
  | fseg_create (ok : Bool)
  /-- `fseg_alloc_free_page(fseg_header, hint, FSP_UP, &mtr)` and the page
  number of the block it returned -/
  | fseg_alloc_free_page (hint : Nat) (page_no : Option Nat)
  /-- `mtr.write<4>(*trx_sys_block, offset + trx_sys_block->frame, value)` -/
  | mtr_write_4 (offset : Nat) (value : Nat)
  /-- `log_make_checkpoint()` -/
  | log_make_checkpoint
  /-- `buf_pool_invalidate()` -/
  | buf_pool_invalidate
deriving DecidableEq

/-- The globals `buf_dblwr` and `buf_dblwr_being_created`, the frame of the
TRX_SYS page, and the trace. -/
structure CreateState where
  buf_dblwr : Option buf_dblwr_t
  buf_dblwr_being_created : Bool
  frame : Bytes
  trace : List CreateEvent

/-- How `buf_dblwr_create` ends: it returns a value, a `ut_a` fails, or the
model ran out of fuel for `goto start_again`. -/
inductive CreateOutcome where
  | returned (ok : Bool)
  | fatal
  | out_of_fuel
deriving DecidableEq

/-- How the allocation loop of `buf_dblwr_create` ends: the loop condition
fails, `fseg_alloc_free_page` returns `NULL`, or a `ut_a` fails. -/
inductive AllocOutcome where
  | done
  | alloc_failed
  | assert_failed
deriving DecidableEq

/-- State of the allocation loop: the frame of the TRX_SYS page,
`prev_page_no` and the trace. -/
structure AllocState where
  frame : Bytes
  prev_page_no : Nat
  trace : List CreateEvent

/-- The two `mtr.write<4>` of a block number into the header and into its
repeat. -/
def buf_dblwr_create_write_block (cfg : Config) (cenv : CreateEnv) (field : Nat)
    (page_no : Nat) (st : AllocState) : AllocState :=
  { st with
    frame := mach_write_to_4
      (mach_write_to_4 st.frame (cfg.TRX_SYS_DOUBLEWRITE + field) page_no)
      (cfg.TRX_SYS_DOUBLEWRITE + cenv.TRX_SYS_DOUBLEWRITE_REPEAT + field) page_no
    trace := st.trace ++
      [CreateEvent.mtr_write_4 (cfg.TRX_SYS_DOUBLEWRITE + field) page_no,
       CreateEvent.mtr_write_4
        (cfg.TRX_SYS_DOUBLEWRITE + cenv.TRX_SYS_DOUBLEWRITE_REPEAT + field) page_no] }

/-- The end of an iteration of the allocation loop: the restart of the
mini-transaction when `((i + 1) & 15) == 0`, and `prev_page_no = page_no`. -/
def buf_dblwr_create_loop_end (i page_no : Nat) (st : AllocState) : AllocState :=
  { st with
    prev_page_no := page_no
    trace :=
      if (i + 1) &&& 15 = 0 then
        st.trace ++ [CreateEvent.mtr_commit, CreateEvent.mtr_start]
      else st.trace }

/-- The loop `for (i = 0; i < TRX_SYS_DOUBLEWRITE_BLOCKS *
TRX_SYS_DOUBLEWRITE_BLOCK_SIZE + FSP_EXTENT_SIZE / 2; i++)` of
`buf_dblwr_create`, from iteration `i` for `n` more iterations. -/
def buf_dblwr_create_loop (cfg : Config) (cenv : CreateEnv) :
    Nat → Nat → AllocState → AllocState × AllocOutcome
  | 0, _, st => (st, AllocOutcome.done)
  | n + 1, i, st =>
    match cenv.fseg_alloc_free_page i with
    | none =>
      ({ st with trace := st.trace ++
          [CreateEvent.fseg_alloc_free_page (st.prev_page_no + 1) none,
           CreateEvent.mtr_commit] },
        AllocOutcome.alloc_failed)
    | some page_no =>
      let st : AllocState :=
        { st with trace := st.trace ++
            [CreateEvent.fseg_alloc_free_page (st.prev_page_no + 1) (some page_no)] }
      if i = cenv.FSP_EXTENT_SIZE / 2 then
        if page_no = cenv.FSP_EXTENT_SIZE then
          buf_dblwr_create_loop cfg cenv n (i + 1)
            (buf_dblwr_create_loop_end i page_no
              (buf_dblwr_create_write_block cfg cenv cfg.TRX_SYS_DOUBLEWRITE_BLOCK1 page_no st))
        else (st, AllocOutcome.assert_failed)
      else if i = cenv.FSP_EXTENT_SIZE / 2 + cfg.TRX_SYS_DOUBLEWRITE_BLOCK_SIZE then
        if page_no = 2 * cenv.FSP_EXTENT_SIZE then
          buf_dblwr_create_loop cfg cenv n (i + 1)
            (buf_dblwr_create_loop_end i page_no
              (buf_dblwr_create_write_block cfg cenv cfg.TRX_SYS_DOUBLEWRITE_BLOCK2 page_no st))
        else (st, AllocOutcome.assert_failed)
      else if i > cenv.FSP_EXTENT_SIZE / 2 then
        if page_no = st.prev_page_no + 1 then
          buf_dblwr_create_loop cfg cenv n (i + 1) (buf_dblwr_create_loop_end i page_no st)
        else (st, AllocOutcome.assert_failed)
      else
        buf_dblwr_create_loop cfg cenv n (i + 1) (buf_dblwr_create_loop_end i page_no st)

/-- The writes of `buf_dblwr_create` after the allocation loop: the magic,
its repeat, and the space-id-stored marker. -/
def buf_dblwr_create_write_magic (cfg : Config) (cenv : CreateEnv) (st : AllocState) :
    AllocState :=
  { st with
    frame := mach_write_to_4
      (mach_write_to_4
        (mach_write_to_4 st.frame (cfg.TRX_SYS_DOUBLEWRITE + cfg.TRX_SYS_DOUBLEWRITE_MAGIC)
          cfg.TRX_SYS_DOUBLEWRITE_MAGIC_N)
        (cfg.TRX_SYS_DOUBLEWRITE + cfg.TRX_SYS_DOUBLEWRITE_MAGIC
          + cenv.TRX_SYS_DOUBLEWRITE_REPEAT)
        cfg.TRX_SYS_DOUBLEWRITE_MAGIC_N)
      (cfg.TRX_SYS_DOUBLEWRITE + cfg.TRX_SYS_DOUBLEWRITE_SPACE_ID_STORED)
      cfg.TRX_SYS_DOUBLEWRITE_SPACE_ID_STORED_N
    trace := st.trace ++
      [CreateEvent.mtr_write_4 (cfg.TRX_SYS_DOUBLEWRITE + cfg.TRX_SYS_DOUBLEWRITE_MAGIC)
        cfg.TRX_SYS_DOUBLEWRITE_MAGIC_N,
       CreateEvent.mtr_write_4
        (cfg.TRX_SYS_DOUBLEWRITE + cfg.TRX_SYS_DOUBLEWRITE_MAGIC
          + cenv.TRX_SYS_DOUBLEWRITE_REPEAT)
        cfg.TRX_SYS_DOUBLEWRITE_MAGIC_N,
       CreateEvent.mtr_write_4
        (cfg.TRX_SYS_DOUBLEWRITE + cfg.TRX_SYS_DOUBLEWRITE_SPACE_ID_STORED)
        cfg.TRX_SYS_DOUBLEWRITE_SPACE_ID_STORED_N] }

/-- `buf_dblwr_create` from the label `start_again`; `fuel` bounds the number
of passes through the label, `fresh` is the content of the `write_buf` that
`buf_dblwr_init` allocates. -/
def buf_dblwr_create_start_again (cfg : Config) (cenv : CreateEnv) (fresh : Bytes) :
    Nat → CreateState → CreateState × CreateOutcome
  | 0, st => (st, CreateOutcome.out_of_fuel)
  | fuel + 1, st =>
    let st : CreateState :=
      { st with
        buf_dblwr_being_created := true
        trace := st.trace ++ [CreateEvent.mtr_start] }
    if mach_read_from_4 (st.frame.plus cfg.TRX_SYS_DOUBLEWRITE) cfg.TRX_SYS_DOUBLEWRITE_MAGIC
        = cfg.TRX_SYS_DOUBLEWRITE_MAGIC_N then
      ({ st with
          buf_dblwr := some (buf_dblwr_init cfg (st.frame.plus cfg.TRX_SYS_DOUBLEWRITE) fresh)
          buf_dblwr_being_created := false
          trace := st.trace ++ [CreateEvent.mtr_commit] },
        CreateOutcome.returned true)
    else if cenv.sys_space_first_size < 3 * cenv.FSP_EXTENT_SIZE then
      ({ st with trace := st.trace ++ [CreateEvent.mtr_commit] }, CreateOutcome.returned false)
    else
      match cenv.fseg_create st.frame with
      | none =>
        ({ st with trace := st.trace ++
            [CreateEvent.fseg_create false, CreateEvent.mtr_commit] },
          CreateOutcome.returned false)
      | some frame =>
        let l := buf_dblwr_create_loop cfg cenv
          (TRX_SYS_DOUBLEWRITE_BLOCKS * cfg.TRX_SYS_DOUBLEWRITE_BLOCK_SIZE
            + cenv.FSP_EXTENT_SIZE / 2) 0
          ⟨frame, 0, st.trace ++ [CreateEvent.fseg_create true]⟩
        match l.2 with
        | AllocOutcome.alloc_failed =>
          ({ st with frame := l.1.frame, trace := l.1.trace }, CreateOutcome.returned false)
        | AllocOutcome.assert_failed =>
          ({ st with frame := l.1.frame, trace := l.1.trace }, CreateOutcome.fatal)
        | AllocOutcome.done =>
          let w := buf_dblwr_create_write_magic cfg cenv l.1
          buf_dblwr_create_start_again cfg cenv fresh fuel
            { st with
              buf_dblwr_being_created := false
              frame := w.frame
              trace := w.trace ++
                [CreateEvent.mtr_commit, CreateEvent.log_make_checkpoint,
                 CreateEvent.buf_pool_invalidate] }

/-- `buf_dblwr_create()`. -/
def buf_dblwr_create (cfg : Config) (cenv : CreateEnv) (fresh : Bytes) (fuel : Nat)
    (st : CreateState) : CreateState × CreateOutcome :=
  if st.buf_dblwr.isSome then
    (st, CreateOutcome.returned true)
  else
    buf_dblwr_create_start_again cfg cenv fresh fuel st

/-- The value of `prev_page_no` at the start of iteration `i` of the
allocation loop of `buf_dblwr_create`: 0 before the first iteration, then
the page number that the previous call of `fseg_alloc_free_page` returned. -/
def create_prev_page_no (cenv : CreateEnv) : Nat → Nat
  | 0 => 0
  | i + 1 => (cenv.fseg_alloc_free_page i).getD 0

/-- The requests of iteration `i` of the allocation loop when the page is
allocated and the `ut_a` checks pass: the call of `fseg_alloc_free_page`, at
`i = FSP_EXTENT_SIZE / 2` the two writes of the number of block 1, at
`i = FSP_EXTENT_SIZE / 2 + TRX_SYS_DOUBLEWRITE_BLOCK_SIZE` those of block 2,
and the restart of the mini-transaction when `((i + 1) & 15) == 0`. -/
def create_iteration_requests (cfg : Config) (cenv : CreateEnv) (i : Nat) : List CreateEvent :=
  [CreateEvent.fseg_alloc_free_page (create_prev_page_no cenv i + 1)
    (cenv.fseg_alloc_free_page i)] ++
  (if i = cenv.FSP_EXTENT_SIZE / 2 then
    [CreateEvent.mtr_write_4 (cfg.TRX_SYS_DOUBLEWRITE + cfg.TRX_SYS_DOUBLEWRITE_BLOCK1)
      cenv.FSP_EXTENT_SIZE,
     CreateEvent.mtr_write_4
      (cfg.TRX_SYS_DOUBLEWRITE + cenv.TRX_SYS_DOUBLEWRITE_REPEAT
        + cfg.TRX_SYS_DOUBLEWRITE_BLOCK1) cenv.FSP_EXTENT_SIZE]
  else if i = cenv.FSP_EXTENT_SIZE / 2 + cfg.TRX_SYS_DOUBLEWRITE_BLOCK_SIZE then
    [CreateEvent.mtr_write_4 (cfg.TRX_SYS_DOUBLEWRITE + cfg.TRX_SYS_DOUBLEWRITE_BLOCK2)
      (2 * cenv.FSP_EXTENT_SIZE),
     CreateEvent.mtr_write_4
      (cfg.TRX_SYS_DOUBLEWRITE + cenv.TRX_SYS_DOUBLEWRITE_REPEAT
        + cfg.TRX_SYS_DOUBLEWRITE_BLOCK2) (2 * cenv.FSP_EXTENT_SIZE)]
  else []) ++
  (if (i + 1) &&& 15 = 0 then [CreateEvent.mtr_commit, CreateEvent.mtr_start] else [])

/-- Successive calls of `add_to_batch`, one for each entry `(bpage, lru, size)`
of the list, each on the state the previous call left; the final state. -/
def add_all (cfg : Config) (env : Env) (fuel : Nat) :
    buf_dblwr_t → List (buf_page_t × Bool × Nat) → buf_dblwr_t
  | d, [] => d
  | d, p :: ps => add_all cfg env fuel (add_to_batch cfg env fuel d p.1 p.2.1 p.2.2).d ps

/-- The state after `n` successive calls of `buf_dblwr_update`. -/
def update_n : Nat → buf_dblwr_t → buf_dblwr_t
  | 0, d => d
  | n + 1, d => update_n n (buf_dblwr_update d).1

/-- Whether a request is an asynchronous data-file write, a `fil_io` write
with `sync == false`: the write of a page to its own location. -/
def is_datafile_write : Event → Bool
  | Event.fil_io_write false _ _ _ _ _ _ => true
  | _ => false

/-- Number of asynchronous data-file writes (`fil_io` with `sync == false`)
in a trace: the page writes whose completion the I/O layer reports through
`buf_dblwr_update`. -/
def datafile_writes : List Event → Nat
  | [] => 0
  | Event.fil_io_write false _ _ _ _ _ _ :: t => datafile_writes t + 1
  | _ :: t => datafile_writes t

/-- The buffer together with the bookkeeping of the I/O layer: `pending` counts
the data-file writes that were dispatched and whose completion has not yet
been reported; `finishing` holds while a thread is inside `buf_dblwr_update`
between its two critical sections. -/
structure Sys where
  d : buf_dblwr_t
  pending : Nat
  finishing : Bool

/-- A call of `add_to_batch` as a step of the system. -/
def Sys.add (cfg : Config) (env : Env) (fuel : Nat) (s : Sys)
    (bpage : buf_page_t) (lru : Bool) (size : Nat) : Sys :=
  let a := add_to_batch cfg env fuel s.d bpage lru size
  { s with d := a.d, pending := s.pending + datafile_writes a.trace }

/-- A call of `buf_dblwr_flush_buffered_writes` as a step of the system. -/
def Sys.flush (cfg : Config) (env : Env) (s : Sys) : Sys :=
  let r := buf_dblwr_flush_buffered_writes cfg env (some s.d)
  { s with d := r.buf_dblwr.getD s.d, pending := s.pending + datafile_writes r.trace }

/-- The first critical section of `buf_dblwr_update`, run for one of the
pending data-file writes. -/
def Sys.update_enter (s : Sys) : Sys :=
  let d := buf_dblwr_update_decrement s.d
  { d := d, pending := s.pending - 1, finishing := decide (d.b_reserved = 0) }

/-- The second critical section of `buf_dblwr_update`. -/
def Sys.update_leave (s : Sys) : Sys :=
  { s with d := buf_dblwr_update_finish s.d, finishing := false }

/-- The states the system can be in: it starts from `buf_dblwr_init`, threads
call `add_to_batch` and `buf_dblwr_flush_buffered_writes`, and the I/O layer
calls `buf_dblwr_update` once for each data-file write that was dispatched. -/
inductive Reachable (cfg : Config) (env : Env) : Sys → Prop where
  | init (doublewrite fresh : Bytes) :
      Reachable cfg env ⟨buf_dblwr_init cfg doublewrite fresh, 0, false⟩
  | add (s : Sys) (fuel : Nat) (bpage : buf_page_t) (lru : Bool) (size : Nat) :
      Reachable cfg env s → Reachable cfg env (Sys.add cfg env fuel s bpage lru size)
  | flush (s : Sys) :
      Reachable cfg env s → Reachable cfg env (Sys.flush cfg env s)
  | update_enter (s : Sys) :
      Reachable cfg env s → 0 < s.pending → Reachable cfg env (Sys.update_enter s)
  | update_leave (s : Sys) :
      Reachable cfg env s → s.finishing = true → Reachable cfg env (Sys.update_leave s)

/-- The state at the end of the critical section of `add_to_batch` that stores
the page: the frame copied to `write_buf + srv_page_size * first_free`, the
slot assigned, both counters incremented. -/
def add_to_batch_stored (cfg : Config) (d : buf_dblwr_t)
    (bpage : buf_page_t) (lru : Bool) (size : Nat) : buf_dblwr_t :=
  { d with
    write_buf := memcpy d.write_buf (srv_page_size cfg * d.first_free) bpage.get_frame size
    buf_block_arr := Function.update d.buf_block_arr d.first_free (some ⟨bpage, lru, size⟩)
    first_free := ulint_inc d.first_free
    b_reserved := ulint_inc d.b_reserved }

/-- The invariant of the batch state machine. -/
def Inv (cfg : Config) (s : Sys) : Prop :=
  s.d.first_free ≤ buf_size cfg ∧
  s.d.b_reserved ≤ s.d.first_free ∧
  s.pending ≤ s.d.b_reserved ∧
  (s.d.batch_running = false → s.d.first_free = s.d.b_reserved ∧ s.pending = 0) ∧
  (s.finishing = true → s.d.batch_running = true ∧ s.d.b_reserved = 0)

/-- The parameters of a standard build: 16 KiB pages, 64-page doublewrite
blocks, and the header offsets and page types of the file format. -/
def innodb_config : Config :=
  { srv_page_size_shift := 14
    srv_use_doublewrite_buf := true
    TRX_SYS_DOUBLEWRITE_BLOCK_SIZE := 64
    TRX_SYS_SPACE := 0
    TRX_SYS_PAGE_NO := 5
    TRX_SYS_DOUBLEWRITE := 16184
    TRX_SYS_DOUBLEWRITE_MAGIC := 10
    TRX_SYS_DOUBLEWRITE_BLOCK1 := 14
    TRX_SYS_DOUBLEWRITE_BLOCK2 := 18
    TRX_SYS_DOUBLEWRITE_SPACE_ID_STORED := 34
    TRX_SYS_DOUBLEWRITE_MAGIC_N := 536853855
    TRX_SYS_DOUBLEWRITE_SPACE_ID_STORED_N := 1783657386
    FIL_PAGE_OFFSET := 4
    FIL_PAGE_LSN := 16
    FIL_PAGE_TYPE := 24
    FIL_PAGE_ARCH_LOG_NO_OR_SPACE_ID := 34
    FIL_PAGE_INDEX := 17855
    FIL_PAGE_TYPE_INSTANT := 18
    FIL_PAGE_RTREE := 17854
    FIL_PAGE_TYPE_FSP_HDR := 8
    FIL_PAGE_IBUF_BITMAP := 5
    FIL_PAGE_TYPE_UNKNOWN := 13
    FIL_PAGE_UNDO_LOG := 2
    FIL_PAGE_INODE := 3
    FIL_PAGE_IBUF_FREE_LIST := 4
    FIL_PAGE_TYPE_SYS := 6
    FIL_PAGE_TYPE_TRX_SYS := 7
    FIL_PAGE_TYPE_XDES := 9
    FIL_PAGE_TYPE_BLOB := 10
    FIL_PAGE_TYPE_ZBLOB := 11
    FIL_PAGE_TYPE_ZBLOB2 := 12
    FIL_PAGE_TYPE_ALLOCATED := 0
    capacity_is_ulint := by decide }

/-- The same file format with one-page doublewrite blocks, for small runs. -/
def tiny_config : Config :=
  { innodb_config with
    TRX_SYS_DOUBLEWRITE_BLOCK_SIZE := 1
    capacity_is_ulint := by decide }

/-- A page module whose simple validation accepts every page. -/
def lenient_env : Env :=
  { page_is_comp := fun _ => true
    page_simple_validate_new := fun _ => true
    page_simple_validate_old := fun _ => true }

/-- A page image with the given space id, page number and LSN in its header
fields, page type `FIL_PAGE_TYPE_SYS`, and zero elsewhere. -/
def sample_frame (space page_no lsn : Nat) : Bytes :=
  mach_write_to_4 (mach_write_to_4 (mach_write_to_4 (fun j => if j = 25 then 6 else 0)
    4 page_no) 20 lsn) 34 space

/-- An uncompressed file page `(space, page_no)` holding `sample_frame`. -/
def sample_page (space page_no lsn : Nat) : buf_page_t :=
  { id := ⟨space, page_no⟩
    state := buf_page_state.BUF_BLOCK_FILE_PAGE
    in_file := true
    zip_data := false
    zip_size := 0
    frame := sample_frame space page_no lsn
    get_frame := sample_frame space page_no lsn }

/-- The buffer right after `buf_dblwr_init` on an all-zero header. -/
def idle_dblwr : buf_dblwr_t :=
  buf_dblwr_init innodb_config (fun _ => 0) (fun _ => 0)

/-- The buffer after two pages were added to `idle_dblwr`. -/
def two_page_batch : buf_dblwr_t :=
  (add_to_batch innodb_config lenient_env 1
    (add_to_batch innodb_config lenient_env 1 idle_dblwr
      (sample_page 7 3 100) false 16384).d
    (sample_page 7 4 101) true 16384).d

/-- The system after `buf_dblwr_init`, two calls of `add_to_batch` and a call
of `buf_dblwr_flush_buffered_writes`: a batch of two pages is in flight. -/
def committed_sys : Sys :=
  Sys.flush innodb_config lenient_env
    (Sys.add innodb_config lenient_env 1
      (Sys.add innodb_config lenient_env 1 ⟨idle_dblwr, 0, false⟩
        (sample_page 7 3 100) false 16384)
      (sample_page 7 4 101) true 16384)

/-- The system `committed_sys` after the completion of one of its two
data-file writes was reported. -/
def half_done_sys : Sys := Sys.update_enter committed_sys

/-- A page that the flush accepts: `ut_a(bpage->in_file())` holds, and the
validation loop either skips it (not an uncompressed file page) or
`buf_dblwr_check_block` returns for it. -/
def page_flushable (cfg : Config) (env : Env) (b : buf_page_t) : Prop :=
  b.in_file = true ∧
  (b.state ≠ buf_page_state.BUF_BLOCK_FILE_PAGE ∨ b.zip_data = true
    ∨ buf_dblwr_check_block cfg env b = true)

/-- Two pages, enough to fill the batch of `tiny_config`. -/
def sample_pages : List (buf_page_t × Bool × Nat) :=
  [(sample_page 7 3 100, false, 16384), (sample_page 7 4 101, true, 16384)]

/-- A system tablespace file that is zero except for the doublewrite header
in its TRX_SYS page: the magic, `block1 = 64`, `block2 = 128` and the
space-id-stored marker. -/
def sample_sys_file : Bytes :=
  mach_write_to_4 (mach_write_to_4 (mach_write_to_4 (mach_write_to_4 (fun _ => 0)
    98114 536853855) 98118 64) 98122 128) 98138 1783657386

/-- Data files with `sample_sys_file` as tablespace 0 and zeros elsewhere. -/
def sample_disk0 : Disk :=
  fun s => if s = 0 then sample_sys_file else fun _ => 0

/-- A batch of one page, `(7, page_no)` with LSN 100, in a buffer initialised
from the header of `sample_sys_file`. -/
def sample_batch (page_no : Nat) : buf_dblwr_t :=
  (add_to_batch tiny_config lenient_env 1
    (buf_dblwr_init tiny_config (doublewrite_header tiny_config sample_sys_file) (fun _ => 0))
    (sample_page 7 page_no 100) false 16384).d

/-- The data files after a crash that follows the `fil_flush` of the flush of
`sample_batch`: the stage write is on disk, the data-file write is not. -/
def sample_crash (page_no : Nat) : Disk :=
  apply_writes tiny_config sample_disk0
    (writes_before_flush
      (buf_dblwr_flush_buffered_writes tiny_config lenient_env
        (some (sample_batch page_no))).trace)

/-- A recovery environment: the log was parsed from LSN 50 and scanned to LSN
200, tablespace 7 exists with 100 uncompressed pages, a page validates when
its type field is `FIL_PAGE_TYPE_SYS`, and no request fails. -/
def sample_renv : RecvEnv :=
  { parse_start_lsn := 50
    scanned_lsn := 200
    fil_space_acquire_for_io := fun s => if s = 7 then some ⟨100, 16384, 0⟩ else none
    validate_page := fun _ b _ => decide (mach_read_from_2 b 24 = 6)
    find_page := recv_dblwr_find_page tiny_config 200
      (fun _ b _ => decide (mach_read_from_2 b 24 = 6))
    fil_io_read_err := fun _ => dberr_t.DB_SUCCESS
    fil_io_write_node := fun _ => true }

/-- The system tablespace file of `sample_crash`, every request succeeding. -/
def sample_file (page_no : Nat) : os_file_t :=
  { content := sample_crash page_no 0
    read_err := fun _ _ => dberr_t.DB_SUCCESS
    write_err := fun _ _ => dberr_t.DB_SUCCESS }

/-- The result of `buf_dblwr_init_or_load_pages` on `sample_file`. -/
def sample_loaded (page_no : Nat) : Loaded :=
  buf_dblwr_init_or_load_pages tiny_config (sample_file page_no)
    (fun _ => 0) (fun _ => 0) none []

/-- A system tablespace file that is zero everywhere, every request
succeeding: its TRX_SYS page carries no doublewrite magic. -/
def blank_file : os_file_t :=
  { content := fun _ => 0
    read_err := fun _ _ => dberr_t.DB_SUCCESS
    write_err := fun _ _ => dberr_t.DB_SUCCESS }

/-- A system tablespace file of the old format, every request succeeding:
its doublewrite header has the magic, `block1 = 64` and `block2 = 128`, the
space-id-stored marker is missing, and page 64 has 9 in the last byte of its
space-id field and 7 in the byte that follows the field. -/
def old_format_file : os_file_t :=
  { content := fun x =>
      if x = 64 * 16384 + 37 then 9
      else if x = 64 * 16384 + 38 then 7
      else mach_write_to_4 (mach_write_to_4 (mach_write_to_4 (fun _ => 0)
        98114 536853855) 98118 64) 98122 128 x
    read_err := fun _ _ => dberr_t.DB_SUCCESS
    write_err := fun _ _ => dberr_t.DB_SUCCESS }

/-- The file `sample_sys_file` on a device that fails every read at offset
`64 * 16384`, the place of the first doublewrite block, with error code 1. -/
def unreadable_file : os_file_t :=
  { content := sample_sys_file
    read_err := fun offset _ => if offset = 64 * 16384 then dberr_t.DB_FAIL 1
      else dberr_t.DB_SUCCESS
    write_err := fun _ _ => dberr_t.DB_SUCCESS }

/-- An allocator for a system tablespace of 768 pages with extents of 64
pages: `fseg_create` succeeds and leaves the frame as it is, and the `i`-th
call of `fseg_alloc_free_page` returns page `i + 32`, so that the 33rd page
of the segment is page 64 and the 97th is page 128. -/
def sample_cenv : CreateEnv :=
  { FSP_EXTENT_SIZE := 64
    TRX_SYS_DOUBLEWRITE_REPEAT := 12
    sys_space_first_size := 768
    fseg_create := fun frame => some frame
    fseg_alloc_free_page := fun i => some (i + 32) }

/-- The allocator `sample_cenv` on a first file of 100 pages, fewer than
three extents. -/
def small_cenv : CreateEnv :=
  { sample_cenv with sys_space_first_size := 100 }

/-- The allocator `sample_cenv` with `fseg_create` returning `NULL`. -/
def no_segment_cenv : CreateEnv :=
  { sample_cenv with fseg_create := fun _ => none }

/-- The allocator `sample_cenv` with `fseg_alloc_free_page` returning `NULL`
from its call 40 on: the tablespace is full after 40 pages. -/
def full_cenv : CreateEnv :=
  { sample_cenv with fseg_alloc_free_page := fun i => if i < 40 then some (i + 32) else none }

/-- The state before the first call of `buf_dblwr_create` on a TRX_SYS page
that is all zero. -/
def fresh_state : CreateState :=
  { buf_dblwr := none
    buf_dblwr_being_created := false
    frame := fun _ => 0
    trace := [] }

/-- A page module whose simple validation rejects every page. -/
def strict_env : Env :=
  { page_is_comp := fun _ => true
    page_simple_validate_new := fun _ => false
    page_simple_validate_old := fun _ => false }

/-- An uncompressed file page `(7, 3)` whose frame has the page type
`FIL_PAGE_INDEX` (17855, the bytes 69 and 191) and is zero elsewhere. -/
def index_page : buf_page_t :=
  { id := ⟨7, 3⟩
    state := buf_page_state.BUF_BLOCK_FILE_PAGE
    in_file := true
    zip_data := false
    zip_size := 0
    frame := fun j => if j = 24 then 69 else if j = 25 then 191 else 0
    get_frame := fun j => if j = 24 then 69 else if j = 25 then 191 else 0 }

/-- The buffer after `index_page` was added to `idle_dblwr`. -/
def index_page_batch : buf_dblwr_t :=
  (add_to_batch innodb_config lenient_env 1 idle_dblwr index_page false 16384).d

/-- The request that `buf_dblwr_write_block_to_datafile` issues for a slot
whose page is in a file. -/
def slot_write (e : element) : Event :=
  Event.fil_io_write false e.bpage.id e.bpage.zip_size
    (if e.bpage.zip_data then e.bpage.zip_size else e.size)
    e.bpage.get_frame (some e.bpage) e.lru

/-- The stage write to the first doublewrite block. -/
def stage_write1 (cfg : Config) (d : buf_dblwr_t) : Event :=
  Event.fil_io_write true ⟨cfg.TRX_SYS_SPACE, d.block1⟩ 0
    (min cfg.TRX_SYS_DOUBLEWRITE_BLOCK_SIZE d.first_free * srv_page_size cfg)
    d.write_buf none false

/-- The stage write to the second doublewrite block. -/
def stage_write2 (cfg : Config) (d : buf_dblwr_t) : Event :=
  Event.fil_io_write true ⟨cfg.TRX_SYS_SPACE, d.block2⟩ 0
    ((d.first_free - cfg.TRX_SYS_DOUBLEWRITE_BLOCK_SIZE) * srv_page_size cfg)
    (d.write_buf.plus (cfg.TRX_SYS_DOUBLEWRITE_BLOCK_SIZE * srv_page_size cfg)) none false

/-! ## The flush protocol -/

theorem srv_page_size_eq (cfg : Config) : srv_page_size cfg = 2 ^ cfg.srv_page_size_shift := by
  simp [srv_page_size, Nat.shiftLeft_eq]

theorem shift_eq_mul_page_size (cfg : Config) (n : Nat) :
    n <<< cfg.srv_page_size_shift = n * srv_page_size cfg := by
  simp [srv_page_size, Nat.shiftLeft_eq]

theorem check_slots_iff (cfg : Config) (env : Env) (d : buf_dblwr_t) :
    buf_dblwr_check_slots cfg env d = true ↔
      ∀ i, i < d.first_free → buf_dblwr_check_slot cfg env d i = true := by
  simp [buf_dblwr_check_slots, List.all_eq_true]

theorem check_slot_some (cfg : Config) (env : Env) (d : buf_dblwr_t) (i : Nat)
    (h : buf_dblwr_check_slot cfg env d i = true) : ∃ e, d.buf_block_arr i = some e := by
  unfold buf_dblwr_check_slot at h
  cases harr : d.buf_block_arr i with
  | none => simp [harr] at h
  | some e => exact ⟨e, rfl⟩

theorem check_slots_running (cfg : Config) (env : Env) (d : buf_dblwr_t) (b : Bool) :
    buf_dblwr_check_slots cfg env { d with batch_running := b }
      = buf_dblwr_check_slots cfg env d := rfl

theorem write_blocks_running (d : buf_dblwr_t) (b : Bool) (i n : Nat) :
    buf_dblwr_write_blocks { d with batch_running := b } i n = buf_dblwr_write_blocks d i n := by
  induction n generalizing i with
  | zero => rfl
  | succ n ih => simp only [buf_dblwr_write_blocks, ih]

theorem write_blocks_ok (d : buf_dblwr_t) (n : Nat) : ∀ i : Nat,
    (∀ j, j < n → ∃ e, d.buf_block_arr (i + j) = some e ∧ e.bpage.in_file = true) →
    (buf_dblwr_write_blocks d i n).2 = Outcome.returned ∧
    (buf_dblwr_write_blocks d i n).1.length = n ∧
    ∀ j, j < n → ∃ e, d.buf_block_arr (i + j) = some e ∧
      (buf_dblwr_write_blocks d i n).1[j]? = some (slot_write e) := by
  induction n with
  | zero =>
    intro i _
    simp [buf_dblwr_write_blocks]
  | succ n ih =>
    intro i h
    obtain ⟨e, he, hf⟩ := h 0 (Nat.succ_pos n)
    simp only [Nat.add_zero] at he
    have hrest : ∀ j, j < n → ∃ e, d.buf_block_arr (i + 1 + j) = some e ∧ e.bpage.in_file = true := by
      intro j hj
      have := h (j + 1) (Nat.succ_lt_succ hj)
      rwa [show i + (j + 1) = i + 1 + j by omega] at this
    obtain ⟨h1, h2, h3⟩ := ih (i + 1) hrest
    have hw : buf_dblwr_write_block_to_datafile e = some (slot_write e) := by
      simp [buf_dblwr_write_block_to_datafile, slot_write, hf]
    simp only [buf_dblwr_write_blocks, he, hw]
    refine ⟨h1, by simp [h2], ?_⟩
    intro j hj
    cases j with
    | zero => exact ⟨e, by simpa using he, by simp⟩
    | succ j =>
      obtain ⟨e', he', hg⟩ := h3 j (Nat.lt_of_succ_lt_succ hj)
      refine ⟨e', ?_, by simpa using hg⟩
      rwa [show i + (j + 1) = i + 1 + j by omega]

theorem stage_writes_eq (cfg : Config) (d : buf_dblwr_t) :
    buf_dblwr_stage_writes cfg d =
      if d.first_free ≤ cfg.TRX_SYS_DOUBLEWRITE_BLOCK_SIZE then [stage_write1 cfg d]
      else [stage_write1 cfg d, stage_write2 cfg d] := by
  simp only [buf_dblwr_stage_writes, stage_write1, stage_write2, shift_eq_mul_page_size]

theorem stage_writes_running (cfg : Config) (d : buf_dblwr_t) (b : Bool) :
    buf_dblwr_stage_writes cfg { d with batch_running := b } = buf_dblwr_stage_writes cfg d := rfl

/-- The committing path of the flush, spelled out. -/
theorem flush_commit_eq (cfg : Config) (env : Env) (d : buf_dblwr_t)
    (hen : cfg.srv_use_doublewrite_buf = true) (hpos : 0 < d.first_free)
    (hrun : d.batch_running = false) (hchk : buf_dblwr_check_slots cfg env d = true) :
    buf_dblwr_flush_buffered_writes cfg env (some d) =
      ⟨some { d with batch_running := true },
        buf_dblwr_stage_writes cfg d ++ [Event.fil_flush cfg.TRX_SYS_SPACE]
          ++ (buf_dblwr_write_blocks d 0 d.first_free).1,
        (buf_dblwr_write_blocks d 0 d.first_free).2⟩ := by
  have h0 : d.first_free ≠ 0 := Nat.pos_iff_ne_zero.mp hpos
  simp [buf_dblwr_flush_buffered_writes, hen, h0, hrun, check_slots_running, hchk,
    write_blocks_running, stage_writes_running]

/-- The trace of a committing flush: nothing when the validation loop ends
the process, else the stage writes, the `fil_flush` and the data-file writes
issued until the loop over the slots ended. -/
theorem flush_trace_cases (cfg : Config) (env : Env) (d : buf_dblwr_t)
    (hen : cfg.srv_use_doublewrite_buf = true) (hpos : 0 < d.first_free)
    (hrun : d.batch_running = false) :
    (buf_dblwr_flush_buffered_writes cfg env (some d)).trace = [] ∨
    (buf_dblwr_flush_buffered_writes cfg env (some d)).trace =
      buf_dblwr_stage_writes cfg d ++ [Event.fil_flush cfg.TRX_SYS_SPACE]
        ++ (buf_dblwr_write_blocks d 0 d.first_free).1 := by
  cases hchk : buf_dblwr_check_slots cfg env d with
  | true => right; rw [flush_commit_eq cfg env d hen hpos hrun hchk]
  | false =>
    left
    have h0 : d.first_free ≠ 0 := Nat.pos_iff_ne_zero.mp hpos
    simp [buf_dblwr_flush_buffered_writes, hen, h0, hrun, check_slots_running, hchk]

theorem write_blocks_mem (d : buf_dblwr_t) (n : Nat) : ∀ (i : Nat) (ev : Event),
    ev ∈ (buf_dblwr_write_blocks d i n).1 → ∃ e, ev = slot_write e := by
  induction n with
  | zero => intro i ev h; simp [buf_dblwr_write_blocks] at h
  | succ n ih =>
    intro i ev h
    cases harr : d.buf_block_arr i with
    | none => simp [buf_dblwr_write_blocks, harr] at h
    | some e =>
      cases hw : buf_dblwr_write_block_to_datafile e with
      | none => simp [buf_dblwr_write_blocks, harr, hw] at h
      | some w =>
        simp only [buf_dblwr_write_blocks, harr, hw, List.mem_cons] at h
        rcases h with h | h
        · refine ⟨e, ?_⟩
          subst h
          by_cases hf : e.bpage.in_file = true
          · have hs : buf_dblwr_write_block_to_datafile e = some (slot_write e) := by
              simp [buf_dblwr_write_block_to_datafile, slot_write, hf]
            rw [hs] at hw
            exact (Option.some.inj hw).symm
          · simp [buf_dblwr_write_block_to_datafile, hf] at hw
        · exact ih (i + 1) ev h

/-- C1. A committed flush (doublewrite enabled, `first_free = k > 0`, no batch
running) that is not terminated by its checks issues, in this order: the
synchronous stage write of `min(N, k)` pages to block 1 of the system
tablespace, then, when `k > N`, the stage write of the remaining `k - N`
pages to block 2, then one `fil_flush` of the system tablespace, and then
exactly `k` data-file writes, the `i`-th being the write of slot `i`.  So at
least one stage write precedes the `fil_flush`, and nothing but stage writes
does.  And in every committed flush, terminated or not, each data-file write
comes after the `fil_flush` of the system tablespace. -/
theorem flush_trace_order (cfg : Config) (env : Env) (d : buf_dblwr_t) (k : Nat)
    (hen : cfg.srv_use_doublewrite_buf = true) (hk : d.first_free = k) (hpos : 0 < k)
    (hrun : d.batch_running = false) :
    (buf_dblwr_check_slots cfg env d = true →
      (∀ i e, i < k → d.buf_block_arr i = some e → e.bpage.in_file = true) →
      ∃ ws : List Event,
        (buf_dblwr_flush_buffered_writes cfg env (some d)).outcome = Outcome.returned ∧
        (buf_dblwr_flush_buffered_writes cfg env (some d)).trace =
          Event.fil_io_write true ⟨cfg.TRX_SYS_SPACE, d.block1⟩ 0
              (min cfg.TRX_SYS_DOUBLEWRITE_BLOCK_SIZE k * srv_page_size cfg)
              d.write_buf none false ::
            ((if k ≤ cfg.TRX_SYS_DOUBLEWRITE_BLOCK_SIZE then []
              else
                [Event.fil_io_write true ⟨cfg.TRX_SYS_SPACE, d.block2⟩ 0
                  ((k - cfg.TRX_SYS_DOUBLEWRITE_BLOCK_SIZE) * srv_page_size cfg)
                  (d.write_buf.plus (cfg.TRX_SYS_DOUBLEWRITE_BLOCK_SIZE * srv_page_size cfg))
                  none false])
              ++ [Event.fil_flush cfg.TRX_SYS_SPACE] ++ ws) ∧
        ws.length = k ∧
        (∀ i, i < k → ∃ e, d.buf_block_arr i = some e ∧ ws[i]? = some (slot_write e))) ∧
    (buf_dblwr_stage_writes cfg d ≠ [] ∧
      ∀ ev, ev ∈ buf_dblwr_stage_writes cfg d →
        ev = stage_write1 cfg d ∨ ev = stage_write2 cfg d) ∧
    (∀ (pre : List Event) (ev : Event) (post : List Event),
      (buf_dblwr_flush_buffered_writes cfg env (some d)).trace = pre ++ ev :: post →
      is_datafile_write ev = true → Event.fil_flush cfg.TRX_SYS_SPACE ∈ pre) := by
  subst hk
  have hstage : ∀ ev, ev ∈ buf_dblwr_stage_writes cfg d →
      ev = stage_write1 cfg d ∨ ev = stage_write2 cfg d := by
    intro ev hev
    rw [stage_writes_eq] at hev
    split at hev <;> simp at hev <;> tauto
  have hne : buf_dblwr_stage_writes cfg d ≠ [] := by
    rw [stage_writes_eq]
    split_ifs <;> simp
  refine ⟨?_, ⟨hne, hstage⟩, ?_⟩
  · intro hchk hfile
    have hall : ∀ j, j < d.first_free →
        ∃ e, d.buf_block_arr (0 + j) = some e ∧ e.bpage.in_file = true := by
      intro j hj
      obtain ⟨e, he⟩ := check_slot_some cfg env d j ((check_slots_iff cfg env d).mp hchk j hj)
      exact ⟨e, by simpa using he, hfile j e hj he⟩
    obtain ⟨h1, h2, h3⟩ := write_blocks_ok d d.first_free 0 hall
    refine ⟨(buf_dblwr_write_blocks d 0 d.first_free).1, ?_, ?_, h2, ?_⟩
    · rw [flush_commit_eq cfg env d hen hpos hrun hchk]; exact h1
    · rw [flush_commit_eq cfg env d hen hpos hrun hchk, stage_writes_eq]
      simp only [stage_write1, stage_write2]
      split_ifs <;> rfl
    · intro i hi
      simpa using h3 i hi
  · intro pre ev post htr hdw
    rcases flush_trace_cases cfg env d hen hpos hrun with h | h
    · rw [h] at htr
      simp at htr
    · rw [h] at htr
      rcases List.append_eq_append_iff.mp htr with ⟨a, ha, _⟩ | ⟨c, hc, hc2⟩
      · rw [ha]
        simp
      · cases c with
        | nil =>
          rw [List.append_nil] at hc
          rw [← hc]
          simp
        | cons x c =>
          simp only [List.cons_append, List.cons.injEq] at hc2
          have hmem : ev ∈ buf_dblwr_stage_writes cfg d ++ [Event.fil_flush cfg.TRX_SYS_SPACE] := by
            rw [hc, ← hc2.1]
            simp
          rcases List.mem_append.mp hmem with hm | hm
          · rcases hstage ev hm with rfl | rfl
            · simp [stage_write1, is_datafile_write] at hdw
            · simp [stage_write2, is_datafile_write] at hdw
          · simp only [List.mem_singleton] at hm
            subst hm
            simp [is_datafile_write] at hdw

theorem two_page_batch_slots (i : Nat) (e : element) (hi : i < 2)
    (he : two_page_batch.buf_block_arr i = some e) : e.bpage.in_file = true := by
  interval_cases i
  · have h0 : two_page_batch.buf_block_arr 0 = some ⟨sample_page 7 3 100, false, 16384⟩ := rfl
    rw [h0] at he
    cases he
    rfl
  · have h1 : two_page_batch.buf_block_arr 1 = some ⟨sample_page 7 4 101, true, 16384⟩ := rfl
    rw [h1] at he
    cases he
    rfl

theorem flush_trace_order_witness :
    ∃ ws : List Event,
      (buf_dblwr_flush_buffered_writes innodb_config lenient_env
        (some two_page_batch)).outcome = Outcome.returned ∧
      (buf_dblwr_flush_buffered_writes innodb_config lenient_env (some two_page_batch)).trace =
        Event.fil_io_write true ⟨innodb_config.TRX_SYS_SPACE, two_page_batch.block1⟩ 0
            (min innodb_config.TRX_SYS_DOUBLEWRITE_BLOCK_SIZE 2 * srv_page_size innodb_config)
            two_page_batch.write_buf none false ::
          ((if 2 ≤ innodb_config.TRX_SYS_DOUBLEWRITE_BLOCK_SIZE then []
            else
              [Event.fil_io_write true ⟨innodb_config.TRX_SYS_SPACE, two_page_batch.block2⟩ 0
                ((2 - innodb_config.TRX_SYS_DOUBLEWRITE_BLOCK_SIZE)
                  * srv_page_size innodb_config)
                (two_page_batch.write_buf.plus
                  (innodb_config.TRX_SYS_DOUBLEWRITE_BLOCK_SIZE * srv_page_size innodb_config))
                none false])
            ++ [Event.fil_flush innodb_config.TRX_SYS_SPACE] ++ ws) ∧
      ws.length = 2 ∧
      (∀ i, i < 2 → ∃ e, two_page_batch.buf_block_arr i = some e ∧
        ws[i]? = some (slot_write e)) :=
  (flush_trace_order innodb_config lenient_env two_page_batch 2 rfl rfl (by decide) rfl).1
    (by decide) two_page_batch_slots

/-- C3. In a committed flush with `first_free = k`, `0 < k <= 2N`, that is not
terminated by its checks, the requests before the `fil_flush` are: one
synchronous write at page `block1` of the system tablespace, from offset 0 of
the staging buffer, `min(N, k)` pages long; and, exactly when `k > N`, one
more at page `block2`, from staging offset `N` pages, `k - N` pages long.  The
second starts where the first ends and together they are `k` pages; what
follows the `fil_flush` are writes of slots only. -/
theorem flush_stage_writes (cfg : Config) (env : Env) (d : buf_dblwr_t) (k : Nat)
    (hen : cfg.srv_use_doublewrite_buf = true) (hk : d.first_free = k) (hpos : 0 < k)
    (hle : k ≤ 2 * cfg.TRX_SYS_DOUBLEWRITE_BLOCK_SIZE)
    (hrun : d.batch_running = false)
    (hchk : buf_dblwr_check_slots cfg env d = true) :
    ∃ ws : List Event,
      (∀ ev, ev ∈ ws → ∃ e, ev = slot_write e) ∧
      (buf_dblwr_flush_buffered_writes cfg env (some d)).trace =
        (if k ≤ cfg.TRX_SYS_DOUBLEWRITE_BLOCK_SIZE then
          [Event.fil_io_write true ⟨cfg.TRX_SYS_SPACE, d.block1⟩ 0
            (min cfg.TRX_SYS_DOUBLEWRITE_BLOCK_SIZE k * srv_page_size cfg)
            d.write_buf none false]
        else
          [Event.fil_io_write true ⟨cfg.TRX_SYS_SPACE, d.block1⟩ 0
            (min cfg.TRX_SYS_DOUBLEWRITE_BLOCK_SIZE k * srv_page_size cfg)
            d.write_buf none false,
           Event.fil_io_write true ⟨cfg.TRX_SYS_SPACE, d.block2⟩ 0
            ((k - cfg.TRX_SYS_DOUBLEWRITE_BLOCK_SIZE) * srv_page_size cfg)
            (d.write_buf.plus (cfg.TRX_SYS_DOUBLEWRITE_BLOCK_SIZE * srv_page_size cfg))
            none false])
        ++ [Event.fil_flush cfg.TRX_SYS_SPACE] ++ ws ∧
      (cfg.TRX_SYS_DOUBLEWRITE_BLOCK_SIZE < k →
        min cfg.TRX_SYS_DOUBLEWRITE_BLOCK_SIZE k * srv_page_size cfg
            = cfg.TRX_SYS_DOUBLEWRITE_BLOCK_SIZE * srv_page_size cfg ∧
        k - cfg.TRX_SYS_DOUBLEWRITE_BLOCK_SIZE ≤ cfg.TRX_SYS_DOUBLEWRITE_BLOCK_SIZE ∧
        min cfg.TRX_SYS_DOUBLEWRITE_BLOCK_SIZE k + (k - cfg.TRX_SYS_DOUBLEWRITE_BLOCK_SIZE) = k) ∧
      (k ≤ cfg.TRX_SYS_DOUBLEWRITE_BLOCK_SIZE → min cfg.TRX_SYS_DOUBLEWRITE_BLOCK_SIZE k = k) := by
  subst hk
  refine ⟨(buf_dblwr_write_blocks d 0 d.first_free).1, write_blocks_mem d d.first_free 0, ?_, ?_, ?_⟩
  · rw [flush_commit_eq cfg env d hen hpos hrun hchk, stage_writes_eq]
    simp only [stage_write1, stage_write2]
  · intro hlt
    refine ⟨?_, by omega, ?_⟩
    · rw [Nat.min_eq_left (Nat.le_of_lt hlt)]
    · rw [Nat.min_eq_left (Nat.le_of_lt hlt)]; omega
  · intro hk
    exact Nat.min_eq_right hk

theorem flush_stage_writes_witness :
    ∃ ws : List Event,
      (∀ ev, ev ∈ ws → ∃ e, ev = slot_write e) ∧
      (buf_dblwr_flush_buffered_writes innodb_config lenient_env (some two_page_batch)).trace =
        (if 2 ≤ innodb_config.TRX_SYS_DOUBLEWRITE_BLOCK_SIZE then
          [Event.fil_io_write true ⟨innodb_config.TRX_SYS_SPACE, two_page_batch.block1⟩ 0
            (min innodb_config.TRX_SYS_DOUBLEWRITE_BLOCK_SIZE 2 * srv_page_size innodb_config)
            two_page_batch.write_buf none false]
        else
          [Event.fil_io_write true ⟨innodb_config.TRX_SYS_SPACE, two_page_batch.block1⟩ 0
            (min innodb_config.TRX_SYS_DOUBLEWRITE_BLOCK_SIZE 2 * srv_page_size innodb_config)
            two_page_batch.write_buf none false,
           Event.fil_io_write true ⟨innodb_config.TRX_SYS_SPACE, two_page_batch.block2⟩ 0
            ((2 - innodb_config.TRX_SYS_DOUBLEWRITE_BLOCK_SIZE) * srv_page_size innodb_config)
            (two_page_batch.write_buf.plus
              (innodb_config.TRX_SYS_DOUBLEWRITE_BLOCK_SIZE * srv_page_size innodb_config))
            none false])
        ++ [Event.fil_flush innodb_config.TRX_SYS_SPACE] ++ ws ∧
      (innodb_config.TRX_SYS_DOUBLEWRITE_BLOCK_SIZE < 2 →
        min innodb_config.TRX_SYS_DOUBLEWRITE_BLOCK_SIZE 2 * srv_page_size innodb_config
            = innodb_config.TRX_SYS_DOUBLEWRITE_BLOCK_SIZE * srv_page_size innodb_config ∧
        2 - innodb_config.TRX_SYS_DOUBLEWRITE_BLOCK_SIZE
            ≤ innodb_config.TRX_SYS_DOUBLEWRITE_BLOCK_SIZE ∧
        min innodb_config.TRX_SYS_DOUBLEWRITE_BLOCK_SIZE 2
            + (2 - innodb_config.TRX_SYS_DOUBLEWRITE_BLOCK_SIZE) = 2) ∧
      (2 ≤ innodb_config.TRX_SYS_DOUBLEWRITE_BLOCK_SIZE →
        min innodb_config.TRX_SYS_DOUBLEWRITE_BLOCK_SIZE 2 = 2) :=
  flush_stage_writes innodb_config lenient_env two_page_batch 2 rfl rfl (by decide) (by decide)
    rfl (by decide)

/-! ## Batch assembly -/

theorem flush_state (cfg : Config) (env : Env) (d : buf_dblwr_t) :
    ∃ b, (buf_dblwr_flush_buffered_writes cfg env (some d)).buf_dblwr
      = some { d with batch_running := b } := by
  unfold buf_dblwr_flush_buffered_writes
  simp only
  split_ifs
  · exact ⟨d.batch_running, rfl⟩
  · exact ⟨d.batch_running, rfl⟩
  · exact ⟨d.batch_running, rfl⟩
  · exact ⟨true, rfl⟩
  · exact ⟨true, rfl⟩

theorem ulint_inc_le (n : Nat) : ulint_inc n ≤ n + 1 :=
  Nat.mod_le _ _

theorem ulint_inc_eq (n : Nat) (h : n + 1 < 2 ^ 64) : ulint_inc n = n + 1 :=
  Nat.mod_eq_of_lt h

theorem buf_size_lt (cfg : Config) : buf_size cfg < 2 ^ 64 := cfg.capacity_is_ulint

/-- Below the capacity the increment of a counter does not wrap around. -/
theorem ulint_inc_below (cfg : Config) (n : Nat) (h : n < buf_size cfg) :
    ulint_inc n = n + 1 :=
  ulint_inc_eq n (by have := buf_size_lt cfg; omega)

theorem add_to_batch_store_eq (cfg : Config) (env : Env) (fuel : Nat) (d : buf_dblwr_t)
    (bpage : buf_page_t) (lru : Bool) (size : Nat)
    (hrun : d.batch_running = false) (hne : d.first_free ≠ buf_size cfg) :
    add_to_batch cfg env (fuel + 1) d bpage lru size =
      if ulint_inc d.first_free = buf_size cfg then
        ⟨(buf_dblwr_flush_buffered_writes cfg env
            (some (add_to_batch_stored cfg d bpage lru size))).buf_dblwr.getD
            (add_to_batch_stored cfg d bpage lru size),
          (buf_dblwr_flush_buffered_writes cfg env
            (some (add_to_batch_stored cfg d bpage lru size))).trace,
          (buf_dblwr_flush_buffered_writes cfg env
            (some (add_to_batch_stored cfg d bpage lru size))).outcome⟩
      else
        ⟨add_to_batch_stored cfg d bpage lru size, [], Outcome.returned⟩ := by
  simp only [add_to_batch, hrun, hne, add_to_batch_stored]
  simp

/-- The fields of the state after a storing call of `add_to_batch`, apart
from `batch_running`. -/
theorem add_to_batch_store_fields (cfg : Config) (env : Env) (fuel : Nat) (d : buf_dblwr_t)
    (bpage : buf_page_t) (lru : Bool) (size : Nat)
    (hrun : d.batch_running = false) (hne : d.first_free ≠ buf_size cfg) :
    ∃ b, (add_to_batch cfg env (fuel + 1) d bpage lru size).d =
      { add_to_batch_stored cfg d bpage lru size with batch_running := b } := by
  rw [add_to_batch_store_eq cfg env fuel d bpage lru size hrun hne]
  split_ifs
  · obtain ⟨b, hb⟩ := flush_state cfg env (add_to_batch_stored cfg d bpage lru size)
    exact ⟨b, by simp [hb]⟩
  · exact ⟨d.batch_running, rfl⟩

theorem buf_size_eq (cfg : Config) : buf_size cfg = 2 * cfg.TRX_SYS_DOUBLEWRITE_BLOCK_SIZE := rfl

/-- What one storing call of `add_to_batch` does to the buffer. -/
theorem add_to_batch_one (cfg : Config) (env : Env) (fuel : Nat) (d : buf_dblwr_t)
    (bpage : buf_page_t) (lru : Bool) (size : Nat)
    (hrun : d.batch_running = false) (hlt : d.first_free < buf_size cfg) :
    (∀ j, j < size →
      (add_to_batch cfg env (fuel + 1) d bpage lru size).d.write_buf
        (d.first_free * srv_page_size cfg + j) = bpage.get_frame j) ∧
    (add_to_batch cfg env (fuel + 1) d bpage lru size).d.buf_block_arr d.first_free
      = some ⟨bpage, lru, size⟩ ∧
    (add_to_batch cfg env (fuel + 1) d bpage lru size).d.first_free = d.first_free + 1 ∧
    (add_to_batch cfg env (fuel + 1) d bpage lru size).d.b_reserved = ulint_inc d.b_reserved ∧
    (∀ i, i < d.first_free →
      (add_to_batch cfg env (fuel + 1) d bpage lru size).d.buf_block_arr i
        = d.buf_block_arr i) ∧
    (∀ j, j < d.first_free * srv_page_size cfg →
      (add_to_batch cfg env (fuel + 1) d bpage lru size).d.write_buf j = d.write_buf j) ∧
    (d.first_free + 1 < buf_size cfg →
      (add_to_batch cfg env (fuel + 1) d bpage lru size).d.batch_running = false ∧
      (add_to_batch cfg env (fuel + 1) d bpage lru size).trace = [] ∧
      (add_to_batch cfg env (fuel + 1) d bpage lru size).outcome = Outcome.returned) := by
  obtain ⟨b, hb⟩ := add_to_batch_store_fields cfg env fuel d bpage lru size hrun (Nat.ne_of_lt hlt)
  refine ⟨?_, ?_, ?_, ?_, ?_, ?_, ?_⟩
  · intro j hj
    rw [hb]
    simp only [add_to_batch_stored, memcpy]
    rw [Nat.mul_comm (srv_page_size cfg) d.first_free]
    simp [hj]
  · rw [hb]; simp [add_to_batch_stored]
  · rw [hb]; exact ulint_inc_below cfg _ hlt
  · rw [hb]; rfl
  · intro i hi
    rw [hb]
    simp [add_to_batch_stored, Function.update, Nat.ne_of_lt hi]
  · intro j hj
    rw [hb]
    simp only [add_to_batch_stored, memcpy]
    rw [Nat.mul_comm (srv_page_size cfg) d.first_free]
    have : ¬ (d.first_free * srv_page_size cfg ≤ j ∧
        j < d.first_free * srv_page_size cfg + size) := by omega
    simp [this]
  · intro h
    rw [add_to_batch_store_eq cfg env fuel d bpage lru size hrun (Nat.ne_of_lt hlt)]
    rw [if_neg (by rw [ulint_inc_below cfg _ hlt]; exact Nat.ne_of_lt h)]
    exact ⟨hrun, rfl, rfl⟩

/-- Slots fill in call order: calls that start with no batch running and
stay within the capacity store their pages in consecutive slots. -/
theorem add_all_slots (cfg : Config) (env : Env) (fuel : Nat)
    (pages : List (buf_page_t × Bool × Nat)) : ∀ d : buf_dblwr_t,
    d.batch_running = false → d.first_free + pages.length ≤ buf_size cfg →
    (add_all cfg env (fuel + 1) d pages).first_free = d.first_free + pages.length ∧
    (d.b_reserved + pages.length < 2 ^ 64 →
      (add_all cfg env (fuel + 1) d pages).b_reserved = d.b_reserved + pages.length) ∧
    (∀ i, i < d.first_free →
      (add_all cfg env (fuel + 1) d pages).buf_block_arr i = d.buf_block_arr i) ∧
    (∀ i p, pages[i]? = some p →
      (add_all cfg env (fuel + 1) d pages).buf_block_arr (d.first_free + i)
        = some ⟨p.1, p.2.1, p.2.2⟩) ∧
    (d.first_free + pages.length < buf_size cfg →
      (add_all cfg env (fuel + 1) d pages).batch_running = false) := by
  induction pages with
  | nil =>
    intro d hrun _
    simp [add_all, hrun]
  | cons q qs ih =>
    intro d hrun hcap
    simp only [List.length_cons] at hcap
    have hlt : d.first_free < buf_size cfg := by omega
    obtain ⟨_, h2, h3, h4, h5, _, h7⟩ :=
      add_to_batch_one cfg env fuel d q.1 q.2.1 q.2.2 hrun hlt
    simp only [ulint_inc] at h4
    simp only [add_all, List.length_cons]
    cases qs with
    | nil =>
      simp only [add_all, List.length_nil]
      refine ⟨by omega, by intro hb; rw [h4]; omega, h5, ?_, ?_⟩
      · intro i p hp
        cases i with
        | zero =>
          simp only [List.getElem?_cons_zero, Option.some.injEq] at hp
          subst hp
          simpa using h2
        | succ i => simp at hp
      · intro hlt2
        exact (h7 (by omega)).1
    | cons r rs =>
      simp only [List.length_cons] at hcap
      have hrun1 := (h7 (by omega)).1
      obtain ⟨g1, g2, g3, g4, g5⟩ := ih _ hrun1 (by rw [h3]; simp only [List.length_cons]; omega)
      rw [h3] at g1 g3 g4 g5
      rw [h4] at g2
      refine ⟨by rw [g1]; omega, by intro hb; rw [g2 (by omega)]; omega, ?_, ?_, ?_⟩
      · intro i hi
        rw [g3 i (by omega), h5 i hi]
      · intro i p hp
        cases i with
        | zero =>
          simp only [List.getElem?_cons_zero, Option.some.injEq] at hp
          subst hp
          rw [g3 _ (by omega)]
          simpa using h2
        | succ i =>
          simp only [List.getElem?_cons_succ] at hp
          have := g4 i p hp
          rwa [show d.first_free + 1 + i = d.first_free + (i + 1) by omega] at this
      · intro hlt2
        exact g5 (by simp only [List.length_cons] at hlt2 ⊢; omega)

/-- C4. With no batch running and `first_free = f < 2N`, `add_to_batch(page,
lru, size)` copies the first `size` bytes of the page frame to byte offset
`f * srv_page_size` of the staging buffer, stores `{page, lru, size}` in slot
`f`, and increments the two `ulint` counters: `first_free` becomes `f + 1`
(below the capacity it cannot wrap around) and `b_reserved` becomes
`b_reserved + 1` modulo `2^64`, which is `b_reserved + 1` whenever
`b_reserved <= first_free`, as in every reachable state; the slots below `f`
and the staged bytes of the pages below `f` stay as they were.  Hence
successive calls that stay within the capacity fill consecutive slots in call
order: from an idle buffer (`f = 0`), slot `i` holds the `i`-th page added. -/
theorem add_to_batch_fills_slot (cfg : Config) (env : Env) (fuel : Nat) (d : buf_dblwr_t)
    (f : Nat) (hrun : d.batch_running = false) (hf : d.first_free = f) :
    (∀ (bpage : buf_page_t) (lru : Bool) (size : Nat),
      f < 2 * cfg.TRX_SYS_DOUBLEWRITE_BLOCK_SIZE →
      (∀ j, j < size →
        (add_to_batch cfg env (fuel + 1) d bpage lru size).d.write_buf
          (f * srv_page_size cfg + j) = bpage.get_frame j) ∧
      (add_to_batch cfg env (fuel + 1) d bpage lru size).d.buf_block_arr f
        = some ⟨bpage, lru, size⟩ ∧
      (add_to_batch cfg env (fuel + 1) d bpage lru size).d.first_free = f + 1 ∧
      (add_to_batch cfg env (fuel + 1) d bpage lru size).d.b_reserved
        = (d.b_reserved + 1) % 2 ^ 64 ∧
      (d.b_reserved ≤ f →
        (add_to_batch cfg env (fuel + 1) d bpage lru size).d.b_reserved = d.b_reserved + 1) ∧
      (∀ i, i < f →
        (add_to_batch cfg env (fuel + 1) d bpage lru size).d.buf_block_arr i
          = d.buf_block_arr i) ∧
      (∀ j, j < f * srv_page_size cfg →
        (add_to_batch cfg env (fuel + 1) d bpage lru size).d.write_buf j = d.write_buf j)) ∧
    (∀ pages : List (buf_page_t × Bool × Nat),
      f + pages.length ≤ 2 * cfg.TRX_SYS_DOUBLEWRITE_BLOCK_SIZE →
      (add_all cfg env (fuel + 1) d pages).first_free = f + pages.length ∧
      (d.b_reserved ≤ f →
        (add_all cfg env (fuel + 1) d pages).b_reserved = d.b_reserved + pages.length) ∧
      (∀ i, i < f →
        (add_all cfg env (fuel + 1) d pages).buf_block_arr i = d.buf_block_arr i) ∧
      (∀ i p, pages[i]? = some p →
        (add_all cfg env (fuel + 1) d pages).buf_block_arr (f + i)
          = some ⟨p.1, p.2.1, p.2.2⟩)) := by
  subst hf
  have hcapb := buf_size_lt cfg
  rw [buf_size_eq] at hcapb
  constructor
  · intro bpage lru size hlt
    obtain ⟨h1, h2, h3, h4, h5, h6, _⟩ :=
      add_to_batch_one cfg env fuel d bpage lru size hrun (by rw [buf_size_eq]; exact hlt)
    refine ⟨h1, h2, h3, h4, ?_, h5, h6⟩
    intro hle
    rw [h4]
    exact ulint_inc_eq _ (by omega)
  · intro pages hcap
    obtain ⟨h1, h2, h3, h4, _⟩ :=
      add_all_slots cfg env fuel pages d hrun (by rw [buf_size_eq]; exact hcap)
    exact ⟨h1, fun hle => h2 (by omega), h3, h4⟩

/-- The increment of `b_reserved` wraps around: from `first_free = 0` and
`b_reserved = 2^64 - 1` (the state after `buf_dblwr_update` was called on the
idle buffer), `add_to_batch` leaves `b_reserved = 0` and `first_free = 1`. -/
theorem add_to_batch_wraps :
    (buf_dblwr_update_decrement idle_dblwr).b_reserved = 2 ^ 64 - 1 ∧
    (add_to_batch innodb_config lenient_env 1 (buf_dblwr_update_decrement idle_dblwr)
      (sample_page 7 3 100) false 16384).d.b_reserved = 0 ∧
    (add_to_batch innodb_config lenient_env 1 (buf_dblwr_update_decrement idle_dblwr)
      (sample_page 7 3 100) false 16384).d.first_free = 1 := by
  refine ⟨?_, ?_, ?_⟩ <;> decide

theorem add_to_batch_fills_slot_witness :
    idle_dblwr.batch_running = false ∧ idle_dblwr.first_free = 0 ∧
    (add_to_batch innodb_config lenient_env 1 idle_dblwr
      (sample_page 7 3 100) false 16384).d.buf_block_arr 0
        = some ⟨sample_page 7 3 100, false, 16384⟩ ∧
    (add_to_batch innodb_config lenient_env (0 + 1) idle_dblwr
      (sample_page 7 3 100) false 16384).d.b_reserved = idle_dblwr.b_reserved + 1 ∧
    (add_to_batch innodb_config lenient_env (0 + 1) (buf_dblwr_update_decrement idle_dblwr)
      (sample_page 7 3 100) false 16384).d.b_reserved
        = ((buf_dblwr_update_decrement idle_dblwr).b_reserved + 1) % 2 ^ 64 ∧
    (add_all innodb_config lenient_env 1 idle_dblwr
      [(sample_page 7 3 100, false, 16384), (sample_page 7 4 101, true, 16384)]).buf_block_arr
        (0 + 1) = some ⟨sample_page 7 4 101, true, 16384⟩ :=
  ⟨rfl, rfl,
    ((add_to_batch_fills_slot innodb_config lenient_env 0 idle_dblwr 0 rfl rfl).1
      (sample_page 7 3 100) false 16384 (by decide)).2.1,
    ((add_to_batch_fills_slot innodb_config lenient_env 0 idle_dblwr 0 rfl rfl).1
      (sample_page 7 3 100) false 16384 (by decide)).2.2.2.2.1 (by decide),
    ((add_to_batch_fills_slot innodb_config lenient_env 0
      (buf_dblwr_update_decrement idle_dblwr) 0 rfl rfl).1
      (sample_page 7 3 100) false 16384 (by decide)).2.2.2.1,
    ((add_to_batch_fills_slot innodb_config lenient_env 0 idle_dblwr 0 rfl rfl).2
      [(sample_page 7 3 100, false, 16384), (sample_page 7 4 101, true, 16384)]
      (by decide)).2.2.2 1 (sample_page 7 4 101, true, 16384) rfl⟩

/-! ## The batch state machine -/

theorem datafile_writes_append (t u : List Event) :
    datafile_writes (t ++ u) = datafile_writes t + datafile_writes u := by
  induction t with
  | nil => simp [datafile_writes]
  | cons ev t ih =>
    cases ev with
    | fil_io_write sync id z len buf msg lru =>
      cases sync
      · show datafile_writes (t ++ u) + 1 = datafile_writes t + 1 + datafile_writes u
        omega
      · exact ih
    | _ => simp [datafile_writes, ih]

theorem datafile_writes_cons_le (ev : Event) (t : List Event) :
    datafile_writes (ev :: t) ≤ datafile_writes t + 1 := by
  cases ev with
  | fil_io_write sync id z len buf msg lru =>
    cases sync <;> simp [datafile_writes]
  | _ => simp [datafile_writes]

theorem datafile_writes_stage (cfg : Config) (d : buf_dblwr_t) :
    datafile_writes (buf_dblwr_stage_writes cfg d) = 0 := by
  rw [stage_writes_eq]
  split_ifs <;> simp [datafile_writes, stage_write1, stage_write2]

theorem datafile_writes_blocks (d : buf_dblwr_t) (n : Nat) : ∀ i,
    datafile_writes (buf_dblwr_write_blocks d i n).1 ≤ n := by
  induction n with
  | zero => intro i; simp [buf_dblwr_write_blocks, datafile_writes]
  | succ n ih =>
    intro i
    cases harr : d.buf_block_arr i with
    | none => simp [buf_dblwr_write_blocks, harr, datafile_writes]
    | some e =>
      cases hw : buf_dblwr_write_block_to_datafile e with
      | none => simp [buf_dblwr_write_blocks, harr, hw, datafile_writes]
      | some ev =>
        simp only [buf_dblwr_write_blocks, harr, hw]
        have h1 := ih (i + 1)
        have h2 := datafile_writes_cons_le ev (buf_dblwr_write_blocks d (i + 1) n).1
        omega

/-- What a call of the flush does to the state and how many data-file writes
it dispatches. -/
theorem flush_effect (cfg : Config) (env : Env) (d : buf_dblwr_t) :
    ((buf_dblwr_flush_buffered_writes cfg env (some d)).buf_dblwr = some d ∧
      datafile_writes (buf_dblwr_flush_buffered_writes cfg env (some d)).trace = 0) ∨
    (d.batch_running = false ∧ 0 < d.first_free ∧
      (buf_dblwr_flush_buffered_writes cfg env (some d)).buf_dblwr
        = some { d with batch_running := true } ∧
      datafile_writes (buf_dblwr_flush_buffered_writes cfg env (some d)).trace
        ≤ d.first_free) := by
  unfold buf_dblwr_flush_buffered_writes
  simp only
  split_ifs with h1 h2 h3 h4
  · left; exact ⟨rfl, rfl⟩
  · left; exact ⟨rfl, rfl⟩
  · left; exact ⟨rfl, rfl⟩
  · right
    refine ⟨by simpa using h3, Nat.pos_of_ne_zero h2, rfl, ?_⟩
    simp [datafile_writes]
  · right
    refine ⟨by simpa using h3, Nat.pos_of_ne_zero h2, rfl, ?_⟩
    simp only [datafile_writes_append, stage_writes_running, datafile_writes_stage,
      write_blocks_running, datafile_writes]
    have := datafile_writes_blocks d d.first_free 0
    omega

theorem flush_inv (cfg : Config) (env : Env) (d : buf_dblwr_t) (p : Nat) (f : Bool)
    (h : Inv cfg ⟨d, p, f⟩) :
    Inv cfg ⟨(buf_dblwr_flush_buffered_writes cfg env (some d)).buf_dblwr.getD d,
      p + datafile_writes (buf_dblwr_flush_buffered_writes cfg env (some d)).trace, f⟩ := by
  obtain ⟨i1, i2, i3, i4, i5⟩ := h
  simp only at i1 i2 i3 i4 i5
  rcases flush_effect cfg env d with ⟨hs, ht⟩ | ⟨hrun, _, hs, ht⟩
  · rw [hs, ht]
    exact ⟨i1, i2, i3, i4, i5⟩
  · rw [hs]
    obtain ⟨j1, j2⟩ := i4 hrun
    refine ⟨i1, i2, ?_, ?_, ?_⟩
    · simp only [Option.getD_some]
      omega
    · intro hc
      simp at hc
    · intro hf
      have := (i5 hf).1
      rw [hrun] at this
      cases this

theorem add_to_batch_inv (cfg : Config) (env : Env) (bpage : buf_page_t) (lru : Bool)
    (size : Nat) (f : Bool) : ∀ (fuel : Nat) (d : buf_dblwr_t) (p : Nat),
    Inv cfg ⟨d, p, f⟩ →
    Inv cfg ⟨(add_to_batch cfg env fuel d bpage lru size).d,
      p + datafile_writes (add_to_batch cfg env fuel d bpage lru size).trace, f⟩ := by
  intro fuel
  induction fuel with
  | zero =>
    intro d p h
    simpa [add_to_batch, datafile_writes] using h
  | succ fuel ih =>
    intro d p h
    by_cases hrun : d.batch_running = true
    · simpa [add_to_batch, hrun, datafile_writes] using h
    · have hrun : d.batch_running = false := by simpa using hrun
      by_cases hfull : d.first_free = buf_size cfg
      · have hfl := flush_inv cfg env d p f h
        simp only [add_to_batch, hrun, hfull, if_true, Bool.false_eq_true, if_false]
        cases ho : (buf_dblwr_flush_buffered_writes cfg env (some d)).outcome with
        | returned =>
          simp only
          have := ih _ _ hfl
          rw [datafile_writes_append, ← Nat.add_assoc]
          exact this
        | waiting => exact hfl
        | fatal => exact hfl
        | out_of_fuel => exact hfl
      · obtain ⟨i1, i2, i3, i4, i5⟩ := h
        simp only at i1 i2 i3 i4 i5
        obtain ⟨j1, j2⟩ := i4 hrun
        have hinc : ulint_inc d.first_free = d.first_free + 1 :=
          ulint_inc_below cfg _ (by omega)
        have hincb : ulint_inc d.b_reserved = d.b_reserved + 1 := by
          rw [← j1]
          exact hinc
        have hst : Inv cfg ⟨add_to_batch_stored cfg d bpage lru size, p, f⟩ := by
          refine ⟨?_, ?_, ?_, ?_, ?_⟩
          · simp only [add_to_batch_stored, hinc]; omega
          · simp only [add_to_batch_stored, hinc, hincb]; omega
          · simp only [add_to_batch_stored, hincb]; omega
          · intro _
            simp only [add_to_batch_stored, hinc, hincb]
            omega
          · intro hf
            have := (i5 hf).1
            rw [hrun] at this
            cases this
        rw [add_to_batch_store_eq cfg env fuel d bpage lru size hrun hfull]
        split_ifs
        · exact flush_inv cfg env _ p f hst
        · simpa [datafile_writes] using hst

theorem reachable_inv (cfg : Config) (env : Env) (s : Sys) (h : Reachable cfg env s) :
    Inv cfg s := by
  induction h with
  | init doublewrite fresh =>
    simp [Inv, buf_dblwr_init]
  | add s fuel bpage lru size _ ih =>
    exact add_to_batch_inv cfg env bpage lru size s.finishing fuel s.d s.pending ih
  | flush s _ ih =>
    exact flush_inv cfg env s.d s.pending s.finishing ih
  | update_enter s _ hp ih =>
    obtain ⟨i1, i2, i3, i4, i5⟩ := ih
    have hres : s.d.b_reserved ≠ 0 := by omega
    have hrun : s.d.batch_running = true := by
      cases hb : s.d.batch_running with
      | true => rfl
      | false => have := (i4 hb).2; omega
    refine ⟨i1, ?_, ?_, ?_, ?_⟩
    · simp only [Sys.update_enter, buf_dblwr_update_decrement, ulint_dec, hres, if_false]
      omega
    · simp only [Sys.update_enter, buf_dblwr_update_decrement, ulint_dec, hres, if_false]
      omega
    · intro hc
      simp only [Sys.update_enter, buf_dblwr_update_decrement] at hc
      rw [hrun] at hc
      cases hc
    · intro hf
      simp only [Sys.update_enter, decide_eq_true_eq] at hf
      exact ⟨hrun, hf⟩
  | update_leave s _ hf ih =>
    obtain ⟨i1, i2, i3, i4, i5⟩ := ih
    obtain ⟨_, h0⟩ := i5 hf
    refine ⟨?_, ?_, ?_, ?_, ?_⟩
    · simp [Sys.update_leave, buf_dblwr_update_finish]
    · simp only [Sys.update_leave, buf_dblwr_update_finish]; omega
    · simp only [Sys.update_leave, buf_dblwr_update_finish]; omega
    · intro _
      simp only [Sys.update_leave, buf_dblwr_update_finish]
      omega
    · intro hc
      simp [Sys.update_leave] at hc

theorem committed_sys_reachable : Reachable innodb_config lenient_env committed_sys :=
  Reachable.flush _ (Reachable.add _ 1 _ _ _ (Reachable.add _ 1 _ _ _ (Reachable.init _ _)))

theorem half_done_sys_reachable : Reachable innodb_config lenient_env half_done_sys :=
  Reachable.update_enter _ committed_sys_reachable (by decide)

/-- C5. `b_reserved <= first_free <= 2N` holds in every state reachable from
the state set up by `buf_dblwr_init` through calls of `add_to_batch` and
`buf_dblwr_flush_buffered_writes` and through `buf_dblwr_update` invoked once
for each dispatched data-file write (including the state between the two
critical sections of `buf_dblwr_update`). -/
theorem reserved_le_first_free_le_capacity (cfg : Config) (env : Env) (s : Sys)
    (h : Reachable cfg env s) :
    s.d.b_reserved ≤ s.d.first_free ∧
    s.d.first_free ≤ 2 * cfg.TRX_SYS_DOUBLEWRITE_BLOCK_SIZE := by
  obtain ⟨i1, i2, _⟩ := reachable_inv cfg env s h
  exact ⟨i2, by rw [← buf_size_eq]; exact i1⟩

theorem reserved_le_first_free_le_capacity_witness :
    half_done_sys.d.b_reserved ≤ half_done_sys.d.first_free ∧
    half_done_sys.d.first_free ≤ 2 * innodb_config.TRX_SYS_DOUBLEWRITE_BLOCK_SIZE :=
  reserved_le_first_free_le_capacity innodb_config lenient_env half_done_sys
    half_done_sys_reachable

/-- C6, as stated, fails: after two pages were added, the batch was committed
and one completion was reported, the state is reachable, `batch_running` is
true, `first_free` is 2 and `b_reserved` is 1. -/
theorem running_batch_counters_differ :
    Reachable innodb_config lenient_env half_done_sys ∧
    half_done_sys.d.batch_running = true ∧
    half_done_sys.d.first_free = 2 ∧ half_done_sys.d.b_reserved = 1 ∧
    half_done_sys.d.first_free ≠ half_done_sys.d.b_reserved :=
  ⟨half_done_sys_reachable, rfl, rfl, rfl, by decide⟩

/-- C6, amended. In every reachable state, `batch_running` false implies
`first_free == b_reserved`, so the two are equal in the state in which a flush
commits a batch; while `batch_running` is true only `b_reserved <= first_free`
holds. -/
theorem counters_equal_when_idle (cfg : Config) (env : Env) (s : Sys)
    (h : Reachable cfg env s) :
    (s.d.batch_running = false → s.d.first_free = s.d.b_reserved) ∧
    (s.d.batch_running = false →
      ((buf_dblwr_flush_buffered_writes cfg env (some s.d)).buf_dblwr.getD s.d).first_free
        = ((buf_dblwr_flush_buffered_writes cfg env (some s.d)).buf_dblwr.getD s.d).b_reserved) ∧
    (s.d.batch_running = true → s.d.b_reserved ≤ s.d.first_free) := by
  obtain ⟨_, i2, _, i4, _⟩ := reachable_inv cfg env s h
  refine ⟨fun hr => (i4 hr).1, ?_, fun _ => i2⟩
  intro hr
  obtain ⟨b, hb⟩ := flush_state cfg env s.d
  rw [hb]
  exact (i4 hr).1

theorem counters_equal_when_idle_witness :
    (committed_sys.d.batch_running = false →
      committed_sys.d.first_free = committed_sys.d.b_reserved) ∧
    (committed_sys.d.batch_running = false →
      ((buf_dblwr_flush_buffered_writes innodb_config lenient_env
          (some committed_sys.d)).buf_dblwr.getD committed_sys.d).first_free
        = ((buf_dblwr_flush_buffered_writes innodb_config lenient_env
          (some committed_sys.d)).buf_dblwr.getD committed_sys.d).b_reserved) ∧
    (committed_sys.d.batch_running = true →
      committed_sys.d.b_reserved ≤ committed_sys.d.first_free) :=
  counters_equal_when_idle innodb_config lenient_env committed_sys committed_sys_reachable

/-- C7. While `batch_running` is true a call of `add_to_batch` changes nothing
and issues nothing: it waits.  This covers the state inside
`buf_dblwr_update` after the decrement of `b_reserved` (the mutex released for
`fil_flush_file_spaces`): `batch_running` is still true there, and when the
decrement reached zero `batch_running` is cleared only by the second critical
section, together with the reset of `first_free`. -/
theorem add_to_batch_waits_while_running (cfg : Config) (env : Env) (fuel : Nat)
    (d : buf_dblwr_t) (bpage : buf_page_t) (lru : Bool) (size : Nat)
    (hrun : d.batch_running = true) :
    add_to_batch cfg env (fuel + 1) d bpage lru size = ⟨d, [], Outcome.waiting⟩ ∧
    (buf_dblwr_update_decrement d).batch_running = true ∧
    (buf_dblwr_update_decrement d).first_free = d.first_free ∧
    add_to_batch cfg env (fuel + 1) (buf_dblwr_update_decrement d) bpage lru size
      = ⟨buf_dblwr_update_decrement d, [], Outcome.waiting⟩ ∧
    ((buf_dblwr_update_decrement d).b_reserved = 0 →
      (buf_dblwr_update d).1 = buf_dblwr_update_finish (buf_dblwr_update_decrement d) ∧
      (buf_dblwr_update d).1.batch_running = false ∧
      (buf_dblwr_update d).1.first_free = 0) := by
  have hw : (buf_dblwr_update_decrement d).batch_running = true := hrun
  refine ⟨by simp [add_to_batch, hrun], hw, rfl, by simp [add_to_batch, hw], ?_⟩
  intro h0
  simp [buf_dblwr_update, h0, buf_dblwr_update_finish]

theorem add_to_batch_waits_while_running_witness :
    add_to_batch innodb_config lenient_env 1 half_done_sys.d (sample_page 7 5 102) false 16384
      = ⟨half_done_sys.d, [], Outcome.waiting⟩ ∧
    (buf_dblwr_update_decrement half_done_sys.d).batch_running = true ∧
    (buf_dblwr_update_decrement half_done_sys.d).first_free = half_done_sys.d.first_free ∧
    add_to_batch innodb_config lenient_env 1 (buf_dblwr_update_decrement half_done_sys.d)
        (sample_page 7 5 102) false 16384
      = ⟨buf_dblwr_update_decrement half_done_sys.d, [], Outcome.waiting⟩ ∧
    ((buf_dblwr_update_decrement half_done_sys.d).b_reserved = 0 →
      (buf_dblwr_update half_done_sys.d).1
        = buf_dblwr_update_finish (buf_dblwr_update_decrement half_done_sys.d) ∧
      (buf_dblwr_update half_done_sys.d).1.batch_running = false ∧
      (buf_dblwr_update half_done_sys.d).1.first_free = 0) :=
  add_to_batch_waits_while_running innodb_config lenient_env 0 half_done_sys.d
    (sample_page 7 5 102) false 16384 rfl

/-! ## Completion tracking -/

theorem update_not_last (d : buf_dblwr_t) (h : 2 ≤ d.b_reserved) :
    buf_dblwr_update d = ({ d with b_reserved := d.b_reserved - 1 }, []) := by
  have h0 : d.b_reserved ≠ 0 := by omega
  have h1 : d.b_reserved - 1 ≠ 0 := by omega
  simp [buf_dblwr_update, buf_dblwr_update_decrement, ulint_dec, h0, h1]

theorem update_last (d : buf_dblwr_t) (h : d.b_reserved = 1) :
    buf_dblwr_update d =
      ({ d with b_reserved := 0, first_free := 0, batch_running := false },
        [Event.fil_flush_file_spaces, Event.os_event_set]) := by
  simp [buf_dblwr_update, buf_dblwr_update_decrement, buf_dblwr_update_finish, ulint_dec, h]

theorem update_n_snoc (n : Nat) : ∀ d : buf_dblwr_t,
    update_n (n + 1) d = (buf_dblwr_update (update_n n d)).1 := by
  induction n with
  | zero => intro d; rfl
  | succ n ih =>
    intro d
    show update_n (n + 1) (buf_dblwr_update d).1 = _
    rw [ih]
    rfl

theorem update_n_state (j : Nat) : ∀ d : buf_dblwr_t, j < d.b_reserved →
    update_n j d = { d with b_reserved := d.b_reserved - j } := by
  induction j with
  | zero => intro d _; rfl
  | succ j ih =>
    intro d hj
    show update_n j (buf_dblwr_update d).1 = _
    rw [update_not_last d (by omega)]
    rw [ih _ (by simp only; omega)]
    simp only [Nat.sub_sub, Nat.add_comm 1 j]

/-- C8. For a committed batch with `first_free = b_reserved = k > 0`: each of
the first `k - 1` calls of `buf_dblwr_update` decrements `b_reserved` by one,
leaves `first_free` and `batch_running` as they are and issues nothing; the
`k`-th call brings `b_reserved` to zero, issues `fil_flush_file_spaces` (with
`first_free` and `batch_running` still unchanged), then sets `first_free = 0`
and `batch_running = false` and sets the batch event; after it a call of
`add_to_batch` returns with its page in slot 0. -/
theorem update_completes_batch (cfg : Config) (env : Env) (d : buf_dblwr_t) (k : Nat)
    (hrun : d.batch_running = true) (hff : d.first_free = k) (hres : d.b_reserved = k)
    (hpos : 0 < k) (hcap : k ≤ 2 * cfg.TRX_SYS_DOUBLEWRITE_BLOCK_SIZE) :
    (∀ j, j + 1 < k →
      (update_n j d).b_reserved = k - j ∧
      (buf_dblwr_update (update_n j d)).1.b_reserved = k - j - 1 ∧
      (buf_dblwr_update (update_n j d)).1.first_free = k ∧
      (buf_dblwr_update (update_n j d)).1.batch_running = true ∧
      (buf_dblwr_update (update_n j d)).2 = []) ∧
    (update_n (k - 1) d).b_reserved = 1 ∧
    (update_n (k - 1) d).first_free = k ∧
    (update_n (k - 1) d).batch_running = true ∧
    (buf_dblwr_update_decrement (update_n (k - 1) d)).b_reserved = 0 ∧
    (buf_dblwr_update_decrement (update_n (k - 1) d)).first_free = k ∧
    (buf_dblwr_update_decrement (update_n (k - 1) d)).batch_running = true ∧
    buf_dblwr_update (update_n (k - 1) d) =
      (buf_dblwr_update_finish (buf_dblwr_update_decrement (update_n (k - 1) d)),
        [Event.fil_flush_file_spaces, Event.os_event_set]) ∧
    update_n k d = (buf_dblwr_update (update_n (k - 1) d)).1 ∧
    (update_n k d).first_free = 0 ∧
    (update_n k d).batch_running = false ∧
    (update_n k d).b_reserved = 0 ∧
    (∀ (fuel : Nat) (bpage : buf_page_t) (lru : Bool) (size : Nat),
      (add_to_batch cfg env (fuel + 1) (update_n k d) bpage lru size).outcome
        = Outcome.returned ∧
      (add_to_batch cfg env (fuel + 1) (update_n k d) bpage lru size).trace = [] ∧
      (add_to_batch cfg env (fuel + 1) (update_n k d) bpage lru size).d.buf_block_arr 0
        = some ⟨bpage, lru, size⟩ ∧
      (add_to_batch cfg env (fuel + 1) (update_n k d) bpage lru size).d.first_free = 1 ∧
      (add_to_batch cfg env (fuel + 1) (update_n k d) bpage lru size).d.b_reserved = 1) := by
  have hk1 : update_n (k - 1) d = { d with b_reserved := d.b_reserved - (k - 1) } :=
    update_n_state (k - 1) d (by omega)
  have hl1 : (update_n (k - 1) d).b_reserved = 1 := by rw [hk1]; simp only; omega
  have hkk : update_n k d = (buf_dblwr_update (update_n (k - 1) d)).1 := by
    rw [← update_n_snoc, Nat.sub_add_cancel hpos]
  have hfin : update_n k d =
      { update_n (k - 1) d with b_reserved := 0, first_free := 0, batch_running := false } := by
    rw [hkk, update_last _ hl1]
  refine ⟨?_, hl1, by rw [hk1]; exact hff, by rw [hk1]; exact hrun, ?_, ?_, ?_, ?_, hkk,
    by rw [hfin], by rw [hfin], by rw [hfin], ?_⟩
  · intro j hj
    have hs := update_n_state j d (by omega)
    have hr : (update_n j d).b_reserved = k - j := by rw [hs]; simp only; omega
    rw [update_not_last _ (by omega)]
    refine ⟨hr, ?_, ?_, ?_, rfl⟩
    · simp only; omega
    · rw [hs]; exact hff
    · rw [hs]; exact hrun
  · simp [buf_dblwr_update_decrement, ulint_dec, hl1]
  · rw [hk1]; exact hff
  · rw [hk1]; exact hrun
  · rw [update_last _ hl1]
    simp [buf_dblwr_update_finish, buf_dblwr_update_decrement, ulint_dec, hl1]
  · intro fuel bpage lru size
    have hr : (update_n k d).batch_running = false := by rw [hfin]
    have h0 : (update_n k d).first_free = 0 := by rw [hfin]
    have hb : (update_n k d).b_reserved = 0 := by rw [hfin]
    have hlt : (update_n k d).first_free < buf_size cfg := by
      rw [h0, buf_size_eq]; omega
    obtain ⟨_, h2, h3, h4, _, _, h7⟩ :=
      add_to_batch_one cfg env fuel (update_n k d) bpage lru size hr hlt
    rw [h0] at h2 h3 h7
    rw [hb] at h4
    obtain ⟨_, g2, g3⟩ := h7 (by rw [buf_size_eq]; omega)
    exact ⟨g3, g2, h2, h3, h4⟩

theorem update_completes_batch_witness :
    (update_n 1 committed_sys.d).b_reserved = 1 ∧
    (update_n 1 committed_sys.d).batch_running = true ∧
    (buf_dblwr_update (update_n 1 committed_sys.d)).2
      = [Event.fil_flush_file_spaces, Event.os_event_set] ∧
    (update_n 2 committed_sys.d).first_free = 0 ∧
    (update_n 2 committed_sys.d).batch_running = false ∧
    (update_n 2 committed_sys.d).b_reserved = 0 ∧
    (add_to_batch innodb_config lenient_env 1 (update_n 2 committed_sys.d)
      (sample_page 7 5 102) false 16384).d.buf_block_arr 0
        = some ⟨sample_page 7 5 102, false, 16384⟩ :=
  have h := update_completes_batch innodb_config lenient_env committed_sys.d 2
    rfl rfl rfl (by decide) (by decide)
  ⟨h.2.1, h.2.2.2.1, congrArg Prod.snd h.2.2.2.2.2.2.2.1, h.2.2.2.2.2.2.2.2.2.1,
    h.2.2.2.2.2.2.2.2.2.2.1, h.2.2.2.2.2.2.2.2.2.2.2.1,
    (h.2.2.2.2.2.2.2.2.2.2.2.2 0 (sample_page 7 5 102) false 16384).2.2.1⟩

/-! ## When a flush commits -/

/-- C10. With doublewrite enabled and the buffer present: when `first_free ==
0` the flush returns at once, state unchanged, nothing issued; while
`batch_running` is true (and `first_free > 0`) it changes nothing, issues
nothing and waits; when `first_free > 0` and `batch_running` is false it sets
`batch_running` and, unless terminated by its checks, issues the stage write
to the first block as its first request.  So a call sets `batch_running`, or
issues anything, only if it found `first_free > 0` and `batch_running` false. -/
theorem flush_commits_iff_idle_nonempty (cfg : Config) (env : Env) (d : buf_dblwr_t)
    (hen : cfg.srv_use_doublewrite_buf = true) :
    (d.first_free = 0 →
      buf_dblwr_flush_buffered_writes cfg env (some d) = ⟨some d, [], Outcome.returned⟩) ∧
    (0 < d.first_free → d.batch_running = true →
      buf_dblwr_flush_buffered_writes cfg env (some d) = ⟨some d, [], Outcome.waiting⟩) ∧
    (0 < d.first_free → d.batch_running = false →
      (buf_dblwr_flush_buffered_writes cfg env (some d)).buf_dblwr
        = some { d with batch_running := true } ∧
      (buf_dblwr_check_slots cfg env d = true →
        ∃ rest, (buf_dblwr_flush_buffered_writes cfg env (some d)).trace =
          Event.fil_io_write true ⟨cfg.TRX_SYS_SPACE, d.block1⟩ 0
            (min cfg.TRX_SYS_DOUBLEWRITE_BLOCK_SIZE d.first_free * srv_page_size cfg)
            d.write_buf none false :: rest)) ∧
    ((d.batch_running = false ∧
        (buf_dblwr_flush_buffered_writes cfg env (some d)).buf_dblwr
          = some { d with batch_running := true })
      ↔ (0 < d.first_free ∧ d.batch_running = false)) ∧
    ((buf_dblwr_flush_buffered_writes cfg env (some d)).trace ≠ [] →
      0 < d.first_free ∧ d.batch_running = false) := by
  have hzero : d.first_free = 0 →
      buf_dblwr_flush_buffered_writes cfg env (some d) = ⟨some d, [], Outcome.returned⟩ := by
    intro h0
    simp [buf_dblwr_flush_buffered_writes, hen, h0]
  have hwait : 0 < d.first_free → d.batch_running = true →
      buf_dblwr_flush_buffered_writes cfg env (some d) = ⟨some d, [], Outcome.waiting⟩ := by
    intro hpos hrun
    simp [buf_dblwr_flush_buffered_writes, hen, Nat.pos_iff_ne_zero.mp hpos, hrun]
  have hcommit : 0 < d.first_free → d.batch_running = false →
      (buf_dblwr_flush_buffered_writes cfg env (some d)).buf_dblwr
        = some { d with batch_running := true } := by
    intro hpos hrun
    simp only [buf_dblwr_flush_buffered_writes, hen, Nat.pos_iff_ne_zero.mp hpos, hrun]
    simp only [Bool.true_eq_false, if_false, Bool.false_eq_true]
    split_ifs <;> rfl
  refine ⟨hzero, hwait, ?_, ?_, ?_⟩
  · intro hpos hrun
    refine ⟨hcommit hpos hrun, ?_⟩
    intro hchk
    rw [flush_commit_eq cfg env d hen hpos hrun hchk, stage_writes_eq]
    split_ifs
    · exact ⟨_, rfl⟩
    · exact ⟨_, rfl⟩
  · constructor
    · rintro ⟨hrun, hs⟩
      refine ⟨?_, hrun⟩
      by_contra hnp
      have h0 : d.first_free = 0 := by omega
      rw [hzero h0] at hs
      have := congrArg buf_dblwr_t.batch_running (Option.some.inj hs)
      simp [hrun] at this
    · rintro ⟨hpos, hrun⟩
      exact ⟨hrun, hcommit hpos hrun⟩
  · intro hne
    by_cases h0 : d.first_free = 0
    · rw [hzero h0] at hne
      exact absurd rfl hne
    · have hpos : 0 < d.first_free := Nat.pos_of_ne_zero h0
      refine ⟨hpos, ?_⟩
      cases hrun : d.batch_running with
      | false => rfl
      | true =>
        rw [hwait hpos hrun] at hne
        exact absurd rfl hne

theorem flush_commits_iff_idle_nonempty_witness :
    (buf_dblwr_flush_buffered_writes innodb_config lenient_env (some two_page_batch)).buf_dblwr
      = some { two_page_batch with batch_running := true } ∧
    buf_dblwr_flush_buffered_writes innodb_config lenient_env (some committed_sys.d)
      = ⟨some committed_sys.d, [], Outcome.waiting⟩ ∧
    buf_dblwr_flush_buffered_writes innodb_config lenient_env (some idle_dblwr)
      = ⟨some idle_dblwr, [], Outcome.returned⟩ :=
  ⟨((flush_commits_iff_idle_nonempty innodb_config lenient_env two_page_batch rfl).2.2.1
      (by decide) rfl).1,
    (flush_commits_iff_idle_nonempty innodb_config lenient_env committed_sys.d rfl).2.1
      (by decide) rfl,
    (flush_commits_iff_idle_nonempty innodb_config lenient_env idle_dblwr rfl).1 rfl⟩

/-! ## The capacity boundary -/

theorem add_all_append (cfg : Config) (env : Env) (fuel : Nat)
    (l1 l2 : List (buf_page_t × Bool × Nat)) : ∀ d : buf_dblwr_t,
    add_all cfg env fuel d (l1 ++ l2) = add_all cfg env fuel (add_all cfg env fuel d l1) l2 := by
  induction l1 with
  | nil => intro d; rfl
  | cons q qs ih => intro d; exact ih _

theorem update_n_all (d : buf_dblwr_t) (k : Nat) (hpos : 0 < k) (hres : d.b_reserved = k) :
    update_n k d = { d with b_reserved := 0, first_free := 0, batch_running := false } := by
  have hk1 : update_n (k - 1) d = { d with b_reserved := d.b_reserved - (k - 1) } :=
    update_n_state (k - 1) d (by omega)
  have hl1 : (update_n (k - 1) d).b_reserved = 1 := by rw [hk1]; simp only; omega
  have hkk : update_n k d = (buf_dblwr_update (update_n (k - 1) d)).1 := by
    rw [← update_n_snoc, Nat.sub_add_cancel hpos]
  rw [hkk, update_last _ hl1, hk1]

theorem check_slot_of_flushable (cfg : Config) (env : Env) (d : buf_dblwr_t) (i : Nat)
    (e : element) (he : d.buf_block_arr i = some e) (hfl : page_flushable cfg env e.bpage) :
    buf_dblwr_check_slot cfg env d i = true := by
  simp only [buf_dblwr_check_slot, he]
  rcases hfl.2 with h | h | h
  · simp [h]
  · simp [h]
  · split_ifs
    · rfl
    · exact h

/-- The call of `add_to_batch` that fills the last slot commits the batch. -/
theorem add_last_commits (cfg : Config) (env : Env) (fuel : Nat) (d : buf_dblwr_t)
    (bpage : buf_page_t) (lru : Bool) (size : Nat)
    (hen : cfg.srv_use_doublewrite_buf = true) (hrun : d.batch_running = false)
    (hff : d.first_free + 1 = buf_size cfg)
    (hslots : ∀ i, i < d.first_free →
      ∃ e, d.buf_block_arr i = some e ∧ page_flushable cfg env e.bpage)
    (hp : page_flushable cfg env bpage) :
    (add_to_batch cfg env (fuel + 1) d bpage lru size).d
      = { add_to_batch_stored cfg d bpage lru size with batch_running := true } ∧
    (add_to_batch cfg env (fuel + 1) d bpage lru size).outcome = Outcome.returned ∧
    ∃ ws : List Event, ws.length = buf_size cfg ∧ (∀ ev, ev ∈ ws → ∃ e, ev = slot_write e) ∧
      (add_to_batch cfg env (fuel + 1) d bpage lru size).trace =
        buf_dblwr_stage_writes cfg (add_to_batch_stored cfg d bpage lru size)
          ++ [Event.fil_flush cfg.TRX_SYS_SPACE] ++ ws := by
  have hne : d.first_free ≠ buf_size cfg := by omega
  have hinc : ulint_inc d.first_free = d.first_free + 1 :=
    ulint_inc_below cfg _ (by omega)
  have hst : ∀ i, i < (add_to_batch_stored cfg d bpage lru size).first_free →
      ∃ e, (add_to_batch_stored cfg d bpage lru size).buf_block_arr i = some e ∧
        page_flushable cfg env e.bpage := by
    intro i hi
    simp only [add_to_batch_stored, hinc] at hi ⊢
    by_cases hid : i = d.first_free
    · subst hid
      exact ⟨⟨bpage, lru, size⟩, by simp, hp⟩
    · obtain ⟨e, he, hfl⟩ := hslots i (by omega)
      exact ⟨e, by simp [Function.update, hid, he], hfl⟩
  have hchk : buf_dblwr_check_slots cfg env (add_to_batch_stored cfg d bpage lru size) = true := by
    rw [check_slots_iff]
    intro i hi
    obtain ⟨e, he, hfl⟩ := hst i hi
    exact check_slot_of_flushable cfg env _ i e he hfl
  have hall : ∀ j, j < (add_to_batch_stored cfg d bpage lru size).first_free →
      ∃ e, (add_to_batch_stored cfg d bpage lru size).buf_block_arr (0 + j) = some e ∧
        e.bpage.in_file = true := by
    intro j hj
    obtain ⟨e, he, hfl⟩ := hst j hj
    exact ⟨e, by simpa using he, hfl.1⟩
  obtain ⟨w1, w2, w3⟩ := write_blocks_ok _ _ 0 hall
  have hfull : (add_to_batch_stored cfg d bpage lru size).first_free = buf_size cfg := by
    simp only [add_to_batch_stored, hinc]
    exact hff
  have hpos : 0 < (add_to_batch_stored cfg d bpage lru size).first_free := by
    rw [hfull, ← hff]
    exact Nat.succ_pos d.first_free
  have hrun1 : (add_to_batch_stored cfg d bpage lru size).batch_running = false := hrun
  rw [add_to_batch_store_eq cfg env fuel d bpage lru size hrun hne,
    if_pos (by rw [hinc]; exact hff), flush_commit_eq cfg env _ hen hpos hrun1 hchk]
  refine ⟨rfl, w1, _, by rw [w2, hfull], ?_, rfl⟩
  intro ev hev
  obtain ⟨j, hj, hget⟩ := List.getElem_of_mem hev
  obtain ⟨e, _, he⟩ := w3 j (w2 ▸ hj)
  refine ⟨e, ?_⟩
  rw [List.getElem?_eq_getElem hj, hget] at he
  exact Option.some.inj he

/-- C9. From an idle buffer, with doublewrite enabled and pages that pass the
checks of the flush: of `2N + 1` successive calls of `add_to_batch`, the first
`2N - 1` return without issuing anything; the `2N`-th (the one that makes
`first_free == 2N`) returns after one flush that committed all `2N` pages
(stage writes, one `fil_flush`, `2N` data-file writes); the next call waits,
changing nothing; and once `buf_dblwr_update` has been called `2N` times the
call returns with its page in slot 0 and `first_free == b_reserved == 1`,
again without issuing anything. -/
theorem capacity_boundary (cfg : Config) (env : Env) (fuel : Nat) (d : buf_dblwr_t)
    (pages : List (buf_page_t × Bool × Nat)) (q : buf_page_t × Bool × Nat)
    (hen : cfg.srv_use_doublewrite_buf = true)
    (hN : 0 < cfg.TRX_SYS_DOUBLEWRITE_BLOCK_SIZE)
    (hff : d.first_free = 0) (hres : d.b_reserved = 0) (hrun : d.batch_running = false)
    (hlen : pages.length = 2 * cfg.TRX_SYS_DOUBLEWRITE_BLOCK_SIZE)
    (hok : ∀ p, p ∈ pages → page_flushable cfg env p.1) :
    (∀ j p, j + 1 < 2 * cfg.TRX_SYS_DOUBLEWRITE_BLOCK_SIZE → pages[j]? = some p →
      (add_to_batch cfg env (fuel + 1) (add_all cfg env (fuel + 1) d (pages.take j))
        p.1 p.2.1 p.2.2).trace = [] ∧
      (add_to_batch cfg env (fuel + 1) (add_all cfg env (fuel + 1) d (pages.take j))
        p.1 p.2.1 p.2.2).outcome = Outcome.returned ∧
      (add_to_batch cfg env (fuel + 1) (add_all cfg env (fuel + 1) d (pages.take j))
        p.1 p.2.1 p.2.2).d.batch_running = false ∧
      (add_to_batch cfg env (fuel + 1) (add_all cfg env (fuel + 1) d (pages.take j))
        p.1 p.2.1 p.2.2).d = add_all cfg env (fuel + 1) d (pages.take (j + 1))) ∧
    (∀ p, pages[2 * cfg.TRX_SYS_DOUBLEWRITE_BLOCK_SIZE - 1]? = some p →
      (add_to_batch cfg env (fuel + 1)
        (add_all cfg env (fuel + 1) d (pages.take (2 * cfg.TRX_SYS_DOUBLEWRITE_BLOCK_SIZE - 1)))
        p.1 p.2.1 p.2.2).outcome = Outcome.returned ∧
      (add_to_batch cfg env (fuel + 1)
        (add_all cfg env (fuel + 1) d (pages.take (2 * cfg.TRX_SYS_DOUBLEWRITE_BLOCK_SIZE - 1)))
        p.1 p.2.1 p.2.2).d = add_all cfg env (fuel + 1) d pages ∧
      ∃ ws : List Event, ws.length = 2 * cfg.TRX_SYS_DOUBLEWRITE_BLOCK_SIZE ∧
        (∀ ev, ev ∈ ws → ∃ e, ev = slot_write e) ∧
        (add_to_batch cfg env (fuel + 1)
          (add_all cfg env (fuel + 1) d
            (pages.take (2 * cfg.TRX_SYS_DOUBLEWRITE_BLOCK_SIZE - 1)))
          p.1 p.2.1 p.2.2).trace =
          buf_dblwr_stage_writes cfg (add_all cfg env (fuel + 1) d pages)
            ++ [Event.fil_flush cfg.TRX_SYS_SPACE] ++ ws) ∧
    (add_all cfg env (fuel + 1) d pages).batch_running = true ∧
    (add_all cfg env (fuel + 1) d pages).first_free = 2 * cfg.TRX_SYS_DOUBLEWRITE_BLOCK_SIZE ∧
    (add_all cfg env (fuel + 1) d pages).b_reserved = 2 * cfg.TRX_SYS_DOUBLEWRITE_BLOCK_SIZE ∧
    (∀ i p, pages[i]? = some p →
      (add_all cfg env (fuel + 1) d pages).buf_block_arr i = some ⟨p.1, p.2.1, p.2.2⟩) ∧
    add_to_batch cfg env (fuel + 1) (add_all cfg env (fuel + 1) d pages) q.1 q.2.1 q.2.2
      = ⟨add_all cfg env (fuel + 1) d pages, [], Outcome.waiting⟩ ∧
    (add_to_batch cfg env (fuel + 1)
      (update_n (2 * cfg.TRX_SYS_DOUBLEWRITE_BLOCK_SIZE) (add_all cfg env (fuel + 1) d pages))
      q.1 q.2.1 q.2.2).outcome = Outcome.returned ∧
    (add_to_batch cfg env (fuel + 1)
      (update_n (2 * cfg.TRX_SYS_DOUBLEWRITE_BLOCK_SIZE) (add_all cfg env (fuel + 1) d pages))
      q.1 q.2.1 q.2.2).trace = [] ∧
    (add_to_batch cfg env (fuel + 1)
      (update_n (2 * cfg.TRX_SYS_DOUBLEWRITE_BLOCK_SIZE) (add_all cfg env (fuel + 1) d pages))
      q.1 q.2.1 q.2.2).d.buf_block_arr 0 = some ⟨q.1, q.2.1, q.2.2⟩ ∧
    (add_to_batch cfg env (fuel + 1)
      (update_n (2 * cfg.TRX_SYS_DOUBLEWRITE_BLOCK_SIZE) (add_all cfg env (fuel + 1) d pages))
      q.1 q.2.1 q.2.2).d.first_free = 1 ∧
    (add_to_batch cfg env (fuel + 1)
      (update_n (2 * cfg.TRX_SYS_DOUBLEWRITE_BLOCK_SIZE) (add_all cfg env (fuel + 1) d pages))
      q.1 q.2.1 q.2.2).d.b_reserved = 1 ∧
    (add_to_batch cfg env (fuel + 1)
      (update_n (2 * cfg.TRX_SYS_DOUBLEWRITE_BLOCK_SIZE) (add_all cfg env (fuel + 1) d pages))
      q.1 q.2.1 q.2.2).d.batch_running = false := by
  have hbs : buf_size cfg = 2 * cfg.TRX_SYS_DOUBLEWRITE_BLOCK_SIZE := rfl
  -- the state before call `j + 1`
  have hprefix : ∀ j, j < 2 * cfg.TRX_SYS_DOUBLEWRITE_BLOCK_SIZE →
      (add_all cfg env (fuel + 1) d (pages.take j)).first_free = j ∧
      (add_all cfg env (fuel + 1) d (pages.take j)).batch_running = false ∧
      (∀ i, i < j → ∃ e, (add_all cfg env (fuel + 1) d (pages.take j)).buf_block_arr i = some e
        ∧ page_flushable cfg env e.bpage) := by
    intro j hj
    have hl : (pages.take j).length = j := by
      rw [List.length_take, hlen]; omega
    obtain ⟨g1, _, _, g4, g5⟩ := add_all_slots cfg env fuel (pages.take j) d hrun
      (by rw [hl, hff, hbs]; omega)
    rw [hl, hff, Nat.zero_add] at g1
    refine ⟨g1, g5 (by rw [hl, hff, hbs]; omega), ?_⟩
    intro i hi
    have hi' : i < pages.length := by rw [hlen]; omega
    have hget : (pages.take j)[i]? = some pages[i] := by
      rw [List.getElem?_take_of_lt hi, List.getElem?_eq_getElem hi']
    have := g4 i _ hget
    rw [hff, Nat.zero_add] at this
    exact ⟨_, this, hok _ (List.getElem_mem hi')⟩
  have hsnoc : ∀ j p, pages[j]? = some p →
      (add_to_batch cfg env (fuel + 1) (add_all cfg env (fuel + 1) d (pages.take j))
        p.1 p.2.1 p.2.2).d = add_all cfg env (fuel + 1) d (pages.take (j + 1)) := by
    intro j p hp
    rw [List.take_succ, hp, add_all_append]
    rfl
  have hwhole : pages.take (2 * cfg.TRX_SYS_DOUBLEWRITE_BLOCK_SIZE - 1 + 1) = pages := by
    apply List.take_of_length_le
    rw [hlen]; omega
  have hfit : 2 * cfg.TRX_SYS_DOUBLEWRITE_BLOCK_SIZE < 2 ^ 64 := buf_size_lt cfg
  obtain ⟨f1, f2, _, f4, _⟩ := add_all_slots cfg env fuel pages d hrun
    (by rw [hff, hbs, hlen]; omega)
  rw [hff, hlen, Nat.zero_add] at f1
  rw [hres, hlen, Nat.zero_add] at f2
  have f2 := f2 hfit
  have hm : 2 * cfg.TRX_SYS_DOUBLEWRITE_BLOCK_SIZE - 1 < pages.length := by rw [hlen]; omega
  have hlast : pages[2 * cfg.TRX_SYS_DOUBLEWRITE_BLOCK_SIZE - 1]?
      = some pages[2 * cfg.TRX_SYS_DOUBLEWRITE_BLOCK_SIZE - 1] :=
    List.getElem?_eq_getElem hm
  obtain ⟨l1, l2, l3⟩ := hprefix (2 * cfg.TRX_SYS_DOUBLEWRITE_BLOCK_SIZE - 1) (by omega)
  obtain ⟨c1, c2, ws, c3, c4, c5⟩ := add_last_commits cfg env fuel
    (add_all cfg env (fuel + 1) d (pages.take (2 * cfg.TRX_SYS_DOUBLEWRITE_BLOCK_SIZE - 1)))
    pages[2 * cfg.TRX_SYS_DOUBLEWRITE_BLOCK_SIZE - 1].1
    pages[2 * cfg.TRX_SYS_DOUBLEWRITE_BLOCK_SIZE - 1].2.1
    pages[2 * cfg.TRX_SYS_DOUBLEWRITE_BLOCK_SIZE - 1].2.2
    hen l2 (by rw [l1, hbs]; omega) (by rw [l1]; exact l3) (hok _ (List.getElem_mem hm))
  have hF := hsnoc _ _ hlast
  rw [hwhole] at hF
  have hFrun : (add_all cfg env (fuel + 1) d pages).batch_running = true := by
    rw [← hF, c1]
  have hU := update_n_all (add_all cfg env (fuel + 1) d pages)
    (2 * cfg.TRX_SYS_DOUBLEWRITE_BLOCK_SIZE) (by omega) f2
  have hUr : (update_n (2 * cfg.TRX_SYS_DOUBLEWRITE_BLOCK_SIZE)
      (add_all cfg env (fuel + 1) d pages)).batch_running = false := by rw [hU]
  have hU0 : (update_n (2 * cfg.TRX_SYS_DOUBLEWRITE_BLOCK_SIZE)
      (add_all cfg env (fuel + 1) d pages)).first_free = 0 := by rw [hU]
  have hUb : (update_n (2 * cfg.TRX_SYS_DOUBLEWRITE_BLOCK_SIZE)
      (add_all cfg env (fuel + 1) d pages)).b_reserved = 0 := by rw [hU]
  obtain ⟨_, u2, u3, u4, _, _, u7⟩ := add_to_batch_one cfg env fuel _ q.1 q.2.1 q.2.2 hUr
    (by rw [hU0, hbs]; omega)
  rw [hU0] at u2 u3 u7
  rw [hUb] at u4
  obtain ⟨v1, v2, v3⟩ := u7 (by rw [hbs]; omega)
  refine ⟨?_, ?_, hFrun, f1, f2, ?_, by simp [add_to_batch, hFrun], v3, v2, u2, u3,
    u4.trans rfl, v1⟩
  · intro j p hj hp
    obtain ⟨p1, p2, _⟩ := hprefix j (by omega)
    obtain ⟨_, _, _, _, _, _, h7⟩ := add_to_batch_one cfg env fuel
      (add_all cfg env (fuel + 1) d (pages.take j)) p.1 p.2.1 p.2.2 p2
      (by rw [p1, hbs]; omega)
    obtain ⟨w1, w2, w3⟩ := h7 (by rw [p1, hbs]; omega)
    exact ⟨w2, w3, w1, hsnoc j p hp⟩
  · intro p hp
    rw [hlast] at hp
    cases hp
    refine ⟨c2, hF, ws, by rw [c3, hbs], c4, ?_⟩
    rw [c5, ← hF, c1]
    rfl
  · intro i p hp
    have := f4 i p hp
    rwa [hff, Nat.zero_add] at this

theorem sample_pages_flushable (p : buf_page_t × Bool × Nat) (hp : p ∈ sample_pages) :
    page_flushable tiny_config lenient_env p.1 := by
  simp only [sample_pages, List.mem_cons, List.mem_singleton, List.not_mem_nil, or_false] at hp
  rcases hp with rfl | rfl
  · exact ⟨rfl, Or.inr (Or.inr (by decide))⟩
  · exact ⟨rfl, Or.inr (Or.inr (by decide))⟩

theorem capacity_boundary_witness :
    (add_all tiny_config lenient_env 1 idle_dblwr sample_pages).batch_running = true ∧
    (add_all tiny_config lenient_env 1 idle_dblwr sample_pages).first_free = 2 ∧
    add_to_batch tiny_config lenient_env 1 (add_all tiny_config lenient_env 1 idle_dblwr sample_pages)
        (sample_page 7 5 102) false 16384
      = ⟨add_all tiny_config lenient_env 1 idle_dblwr sample_pages, [], Outcome.waiting⟩ ∧
    (add_to_batch tiny_config lenient_env 1
      (update_n 2 (add_all tiny_config lenient_env 1 idle_dblwr sample_pages))
      (sample_page 7 5 102) false 16384).d.buf_block_arr 0
        = some ⟨sample_page 7 5 102, false, 16384⟩ ∧
    (add_to_batch tiny_config lenient_env 1
      (update_n 2 (add_all tiny_config lenient_env 1 idle_dblwr sample_pages))
      (sample_page 7 5 102) false 16384).d.first_free = 1 :=
  have h := capacity_boundary tiny_config lenient_env 0 idle_dblwr sample_pages
    (sample_page 7 5 102, false, 16384) rfl (by decide) rfl rfl rfl rfl sample_pages_flushable
  ⟨h.2.2.1, h.2.2.2.1, h.2.2.2.2.2.2.1, h.2.2.2.2.2.2.2.2.2.1, h.2.2.2.2.2.2.2.2.2.2.1⟩

/-! ## Recovery of a torn page -/

theorem page_offset_lt (i m j ps : Nat) (hi : i < m) (hj : j < ps) : i * ps + j < m * ps := by
  have h1 : (i + 1) * ps ≤ m * ps := Nat.mul_le_mul_right ps hi
  rw [Nat.add_mul, Nat.one_mul] at h1
  omega

theorem mach_read_from_4_congr (a b : Bytes) (off : Nat)
    (h : ∀ k, k < 4 → a (off + k) = b (off + k)) :
    mach_read_from_4 a off = mach_read_from_4 b off := by
  have h0 := h 0 (by omega)
  have h1 := h 1 (by omega)
  have h2 := h 2 (by omega)
  have h3 := h 3 (by omega)
  simp only [Nat.add_zero] at h0
  simp only [mach_read_from_4, h0, h1, h2, h3]

/-- Without the reset of space ids, the page loop of
`buf_dblwr_init_or_load_pages` appends, in order, the pages with a non-zero
`FIL_PAGE_LSN`, and changes nothing else. -/
theorem load_loop_collect (cfg : Config) (block1 block2 : Nat) (n : Nat) :
    ∀ (i : Nat) (st : LoadState),
    buf_dblwr_load_loop cfg false block1 block2 n i st =
      ({ st with
          pages := st.pages ++
            ((List.range' i n).filter (fun m =>
              decide (mach_read_from_8 (st.buf.plus (m * srv_page_size cfg)) cfg.FIL_PAGE_LSN ≠ 0))).map
              (fun m => st.buf.plus (m * srv_page_size cfg)) },
        dberr_t.DB_SUCCESS) := by
  induction n with
  | zero =>
    intro i st
    simp [buf_dblwr_load_loop]
  | succ n ih =>
    intro i st
    simp only [buf_dblwr_load_loop, Bool.false_eq_true, if_false, List.range'_succ,
      List.filter_cons]
    by_cases hl : mach_read_from_8 (st.buf.plus (i * srv_page_size cfg)) cfg.FIL_PAGE_LSN = 0
    · simp only [hl, ne_eq, not_true_eq_false, if_false, decide_False, Bool.false_eq_true]
      rw [ih]
    · simp only [hl, ne_eq, not_false_eq_true, if_true, decide_True]
      rw [ih]
      simp [recv_dblwr_add]

theorem header_field_eq (cfg : Config) (content fresh_read_buf : Bytes) (off : Nat)
    (h : cfg.TRX_SYS_DOUBLEWRITE + off + 4 ≤ srv_page_size cfg) :
    mach_read_from_4
        ((memcpy fresh_read_buf 0 (content.plus (cfg.TRX_SYS_PAGE_NO <<< cfg.srv_page_size_shift))
          (srv_page_size cfg)).plus cfg.TRX_SYS_DOUBLEWRITE) off
      = mach_read_from_4 (doublewrite_header cfg content) off := by
  apply mach_read_from_4_congr
  intro k hk
  simp only [Bytes.plus, memcpy, doublewrite_header, shift_eq_mul_page_size]
  rw [if_pos (by omega)]
  congr 1
  omega

/-- The buffer after the two extent reads of `buf_dblwr_init_or_load_pages`
holds, page by page, the pages of the two doublewrite blocks. -/
theorem loaded_buf_page (cfg : Config) (content fresh : Bytes) (b1 b2 m j : Nat)
    (hm : m < 2 * cfg.TRX_SYS_DOUBLEWRITE_BLOCK_SIZE) (hj : j < srv_page_size cfg) :
    loaded_write_buf cfg content fresh b1 b2 (m * srv_page_size cfg + j)
      = content (staging_page_no cfg b1 b2 m * srv_page_size cfg + j) := by
  simp only [loaded_write_buf, memcpy, Bytes.plus, shift_eq_mul_page_size, staging_page_no]
  by_cases hmN : m < cfg.TRX_SYS_DOUBLEWRITE_BLOCK_SIZE
  · have hlt := page_offset_lt m cfg.TRX_SYS_DOUBLEWRITE_BLOCK_SIZE j (srv_page_size cfg) hmN hj
    rw [if_neg (by omega), if_pos (by omega), if_pos hmN, Nat.add_mul]
    congr 1
    omega
  · have hlt := page_offset_lt (m - cfg.TRX_SYS_DOUBLEWRITE_BLOCK_SIZE)
      cfg.TRX_SYS_DOUBLEWRITE_BLOCK_SIZE j (srv_page_size cfg) (by omega) hj
    have hm2 : m * srv_page_size cfg = cfg.TRX_SYS_DOUBLEWRITE_BLOCK_SIZE * srv_page_size cfg
        + (m - cfg.TRX_SYS_DOUBLEWRITE_BLOCK_SIZE) * srv_page_size cfg := by
      rw [← Nat.add_mul]
      congr 1
      omega
    rw [if_pos (by omega), if_neg hmN, Nat.add_mul]
    congr 1
    omega

theorem buf_is_zeroes_of_zero (b : Bytes) (n : Nat) (h : ∀ j, j < n → b j = 0) :
    buf_is_zeroes b n = true := by
  simp only [buf_is_zeroes, List.all_eq_true, List.mem_range, decide_eq_true_eq]
  exact h

theorem tiny_layout_ok : layout_ok tiny_config := by
  unfold layout_ok
  decide

/-- C11. `buf_dblwr_page_inside(page_no)` is TRUE exactly when the doublewrite
buffer exists and `block1 <= page_no < block1 + N` or
`block2 <= page_no < block2 + N`; without a buffer it is FALSE for every page
number. -/
theorem page_inside_iff (cfg : Config) (buf_dblwr : Option buf_dblwr_t) (page_no : Nat) :
    (buf_dblwr_page_inside cfg buf_dblwr page_no = true ↔
      ∃ d, buf_dblwr = some d ∧
        ((d.block1 ≤ page_no ∧ page_no < d.block1 + cfg.TRX_SYS_DOUBLEWRITE_BLOCK_SIZE) ∨
         (d.block2 ≤ page_no ∧ page_no < d.block2 + cfg.TRX_SYS_DOUBLEWRITE_BLOCK_SIZE))) ∧
    buf_dblwr_page_inside cfg none page_no = false := by
  refine ⟨?_, rfl⟩
  cases buf_dblwr with
  | none => simp [buf_dblwr_page_inside]
  | some d =>
    simp only [buf_dblwr_page_inside, ge_iff_le, Option.some.injEq, exists_eq_left']
    split_ifs with h1 h2
    · simp [h1]
    · simp [h2]
    · simp [h1, h2]

theorem page_inside_iff_witness :
    buf_dblwr_page_inside tiny_config (some (sample_batch 3)) 128 = true :=
  (page_inside_iff tiny_config (some (sample_batch 3)) 128).1.mpr
    ⟨sample_batch 3, rfl, Or.inr ⟨by decide, by decide⟩⟩

/-! ## The recovery loader -/

/-- C12. When the read of the header page succeeds and the magic field of the
doublewrite header differs from `TRX_SYS_DOUBLEWRITE_MAGIC_N`,
`buf_dblwr_init_or_load_pages` returns `DB_SUCCESS`; the candidate set, the
global `buf_dblwr` and the file are as before the call, and the read of the
header page is the only request: no extent is read and nothing is written. -/
theorem load_without_magic (cfg : Config) (file : os_file_t) (fresh_read_buf fresh : Bytes)
    (g : Option buf_dblwr_t) (pages0 : List Bytes)
    (hfield : cfg.TRX_SYS_DOUBLEWRITE + cfg.TRX_SYS_DOUBLEWRITE_MAGIC + 4 ≤ srv_page_size cfg)
    (hr0 : file.read_err (cfg.TRX_SYS_PAGE_NO <<< cfg.srv_page_size_shift) (srv_page_size cfg)
      = dberr_t.DB_SUCCESS)
    (hmagic : mach_read_from_4 (doublewrite_header cfg file.content)
      cfg.TRX_SYS_DOUBLEWRITE_MAGIC ≠ cfg.TRX_SYS_DOUBLEWRITE_MAGIC_N) :
    buf_dblwr_init_or_load_pages cfg file fresh_read_buf fresh g pages0 =
      ⟨dberr_t.DB_SUCCESS, g, pages0, file,
        [Event.os_file_read (cfg.TRX_SYS_PAGE_NO <<< cfg.srv_page_size_shift)
          (srv_page_size cfg)]⟩ := by
  have e1 := header_field_eq cfg file.content fresh_read_buf cfg.TRX_SYS_DOUBLEWRITE_MAGIC hfield
  simp only [buf_dblwr_init_or_load_pages, os_file_read, hr0, ne_eq, not_true_eq_false, if_false,
    e1, hmagic]

theorem load_without_magic_witness :
    buf_dblwr_init_or_load_pages innodb_config blank_file (fun _ => 0) (fun _ => 0) none [] =
      ⟨dberr_t.DB_SUCCESS, none, [], blank_file,
        [Event.os_file_read (innodb_config.TRX_SYS_PAGE_NO <<< innodb_config.srv_page_size_shift)
          (srv_page_size innodb_config)]⟩ :=
  load_without_magic innodb_config blank_file (fun _ => 0) (fun _ => 0) none []
    (by decide) rfl (by decide)

/-- C13. When the magic and the space-id-stored marker are present and the three
reads succeed, `buf_dblwr_init_or_load_pages` returns `DB_SUCCESS`, leaves the
file as it was, issues the three reads and no other request, and extends the
candidate set by the staging pages whose `FIL_PAGE_LSN` field is not zero:
one entry for each such staging position `0 .. 2N - 1`, in increasing order of
position, nothing removed for equal page identities. The bytes of position `m`
are the bytes of the file at page `staging_page_no m`. -/
theorem load_collects_candidates (cfg : Config) (file : os_file_t)
    (fresh_read_buf fresh : Bytes) (g : Option buf_dblwr_t) (pages0 : List Bytes) (b1 b2 : Nat)
    (hlay : layout_ok cfg)
    (hr0 : file.read_err (cfg.TRX_SYS_PAGE_NO <<< cfg.srv_page_size_shift) (srv_page_size cfg)
      = dberr_t.DB_SUCCESS)
    (hmagic : mach_read_from_4 (doublewrite_header cfg file.content)
      cfg.TRX_SYS_DOUBLEWRITE_MAGIC = cfg.TRX_SYS_DOUBLEWRITE_MAGIC_N)
    (hmark : mach_read_from_4 (doublewrite_header cfg file.content)
      cfg.TRX_SYS_DOUBLEWRITE_SPACE_ID_STORED = cfg.TRX_SYS_DOUBLEWRITE_SPACE_ID_STORED_N)
    (hb1 : mach_read_from_4 (doublewrite_header cfg file.content)
      cfg.TRX_SYS_DOUBLEWRITE_BLOCK1 = b1)
    (hb2 : mach_read_from_4 (doublewrite_header cfg file.content)
      cfg.TRX_SYS_DOUBLEWRITE_BLOCK2 = b2)
    (hr1 : file.read_err (b1 <<< cfg.srv_page_size_shift)
      (cfg.TRX_SYS_DOUBLEWRITE_BLOCK_SIZE <<< cfg.srv_page_size_shift) = dberr_t.DB_SUCCESS)
    (hr2 : file.read_err (b2 <<< cfg.srv_page_size_shift)
      (cfg.TRX_SYS_DOUBLEWRITE_BLOCK_SIZE <<< cfg.srv_page_size_shift) = dberr_t.DB_SUCCESS) :
    buf_dblwr_init_or_load_pages cfg file fresh_read_buf fresh g pages0 =
      ⟨dberr_t.DB_SUCCESS,
        some ⟨0, 0, b1, b2, false, loaded_write_buf cfg file.content fresh b1 b2, fun _ => none⟩,
        pages0 ++
          ((List.range' 0 (cfg.TRX_SYS_DOUBLEWRITE_BLOCK_SIZE * 2)).filter (fun m =>
            decide (mach_read_from_8
              ((loaded_write_buf cfg file.content fresh b1 b2).plus (m * srv_page_size cfg))
              cfg.FIL_PAGE_LSN ≠ 0))).map
            (fun m => (loaded_write_buf cfg file.content fresh b1 b2).plus
              (m * srv_page_size cfg)),
        file,
        [Event.os_file_read (cfg.TRX_SYS_PAGE_NO <<< cfg.srv_page_size_shift)
            (srv_page_size cfg),
         Event.os_file_read (b1 <<< cfg.srv_page_size_shift)
            (cfg.TRX_SYS_DOUBLEWRITE_BLOCK_SIZE <<< cfg.srv_page_size_shift),
         Event.os_file_read (b2 <<< cfg.srv_page_size_shift)
            (cfg.TRX_SYS_DOUBLEWRITE_BLOCK_SIZE <<< cfg.srv_page_size_shift)]⟩ ∧
    ∀ m j, m < 2 * cfg.TRX_SYS_DOUBLEWRITE_BLOCK_SIZE → j < srv_page_size cfg →
      ((loaded_write_buf cfg file.content fresh b1 b2).plus (m * srv_page_size cfg)) j
        = file.content (staging_page_no cfg b1 b2 m * srv_page_size cfg + j) := by
  refine ⟨?_, fun m j hm hj => loaded_buf_page cfg file.content fresh b1 b2 m j hm hj⟩
  obtain ⟨l1, l2, l3, l4, _, _, _⟩ := hlay
  have e1 := header_field_eq cfg file.content fresh_read_buf cfg.TRX_SYS_DOUBLEWRITE_MAGIC l1
  have e2 := header_field_eq cfg file.content fresh_read_buf cfg.TRX_SYS_DOUBLEWRITE_BLOCK1 l2
  have e3 := header_field_eq cfg file.content fresh_read_buf cfg.TRX_SYS_DOUBLEWRITE_BLOCK2 l3
  have e4 := header_field_eq cfg file.content fresh_read_buf
    cfg.TRX_SYS_DOUBLEWRITE_SPACE_ID_STORED l4
  rw [hmagic] at e1
  rw [hb1] at e2
  rw [hb2] at e3
  rw [hmark] at e4
  simp only [buf_dblwr_init_or_load_pages, os_file_read, hr0, ne_eq, not_true_eq_false, if_false,
    e1, if_true, buf_dblwr_init, e2, e3, e4, decide_False, hr1, hr2, load_loop_collect,
    Bool.false_eq_true, loaded_write_buf]
  simp

theorem load_collects_candidates_witness :
    buf_dblwr_init_or_load_pages tiny_config (sample_file 3) (fun _ => 0) (fun _ => 0) none [] =
      ⟨dberr_t.DB_SUCCESS,
        some ⟨0, 0, 64, 128, false,
          loaded_write_buf tiny_config (sample_file 3).content (fun _ => 0) 64 128,
          fun _ => none⟩,
        [] ++
          ((List.range' 0 (tiny_config.TRX_SYS_DOUBLEWRITE_BLOCK_SIZE * 2)).filter (fun m =>
            decide (mach_read_from_8
              ((loaded_write_buf tiny_config (sample_file 3).content (fun _ => 0) 64 128).plus
                (m * srv_page_size tiny_config))
              tiny_config.FIL_PAGE_LSN ≠ 0))).map
            (fun m => (loaded_write_buf tiny_config (sample_file 3).content (fun _ => 0)
              64 128).plus (m * srv_page_size tiny_config)),
        sample_file 3,
        [Event.os_file_read (tiny_config.TRX_SYS_PAGE_NO <<< tiny_config.srv_page_size_shift)
            (srv_page_size tiny_config),
         Event.os_file_read (64 <<< tiny_config.srv_page_size_shift)
            (tiny_config.TRX_SYS_DOUBLEWRITE_BLOCK_SIZE <<< tiny_config.srv_page_size_shift),
         Event.os_file_read (128 <<< tiny_config.srv_page_size_shift)
            (tiny_config.TRX_SYS_DOUBLEWRITE_BLOCK_SIZE <<< tiny_config.srv_page_size_shift)]⟩ ∧
    ∀ m j, m < 2 * tiny_config.TRX_SYS_DOUBLEWRITE_BLOCK_SIZE → j < srv_page_size tiny_config →
      ((loaded_write_buf tiny_config (sample_file 3).content (fun _ => 0) 64 128).plus
          (m * srv_page_size tiny_config)) j
        = (sample_file 3).content
            (staging_page_no tiny_config 64 128 m * srv_page_size tiny_config + j) :=
  load_collects_candidates tiny_config (sample_file 3) (fun _ => 0) (fun _ => 0) none [] 64 128
    tiny_layout_ok rfl rfl rfl rfl rfl rfl rfl

/-- Writing the value 0 clears the four bytes of the field and keeps the others. -/
theorem mach_write_to_4_zero (b : Bytes) (off x : Nat) :
    mach_write_to_4 b off 0 x = if off ≤ x ∧ x < off + 4 then 0 else b x := by
  simp only [mach_write_to_4]
  split_ifs <;> first | rfl | omega

/-- A write that the file accepts copies the buffer into the file. -/
theorem os_file_write_ok (file : os_file_t) (buf : Bytes) (offset n : Nat)
    (h : file.write_err offset n = dberr_t.DB_SUCCESS) :
    os_file_write file buf offset n
      = (dberr_t.DB_SUCCESS, { file with content := memcpy file.content offset buf n }) := by
  simp [os_file_write, h]

/-- The page number the loader computes for staging position `m`. -/
theorem source_page_no_eq (cfg : Config) (b1 b2 m : Nat) :
    (if m < cfg.TRX_SYS_DOUBLEWRITE_BLOCK_SIZE then b1 + m
      else b2 + m - cfg.TRX_SYS_DOUBLEWRITE_BLOCK_SIZE) = staging_page_no cfg b1 b2 m := by
  simp only [staging_page_no]
  split_ifs
  · rfl
  · omega

/-- With the reset of space ids and every write succeeding, the page loop
writes page after page back to where it was read from, the space id field
zeroed, and adds no candidate. -/
theorem load_loop_reset (cfg : Config) (b1 b2 : Nat)
    (hsid : cfg.FIL_PAGE_ARCH_LOG_NO_OR_SPACE_ID + 4 ≤ srv_page_size cfg) (n : Nat) :
    ∀ (i : Nat) (st : LoadState),
    (∀ m, i ≤ m → m < i + n →
      st.file.write_err (staging_page_no cfg b1 b2 m <<< cfg.srv_page_size_shift)
        (srv_page_size cfg) = dberr_t.DB_SUCCESS) →
    (buf_dblwr_load_loop cfg true b1 b2 n i st).2 = dberr_t.DB_SUCCESS ∧
    (buf_dblwr_load_loop cfg true b1 b2 n i st).1.pages = st.pages ∧
    ∃ ws : List Event, ws.length = n ∧
      (buf_dblwr_load_loop cfg true b1 b2 n i st).1.trace = st.trace ++ ws ∧
      ∀ k, k < n → ∃ data, ws[k]? = some (Event.os_file_write
          (staging_page_no cfg b1 b2 (i + k) <<< cfg.srv_page_size_shift)
          (srv_page_size cfg) data) ∧
        ∀ j, j < srv_page_size cfg →
          data j = if cfg.FIL_PAGE_ARCH_LOG_NO_OR_SPACE_ID ≤ j
              ∧ j < cfg.FIL_PAGE_ARCH_LOG_NO_OR_SPACE_ID + 4 then 0
            else st.buf ((i + k) * srv_page_size cfg + j) := by
  induction n with
  | zero =>
    intro i st _
    exact ⟨rfl, rfl, [], rfl, by simp [buf_dblwr_load_loop], fun k hk => absurd hk (Nat.not_lt_zero k)⟩
  | succ n ih =>
    intro i st hw
    have hw0 := hw i (Nat.le_refl i) (by omega)
    simp only [buf_dblwr_load_loop, if_true, source_page_no_eq]
    rw [os_file_write_ok _ _ _ _ hw0]
    simp only [ne_eq, not_true_eq_false, if_false]
    obtain ⟨h1, h2, ws, h3, h4, h5⟩ := ih (i + 1)
      ⟨mach_write_to_4 st.buf (i * srv_page_size cfg + cfg.FIL_PAGE_ARCH_LOG_NO_OR_SPACE_ID) 0,
        ⟨memcpy st.file.content (staging_page_no cfg b1 b2 i <<< cfg.srv_page_size_shift)
            ((mach_write_to_4 st.buf
              (i * srv_page_size cfg + cfg.FIL_PAGE_ARCH_LOG_NO_OR_SPACE_ID) 0).plus
                (i * srv_page_size cfg)) (srv_page_size cfg),
          st.file.read_err, st.file.write_err⟩,
        st.pages,
        st.trace ++ [Event.os_file_write
          (staging_page_no cfg b1 b2 i <<< cfg.srv_page_size_shift) (srv_page_size cfg)
          ((mach_write_to_4 st.buf
            (i * srv_page_size cfg + cfg.FIL_PAGE_ARCH_LOG_NO_OR_SPACE_ID) 0).plus
              (i * srv_page_size cfg))]⟩
      (fun m hm1 hm2 => hw m (by omega) (by omega))
    refine ⟨h1, h2,
      Event.os_file_write (staging_page_no cfg b1 b2 i <<< cfg.srv_page_size_shift)
        (srv_page_size cfg)
        ((mach_write_to_4 st.buf
          (i * srv_page_size cfg + cfg.FIL_PAGE_ARCH_LOG_NO_OR_SPACE_ID) 0).plus
            (i * srv_page_size cfg)) :: ws, by simp [h3], ?_, ?_⟩
    · rw [h4]
      simp
    · intro k hk
      cases k with
      | zero =>
        refine ⟨(mach_write_to_4 st.buf
          (i * srv_page_size cfg + cfg.FIL_PAGE_ARCH_LOG_NO_OR_SPACE_ID) 0).plus
            (i * srv_page_size cfg), by simp, ?_⟩
        intro j hj
        simp only [Bytes.plus, mach_write_to_4_zero, Nat.add_zero]
        split_ifs with g1 g2 g3
        · rfl
        · omega
        · omega
        · rfl
      | succ k =>
        obtain ⟨data, hd1, hd2⟩ := h5 k (by omega)
        refine ⟨data, ?_, ?_⟩
        · rw [show i + (k + 1) = i + 1 + k by omega]
          simpa using hd1
        · intro j hj
          rw [hd2 j hj]
          simp only [mach_write_to_4_zero]
          have hlt : i * srv_page_size cfg + srv_page_size cfg
              ≤ (i + 1 + k) * srv_page_size cfg := by
            have := Nat.mul_le_mul_right (srv_page_size cfg) (show i + 1 ≤ i + 1 + k by omega)
            rwa [Nat.add_mul, Nat.one_mul] at this
          rw [show i + (k + 1) = i + 1 + k by omega]
          rw [if_neg (by omega : ¬ (i * srv_page_size cfg + cfg.FIL_PAGE_ARCH_LOG_NO_OR_SPACE_ID
              ≤ (i + 1 + k) * srv_page_size cfg + j ∧
            (i + 1 + k) * srv_page_size cfg + j
              < i * srv_page_size cfg + cfg.FIL_PAGE_ARCH_LOG_NO_OR_SPACE_ID + 4))]

/-- C14. When the magic is present, the space-id-stored marker is absent, the
three reads succeed and the page writes succeed, `buf_dblwr_init_or_load_pages`
returns `DB_SUCCESS` with the candidate set unchanged. After the three reads
its requests are `2N` page writes followed by one flush of the file: write
`m` goes to page `staging_page_no m` (`block1 + m` below `N`, `block2 + m - N`
from `N` on), has the length of one page, and its bytes are those the file
held at that page, except the four bytes of the space-id field, which are 0. -/
theorem load_resets_space_ids (cfg : Config) (file : os_file_t)
    (fresh_read_buf fresh : Bytes) (g : Option buf_dblwr_t) (pages0 : List Bytes) (b1 b2 : Nat)
    (hlay : layout_ok cfg)
    (hr0 : file.read_err (cfg.TRX_SYS_PAGE_NO <<< cfg.srv_page_size_shift) (srv_page_size cfg)
      = dberr_t.DB_SUCCESS)
    (hmagic : mach_read_from_4 (doublewrite_header cfg file.content)
      cfg.TRX_SYS_DOUBLEWRITE_MAGIC = cfg.TRX_SYS_DOUBLEWRITE_MAGIC_N)
    (hmark : mach_read_from_4 (doublewrite_header cfg file.content)
      cfg.TRX_SYS_DOUBLEWRITE_SPACE_ID_STORED ≠ cfg.TRX_SYS_DOUBLEWRITE_SPACE_ID_STORED_N)
    (hb1 : mach_read_from_4 (doublewrite_header cfg file.content)
      cfg.TRX_SYS_DOUBLEWRITE_BLOCK1 = b1)
    (hb2 : mach_read_from_4 (doublewrite_header cfg file.content)
      cfg.TRX_SYS_DOUBLEWRITE_BLOCK2 = b2)
    (hr1 : file.read_err (b1 <<< cfg.srv_page_size_shift)
      (cfg.TRX_SYS_DOUBLEWRITE_BLOCK_SIZE <<< cfg.srv_page_size_shift) = dberr_t.DB_SUCCESS)
    (hr2 : file.read_err (b2 <<< cfg.srv_page_size_shift)
      (cfg.TRX_SYS_DOUBLEWRITE_BLOCK_SIZE <<< cfg.srv_page_size_shift) = dberr_t.DB_SUCCESS)
    (hw : ∀ m, m < 2 * cfg.TRX_SYS_DOUBLEWRITE_BLOCK_SIZE →
      file.write_err (staging_page_no cfg b1 b2 m <<< cfg.srv_page_size_shift)
        (srv_page_size cfg) = dberr_t.DB_SUCCESS) :
    (buf_dblwr_init_or_load_pages cfg file fresh_read_buf fresh g pages0).err
      = dberr_t.DB_SUCCESS ∧
    (buf_dblwr_init_or_load_pages cfg file fresh_read_buf fresh g pages0).pages = pages0 ∧
    ∃ ws : List Event, ws.length = 2 * cfg.TRX_SYS_DOUBLEWRITE_BLOCK_SIZE ∧
      (buf_dblwr_init_or_load_pages cfg file fresh_read_buf fresh g pages0).trace =
        [Event.os_file_read (cfg.TRX_SYS_PAGE_NO <<< cfg.srv_page_size_shift)
            (srv_page_size cfg),
         Event.os_file_read (b1 <<< cfg.srv_page_size_shift)
            (cfg.TRX_SYS_DOUBLEWRITE_BLOCK_SIZE <<< cfg.srv_page_size_shift),
         Event.os_file_read (b2 <<< cfg.srv_page_size_shift)
            (cfg.TRX_SYS_DOUBLEWRITE_BLOCK_SIZE <<< cfg.srv_page_size_shift)]
          ++ ws ++ [Event.os_file_flush] ∧
      ∀ m, m < 2 * cfg.TRX_SYS_DOUBLEWRITE_BLOCK_SIZE →
        ∃ data, ws[m]? = some (Event.os_file_write
            (staging_page_no cfg b1 b2 m <<< cfg.srv_page_size_shift)
            (srv_page_size cfg) data) ∧
          ∀ j, j < srv_page_size cfg →
            data j = if cfg.FIL_PAGE_ARCH_LOG_NO_OR_SPACE_ID ≤ j
                ∧ j < cfg.FIL_PAGE_ARCH_LOG_NO_OR_SPACE_ID + 4 then 0
              else file.content (staging_page_no cfg b1 b2 m * srv_page_size cfg + j) := by
  obtain ⟨l1, l2, l3, l4, _, _, l7⟩ := hlay
  have e1 := header_field_eq cfg file.content fresh_read_buf cfg.TRX_SYS_DOUBLEWRITE_MAGIC l1
  have e2 := header_field_eq cfg file.content fresh_read_buf cfg.TRX_SYS_DOUBLEWRITE_BLOCK1 l2
  have e3 := header_field_eq cfg file.content fresh_read_buf cfg.TRX_SYS_DOUBLEWRITE_BLOCK2 l3
  have e4 := header_field_eq cfg file.content fresh_read_buf
    cfg.TRX_SYS_DOUBLEWRITE_SPACE_ID_STORED l4
  rw [hmagic] at e1
  rw [hb1] at e2
  rw [hb2] at e3
  obtain ⟨h1, h2, ws, h3, h4, h5⟩ := load_loop_reset cfg b1 b2 l7
    (cfg.TRX_SYS_DOUBLEWRITE_BLOCK_SIZE * 2) 0
    ⟨loaded_write_buf cfg file.content fresh b1 b2, file, pages0,
      [Event.os_file_read (cfg.TRX_SYS_PAGE_NO <<< cfg.srv_page_size_shift)
          (srv_page_size cfg),
       Event.os_file_read (b1 <<< cfg.srv_page_size_shift)
          (cfg.TRX_SYS_DOUBLEWRITE_BLOCK_SIZE <<< cfg.srv_page_size_shift),
       Event.os_file_read (b2 <<< cfg.srv_page_size_shift)
          (cfg.TRX_SYS_DOUBLEWRITE_BLOCK_SIZE <<< cfg.srv_page_size_shift)]⟩
    (fun m _ hm => hw m (by omega))
  simp only [loaded_write_buf] at h1 h2 h4
  simp only [buf_dblwr_init_or_load_pages, os_file_read, hr0, ne_eq, not_true_eq_false, if_false,
    e1, if_true, buf_dblwr_init, e2, e3, e4, hmark, not_false_eq_true, decide_True, hr1, hr2,
    List.singleton_append, List.cons_append, List.nil_append, h1, h2, h4]
  refine ⟨trivial, trivial, ws, by rw [h3]; omega, by simp, ?_⟩
  intro m hm
  obtain ⟨data, hd1, hd2⟩ := h5 m (by omega)
  refine ⟨data, by simpa using hd1, ?_⟩
  intro j hj
  rw [hd2 j hj]
  simp only [Nat.zero_add]
  rw [loaded_buf_page cfg file.content fresh b1 b2 m j hm hj]

theorem load_resets_space_ids_witness :
    (buf_dblwr_init_or_load_pages tiny_config old_format_file (fun _ => 0) (fun _ => 0)
      none []).err = dberr_t.DB_SUCCESS ∧
    (buf_dblwr_init_or_load_pages tiny_config old_format_file (fun _ => 0) (fun _ => 0)
      none []).pages = [] ∧
    ∃ ws : List Event, ws.length = 2 * tiny_config.TRX_SYS_DOUBLEWRITE_BLOCK_SIZE ∧
      (buf_dblwr_init_or_load_pages tiny_config old_format_file (fun _ => 0) (fun _ => 0)
          none []).trace =
        [Event.os_file_read (tiny_config.TRX_SYS_PAGE_NO <<< tiny_config.srv_page_size_shift)
            (srv_page_size tiny_config),
         Event.os_file_read (64 <<< tiny_config.srv_page_size_shift)
            (tiny_config.TRX_SYS_DOUBLEWRITE_BLOCK_SIZE <<< tiny_config.srv_page_size_shift),
         Event.os_file_read (128 <<< tiny_config.srv_page_size_shift)
            (tiny_config.TRX_SYS_DOUBLEWRITE_BLOCK_SIZE <<< tiny_config.srv_page_size_shift)]
          ++ ws ++ [Event.os_file_flush] ∧
      ∀ m, m < 2 * tiny_config.TRX_SYS_DOUBLEWRITE_BLOCK_SIZE →
        ∃ data, ws[m]? = some (Event.os_file_write
            (staging_page_no tiny_config 64 128 m <<< tiny_config.srv_page_size_shift)
            (srv_page_size tiny_config) data) ∧
          ∀ j, j < srv_page_size tiny_config →
            data j = if tiny_config.FIL_PAGE_ARCH_LOG_NO_OR_SPACE_ID ≤ j
                ∧ j < tiny_config.FIL_PAGE_ARCH_LOG_NO_OR_SPACE_ID + 4 then 0
              else old_format_file.content
                (staging_page_no tiny_config 64 128 m * srv_page_size tiny_config + j) :=
  load_resets_space_ids tiny_config old_format_file (fun _ => 0) (fun _ => 0) none [] 64 128
    tiny_layout_ok rfl rfl (by decide) rfl rfl rfl rfl (fun _ _ => rfl)

/-- The run of the loader on `old_format_file`, evaluated: three
reads, the two page writes and the flush. The write of page 64 has 0 in the
last byte of the space-id field, where the file had 9, and keeps the 7 of the
byte after the field. -/
theorem old_format_file_run :
    ((buf_dblwr_init_or_load_pages tiny_config old_format_file (fun _ => 0) (fun _ => 0)
      none []).trace.map (fun ev => match ev with
        | Event.os_file_read off len => (0, off, len, 0, 0)
        | Event.os_file_write off len data => (1, off, len, data 37, data 38)
        | Event.os_file_flush => (2, 0, 0, 0, 0)
        | _ => (3, 0, 0, 0, 0))) =
      [(0, 81920, 16384, 0, 0), (0, 1048576, 16384, 0, 0), (0, 2097152, 16384, 0, 0),
       (1, 1048576, 16384, 0, 7), (1, 2097152, 16384, 0, 0), (2, 0, 0, 0, 0)] ∧
    old_format_file.content (64 * 16384 + 37) = 9 := by
  refine ⟨?_, rfl⟩
  rfl

/-- C15. When the read of the header page fails, or the header read succeeds
with the magic present and the read of extent 1 fails, or both of these
succeed and the read of extent 2 fails, `buf_dblwr_init_or_load_pages`
returns the error code of the failing read, which is not `DB_SUCCESS`, and
the candidate set is the one the call started with. -/
theorem load_read_error (cfg : Config) (file : os_file_t)
    (fresh_read_buf fresh : Bytes) (g : Option buf_dblwr_t) (pages0 : List Bytes)
    (e : dberr_t) (hlay : layout_ok cfg) (he : e ≠ dberr_t.DB_SUCCESS) :
    (file.read_err (cfg.TRX_SYS_PAGE_NO <<< cfg.srv_page_size_shift) (srv_page_size cfg) = e →
      (buf_dblwr_init_or_load_pages cfg file fresh_read_buf fresh g pages0).err = e ∧
      (buf_dblwr_init_or_load_pages cfg file fresh_read_buf fresh g pages0).pages = pages0) ∧
    (file.read_err (cfg.TRX_SYS_PAGE_NO <<< cfg.srv_page_size_shift) (srv_page_size cfg)
        = dberr_t.DB_SUCCESS →
      mach_read_from_4 (doublewrite_header cfg file.content)
        cfg.TRX_SYS_DOUBLEWRITE_MAGIC = cfg.TRX_SYS_DOUBLEWRITE_MAGIC_N →
      file.read_err
        (mach_read_from_4 (doublewrite_header cfg file.content) cfg.TRX_SYS_DOUBLEWRITE_BLOCK1
          <<< cfg.srv_page_size_shift)
        (cfg.TRX_SYS_DOUBLEWRITE_BLOCK_SIZE <<< cfg.srv_page_size_shift) = e →
      (buf_dblwr_init_or_load_pages cfg file fresh_read_buf fresh g pages0).err = e ∧
      (buf_dblwr_init_or_load_pages cfg file fresh_read_buf fresh g pages0).pages = pages0) ∧
    (file.read_err (cfg.TRX_SYS_PAGE_NO <<< cfg.srv_page_size_shift) (srv_page_size cfg)
        = dberr_t.DB_SUCCESS →
      mach_read_from_4 (doublewrite_header cfg file.content)
        cfg.TRX_SYS_DOUBLEWRITE_MAGIC = cfg.TRX_SYS_DOUBLEWRITE_MAGIC_N →
      file.read_err
        (mach_read_from_4 (doublewrite_header cfg file.content) cfg.TRX_SYS_DOUBLEWRITE_BLOCK1
          <<< cfg.srv_page_size_shift)
        (cfg.TRX_SYS_DOUBLEWRITE_BLOCK_SIZE <<< cfg.srv_page_size_shift) = dberr_t.DB_SUCCESS →
      file.read_err
        (mach_read_from_4 (doublewrite_header cfg file.content) cfg.TRX_SYS_DOUBLEWRITE_BLOCK2
          <<< cfg.srv_page_size_shift)
        (cfg.TRX_SYS_DOUBLEWRITE_BLOCK_SIZE <<< cfg.srv_page_size_shift) = e →
      (buf_dblwr_init_or_load_pages cfg file fresh_read_buf fresh g pages0).err = e ∧
      (buf_dblwr_init_or_load_pages cfg file fresh_read_buf fresh g pages0).pages = pages0) := by
  obtain ⟨l1, l2, l3, _, _, _, _⟩ := hlay
  have e1 := header_field_eq cfg file.content fresh_read_buf cfg.TRX_SYS_DOUBLEWRITE_MAGIC l1
  have e2 := header_field_eq cfg file.content fresh_read_buf cfg.TRX_SYS_DOUBLEWRITE_BLOCK1 l2
  have e3 := header_field_eq cfg file.content fresh_read_buf cfg.TRX_SYS_DOUBLEWRITE_BLOCK2 l3
  cases e with
  | DB_SUCCESS => exact absurd rfl he
  | DB_FAIL code =>
    refine ⟨?_, ?_, ?_⟩
    · intro h0
      simp [buf_dblwr_init_or_load_pages, os_file_read, h0]
    · intro h0 hm h1
      rw [← e2] at h1
      rw [← e1] at hm
      simp [buf_dblwr_init_or_load_pages, os_file_read, h0, hm, buf_dblwr_init, h1]
    · intro h0 hm h1 h2
      rw [← e2] at h1
      rw [← e3] at h2
      rw [← e1] at hm
      simp [buf_dblwr_init_or_load_pages, os_file_read, h0, hm, buf_dblwr_init, h1, h2]

theorem load_read_error_witness :
    (buf_dblwr_init_or_load_pages tiny_config unreadable_file (fun _ => 0) (fun _ => 0)
      none []).err = dberr_t.DB_FAIL 1 ∧
    (buf_dblwr_init_or_load_pages tiny_config unreadable_file (fun _ => 0) (fun _ => 0)
      none []).pages = [] :=
  (load_read_error tiny_config unreadable_file (fun _ => 0) (fun _ => 0) none []
    (dberr_t.DB_FAIL 1) tiny_layout_ok (by decide)).2.1 rfl rfl rfl

/-! ## Recovery of torn pages -/

/-- A candidate that one of the five tests of the loop rejects leaves the
state of `buf_dblwr_process` as it was. -/
theorem process_page_skip (cfg : Config) (renv : RecvEnv) (pages : List Bytes)
    (st : ProcessState) (page : Bytes)
    (h : ¬ (page_get_page_no cfg page ≠ 0 ∧
      renv.parse_start_lsn ≤ mach_read_from_8 page cfg.FIL_PAGE_LSN ∧
      mach_read_from_8 page cfg.FIL_PAGE_LSN ≤ renv.scanned_lsn ∧
      ∃ space, renv.fil_space_acquire_for_io (page_get_space_id cfg page) = some space ∧
        page_get_page_no cfg page < space.size)) :
    buf_dblwr_process_page cfg renv pages st page = st := by
  simp only [buf_dblwr_process_page]
  by_cases h0 : page_get_page_no cfg page = 0
  · rw [if_pos h0]
  rw [if_neg h0]
  by_cases h1 : renv.parse_start_lsn > mach_read_from_8 page cfg.FIL_PAGE_LSN
  · rw [if_pos h1]
  rw [if_neg h1]
  by_cases h2 : renv.scanned_lsn < mach_read_from_8 page cfg.FIL_PAGE_LSN
  · rw [if_pos h2]
  rw [if_neg h2]
  cases hsp : renv.fil_space_acquire_for_io (page_get_space_id cfg page) with
  | none => rfl
  | some space =>
    simp only []
    by_cases h3 : page_get_page_no cfg page ≥ space.size
    · rw [if_pos h3]
    exact absurd ⟨h0, by omega, by omega, space, hsp, by omega⟩ h

/-- What one iteration of the loop of `buf_dblwr_process` does with a
candidate that passes the five tests: it reads the page, and it writes the
copy that `find_page` returns when the bytes read are all zero or do not
validate. -/
theorem process_page_read (cfg : Config) (renv : RecvEnv) (pages : List Bytes)
    (st : ProcessState) (page : Bytes) (space : fil_space_t)
    (hno : page_get_page_no cfg page ≠ 0)
    (hlo : renv.parse_start_lsn ≤ mach_read_from_8 page cfg.FIL_PAGE_LSN)
    (hhi : mach_read_from_8 page cfg.FIL_PAGE_LSN ≤ renv.scanned_lsn)
    (hsp : renv.fil_space_acquire_for_io (page_get_space_id cfg page) = some space)
    (hsize : page_get_page_no cfg page < space.size) :
    buf_dblwr_process_page cfg renv pages st page =
      if buf_is_zeroes (fil_io_read_page cfg renv st.disk
            ⟨page_get_space_id cfg page, page_get_page_no cfg page⟩
            space.zip_size space.physical_size) space.physical_size = false
          ∧ renv.validate_page ⟨page_get_space_id cfg page, page_get_page_no cfg page⟩
            (fil_io_read_page cfg renv st.disk
              ⟨page_get_space_id cfg page, page_get_page_no cfg page⟩
              space.zip_size space.physical_size) space = true then
        ⟨st.disk, st.trace ++ [Event.fil_io_read
          ⟨page_get_space_id cfg page, page_get_page_no cfg page⟩
          space.zip_size space.physical_size]⟩
      else
        match renv.find_page pages
            ⟨page_get_space_id cfg page, page_get_page_no cfg page⟩ space with
        | none => ⟨st.disk, st.trace ++ [Event.fil_io_read
            ⟨page_get_space_id cfg page, page_get_page_no cfg page⟩
            space.zip_size space.physical_size]⟩
        | some copy =>
          ⟨if renv.fil_io_write_node ⟨page_get_space_id cfg page, page_get_page_no cfg page⟩
            then fil_io_write_apply cfg st.disk
              ⟨page_get_space_id cfg page, page_get_page_no cfg page⟩
              space.zip_size space.physical_size copy
            else st.disk,
           st.trace ++ [Event.fil_io_read
              ⟨page_get_space_id cfg page, page_get_page_no cfg page⟩
              space.zip_size space.physical_size,
            Event.fil_io_write true
              ⟨page_get_space_id cfg page, page_get_page_no cfg page⟩
              space.zip_size space.physical_size copy none false]⟩ := by
  simp only [buf_dblwr_process_page]
  rw [if_neg hno, if_neg (by omega), if_neg (by omega)]
  simp only [hsp]
  rw [if_neg (by omega)]
  by_cases hv : buf_is_zeroes (fil_io_read_page cfg renv st.disk
            ⟨page_get_space_id cfg page, page_get_page_no cfg page⟩
            space.zip_size space.physical_size) space.physical_size = false
          ∧ renv.validate_page ⟨page_get_space_id cfg page, page_get_page_no cfg page⟩
            (fil_io_read_page cfg renv st.disk
              ⟨page_get_space_id cfg page, page_get_page_no cfg page⟩
              space.zip_size space.physical_size) space = true
  · rw [if_pos hv, if_pos hv]
  · rw [if_neg hv, if_neg hv]
    cases renv.find_page pages
        ⟨page_get_space_id cfg page, page_get_page_no cfg page⟩ space with
    | none => rfl
    | some copy => simp

/-- C16. In an iteration of the loop of `buf_dblwr_process`, the trace grows
by a read of the candidate's page (followed by at most the write of C17)
exactly when the five tests pass: the page number is not 0,
`parse_start_lsn <= lsn <= scanned_lsn`, the tablespace exists and the page
number is below its size. When a test fails the iteration changes neither
the trace nor the data files, and the loop goes on: the run over a candidate
list with the rejected candidate in it equals the run over the list without
it. -/
theorem process_reads_iff_eligible (cfg : Config) (renv : RecvEnv) (pages : List Bytes)
    (st : ProcessState) (page : Bytes) :
    ((page_get_page_no cfg page ≠ 0 ∧
      renv.parse_start_lsn ≤ mach_read_from_8 page cfg.FIL_PAGE_LSN ∧
      mach_read_from_8 page cfg.FIL_PAGE_LSN ≤ renv.scanned_lsn ∧
      ∃ space, renv.fil_space_acquire_for_io (page_get_space_id cfg page) = some space ∧
        page_get_page_no cfg page < space.size) ↔
     ∃ space rest,
      renv.fil_space_acquire_for_io (page_get_space_id cfg page) = some space ∧
      (buf_dblwr_process_page cfg renv pages st page).trace =
        st.trace ++ Event.fil_io_read
          ⟨page_get_space_id cfg page, page_get_page_no cfg page⟩
          space.zip_size space.physical_size :: rest ∧
      ∀ ev ∈ rest, ∀ id z n, ev ≠ Event.fil_io_read id z n) ∧
    (¬ (page_get_page_no cfg page ≠ 0 ∧
        renv.parse_start_lsn ≤ mach_read_from_8 page cfg.FIL_PAGE_LSN ∧
        mach_read_from_8 page cfg.FIL_PAGE_LSN ≤ renv.scanned_lsn ∧
        ∃ space, renv.fil_space_acquire_for_io (page_get_space_id cfg page) = some space ∧
          page_get_page_no cfg page < space.size) →
      buf_dblwr_process_page cfg renv pages st page = st ∧
      ∀ l1 l2 : List Bytes, ∀ s : ProcessState,
        (l1 ++ page :: l2).foldl (buf_dblwr_process_page cfg renv pages) s
          = (l1 ++ l2).foldl (buf_dblwr_process_page cfg renv pages) s) := by
  refine ⟨⟨?_, ?_⟩, ?_⟩
  · rintro ⟨hno, hlo, hhi, space, hsp, hsize⟩
    have hp := process_page_read cfg renv pages st page space hno hlo hhi hsp hsize
    by_cases hv : buf_is_zeroes (fil_io_read_page cfg renv st.disk
            ⟨page_get_space_id cfg page, page_get_page_no cfg page⟩
            space.zip_size space.physical_size) space.physical_size = false
          ∧ renv.validate_page ⟨page_get_space_id cfg page, page_get_page_no cfg page⟩
            (fil_io_read_page cfg renv st.disk
              ⟨page_get_space_id cfg page, page_get_page_no cfg page⟩
              space.zip_size space.physical_size) space = true
    · rw [if_pos hv] at hp
      exact ⟨space, [], hsp, by rw [hp], by simp⟩
    · rw [if_neg hv] at hp
      cases hf : renv.find_page pages
          ⟨page_get_space_id cfg page, page_get_page_no cfg page⟩ space with
      | none =>
        rw [hf] at hp
        exact ⟨space, [], hsp, by rw [hp], by simp⟩
      | some copy =>
        rw [hf] at hp
        refine ⟨space, [Event.fil_io_write true
          ⟨page_get_space_id cfg page, page_get_page_no cfg page⟩
          space.zip_size space.physical_size copy none false], hsp, by rw [hp], ?_⟩
        intro ev hev id z n
        rw [List.mem_singleton] at hev
        rw [hev]
        exact fun h => Event.noConfusion h
  · rintro ⟨space, rest, _, htr, _⟩
    by_contra hg
    rw [process_page_skip cfg renv pages st page hg] at htr
    have hlen := congrArg List.length htr
    simp at hlen
  · intro hg
    refine ⟨process_page_skip cfg renv pages st page hg, ?_⟩
    intro l1 l2 s
    rw [List.foldl_append, List.foldl_cons, List.foldl_append,
      process_page_skip cfg renv pages _ page hg]

theorem process_reads_iff_eligible_witness :
    buf_dblwr_process_page tiny_config sample_renv [sample_frame 7 0 100]
        ⟨sample_crash 0, []⟩ (sample_frame 7 0 100) = ⟨sample_crash 0, []⟩ :=
  ((process_reads_iff_eligible tiny_config sample_renv [sample_frame 7 0 100]
    ⟨sample_crash 0, []⟩ (sample_frame 7 0 100)).2 (fun h => h.1 rfl)).1

/-- C17. For a candidate that passes the five tests of the loop, so that its
page `pid` is read into `read_buf`: the iteration issues a write exactly when
(`read_buf` is all zero or `validate_page` rejects it) and `find_page`
returns a copy. Then the request is a write of that copy to page `pid`, with
the physical page size of the tablespace, and the data files change by that
write alone (when `fil_io` finds the file node). In every other case, among
them a `read_buf` that is not zero and validates, the read is the only
request and the data files are left as they were. -/
theorem process_writes_iff_torn (cfg : Config) (renv : RecvEnv) (pages : List Bytes)
    (st : ProcessState) (page : Bytes) (space : fil_space_t)
    (pid : page_id_t) (read_buf : Bytes)
    (hpid : pid = ⟨page_get_space_id cfg page, page_get_page_no cfg page⟩)
    (hbuf : read_buf
      = fil_io_read_page cfg renv st.disk pid space.zip_size space.physical_size)
    (hno : page_get_page_no cfg page ≠ 0)
    (hlo : renv.parse_start_lsn ≤ mach_read_from_8 page cfg.FIL_PAGE_LSN)
    (hhi : mach_read_from_8 page cfg.FIL_PAGE_LSN ≤ renv.scanned_lsn)
    (hsp : renv.fil_space_acquire_for_io (page_get_space_id cfg page) = some space)
    (hsize : page_get_page_no cfg page < space.size) :
    ((∃ copy, (buf_dblwr_process_page cfg renv pages st page).trace = st.trace ++
          [Event.fil_io_read pid space.zip_size space.physical_size,
           Event.fil_io_write true pid space.zip_size space.physical_size copy none false]) ↔
      ((buf_is_zeroes read_buf space.physical_size = true
          ∨ renv.validate_page pid read_buf space = false) ∧
        ∃ copy, renv.find_page pages pid space = some copy)) ∧
    (∀ copy, (buf_is_zeroes read_buf space.physical_size = true
          ∨ renv.validate_page pid read_buf space = false) →
      renv.find_page pages pid space = some copy →
      buf_dblwr_process_page cfg renv pages st page =
        ⟨if renv.fil_io_write_node pid
          then fil_io_write_apply cfg st.disk pid space.zip_size space.physical_size copy
          else st.disk,
         st.trace ++
          [Event.fil_io_read pid space.zip_size space.physical_size,
           Event.fil_io_write true pid space.zip_size space.physical_size copy none false]⟩) ∧
    (¬ ((buf_is_zeroes read_buf space.physical_size = true
          ∨ renv.validate_page pid read_buf space = false) ∧
        ∃ copy, renv.find_page pages pid space = some copy) →
      buf_dblwr_process_page cfg renv pages st page =
        ⟨st.disk, st.trace ++ [Event.fil_io_read pid space.zip_size space.physical_size]⟩) := by
  have hp := process_page_read cfg renv pages st page space hno hlo hhi hsp hsize
  rw [← hpid, ← hbuf] at hp
  have hwrite : ∀ copy, (buf_is_zeroes read_buf space.physical_size = true
          ∨ renv.validate_page pid read_buf space = false) →
      renv.find_page pages pid space = some copy →
      buf_dblwr_process_page cfg renv pages st page =
        ⟨if renv.fil_io_write_node pid
          then fil_io_write_apply cfg st.disk pid space.zip_size space.physical_size copy
          else st.disk,
         st.trace ++
          [Event.fil_io_read pid space.zip_size space.physical_size,
           Event.fil_io_write true pid space.zip_size space.physical_size copy none false]⟩ := by
    intro copy htorn hf
    have hv : ¬ (buf_is_zeroes read_buf space.physical_size = false
        ∧ renv.validate_page pid read_buf space = true) := by
      rintro ⟨hz, hval⟩
      rcases htorn with h | h
      · rw [hz] at h
        exact Bool.noConfusion h
      · rw [hval] at h
        exact Bool.noConfusion h
    rw [if_neg hv, hf] at hp
    exact hp
  have hskip : ¬ ((buf_is_zeroes read_buf space.physical_size = true
          ∨ renv.validate_page pid read_buf space = false) ∧
        ∃ copy, renv.find_page pages pid space = some copy) →
      buf_dblwr_process_page cfg renv pages st page =
        ⟨st.disk, st.trace ++ [Event.fil_io_read pid space.zip_size space.physical_size]⟩ := by
    intro hn
    by_cases hv : buf_is_zeroes read_buf space.physical_size = false
        ∧ renv.validate_page pid read_buf space = true
    · rw [if_pos hv] at hp
      exact hp
    · rw [if_neg hv] at hp
      cases hf : renv.find_page pages pid space with
      | none =>
        rw [hf] at hp
        exact hp
      | some copy =>
        exfalso
        apply hn
        refine ⟨?_, copy, hf⟩
        by_cases hz : buf_is_zeroes read_buf space.physical_size = true
        · exact Or.inl hz
        · right
          by_contra hval
          exact hv ⟨by simpa using hz, by simpa using hval⟩
  refine ⟨⟨?_, ?_⟩, hwrite, hskip⟩
  · rintro ⟨copy, htr⟩
    by_contra hn
    rw [hskip hn] at htr
    have hlen := congrArg List.length htr
    simp at hlen
  · rintro ⟨htorn, copy, hf⟩
    exact ⟨copy, by rw [hwrite copy htorn hf]⟩

/-- The page of tablespace 7 that the crash left torn reads as zeros. -/
theorem sample_crash_read_zero :
    buf_is_zeroes (fil_io_read_page tiny_config sample_renv (sample_crash 3) ⟨7, 3⟩ 0 16384)
      16384 = true := by
  apply buf_is_zeroes_of_zero
  intro j _
  simp only [fil_io_read_page, sample_renv, page_image]
  split_ifs
  rfl

theorem process_writes_iff_torn_witness :
    buf_dblwr_process_page tiny_config sample_renv [sample_frame 7 3 100]
        ⟨sample_crash 3, []⟩ (sample_frame 7 3 100) =
      ⟨if sample_renv.fil_io_write_node ⟨7, 3⟩
        then fil_io_write_apply tiny_config (sample_crash 3) ⟨7, 3⟩ 0 16384
          (sample_frame 7 3 100)
        else sample_crash 3,
       [] ++
        [Event.fil_io_read ⟨7, 3⟩ 0 16384,
         Event.fil_io_write true ⟨7, 3⟩ 0 16384 (sample_frame 7 3 100) none false]⟩ :=
  (process_writes_iff_torn tiny_config sample_renv [sample_frame 7 3 100]
    ⟨sample_crash 3, []⟩ (sample_frame 7 3 100) ⟨100, 16384, 0⟩ ⟨7, 3⟩
    (fil_io_read_page tiny_config sample_renv (sample_crash 3) ⟨7, 3⟩ 0 16384)
    rfl rfl (by decide) (by decide) (by decide) rfl (by decide)).2.1
    (sample_frame 7 3 100) (Or.inl sample_crash_read_zero) rfl

/-- C18. A second run of `buf_dblwr_process`, on the candidate set and the
data files that the first run left, issues no `fil_io` write and leaves the
data files as the first run left them. When the doublewrite buffer exists the
first run ends with the candidate set empty and with
`fil_flush_file_spaces`, and the only request of the second run is
`fil_flush_file_spaces`; when it does not exist, neither run issues a
request. -/
theorem process_twice_no_write (cfg : Config) (renv : RecvEnv) (g : Option buf_dblwr_t)
    (pages : List Bytes) (disk : Disk) :
    (buf_dblwr_process cfg renv g (buf_dblwr_process cfg renv g pages disk).pages
      (buf_dblwr_process cfg renv g pages disk).disk).disk
        = (buf_dblwr_process cfg renv g pages disk).disk ∧
    (buf_dblwr_process cfg renv g (buf_dblwr_process cfg renv g pages disk).pages
      (buf_dblwr_process cfg renv g pages disk).disk).trace
        = (match g with
          | none => []
          | some _ => [Event.fil_flush_file_spaces]) ∧
    (∀ ev ∈ (buf_dblwr_process cfg renv g (buf_dblwr_process cfg renv g pages disk).pages
        (buf_dblwr_process cfg renv g pages disk).disk).trace,
      ∀ s id z n b m l, ev ≠ Event.fil_io_write s id z n b m l) ∧
    (∀ d, g = some d →
      (buf_dblwr_process cfg renv g pages disk).pages = [] ∧
      ∃ t, (buf_dblwr_process cfg renv g pages disk).trace
        = t ++ [Event.fil_flush_file_spaces]) ∧
    (g = none → (buf_dblwr_process cfg renv g pages disk).trace = []) := by
  cases g with
  | none =>
    refine ⟨rfl, rfl, ?_, ?_, fun _ => rfl⟩
    · intro ev hev
      simp [buf_dblwr_process] at hev
    · intro d hd
      exact Option.noConfusion hd
  | some d =>
    refine ⟨rfl, rfl, ?_, ?_, fun h => Option.noConfusion h⟩
    · intro ev hev s id z n b m l
      simp only [buf_dblwr_process, List.foldl_nil, List.nil_append, List.mem_singleton] at hev
      rw [hev]
      exact fun h => Event.noConfusion h
    · intro _ _
      exact ⟨rfl, _, rfl⟩

theorem process_twice_no_write_witness :
    (buf_dblwr_process tiny_config sample_renv (sample_loaded 3).buf_dblwr
      (buf_dblwr_process tiny_config sample_renv (sample_loaded 3).buf_dblwr
        (sample_loaded 3).pages (sample_crash 3)).pages
      (buf_dblwr_process tiny_config sample_renv (sample_loaded 3).buf_dblwr
        (sample_loaded 3).pages (sample_crash 3)).disk).disk
      = (buf_dblwr_process tiny_config sample_renv (sample_loaded 3).buf_dblwr
        (sample_loaded 3).pages (sample_crash 3)).disk :=
  (process_twice_no_write tiny_config sample_renv (sample_loaded 3).buf_dblwr
    (sample_loaded 3).pages (sample_crash 3)).1

/-! ## Creation -/

/-- A pass through `start_again` that ends with `return(true)` leaves the
global `buf_dblwr` set. -/
theorem create_start_again_true (cfg : Config) (cenv : CreateEnv) (fresh : Bytes) :
    ∀ (fuel : Nat) (st : CreateState),
    (buf_dblwr_create_start_again cfg cenv fresh fuel st).2 = CreateOutcome.returned true →
    (buf_dblwr_create_start_again cfg cenv fresh fuel st).1.buf_dblwr.isSome = true := by
  intro fuel
  induction fuel with
  | zero =>
    intro st h
    simp [buf_dblwr_create_start_again] at h
  | succ fuel ih =>
    intro st
    simp only [buf_dblwr_create_start_again]
    by_cases hm : mach_read_from_4 (st.frame.plus cfg.TRX_SYS_DOUBLEWRITE)
        cfg.TRX_SYS_DOUBLEWRITE_MAGIC = cfg.TRX_SYS_DOUBLEWRITE_MAGIC_N
    · rw [if_pos hm]
      intro _
      rfl
    rw [if_neg hm]
    by_cases hs : cenv.sys_space_first_size < 3 * cenv.FSP_EXTENT_SIZE
    · rw [if_pos hs]
      intro h
      simp at h
    rw [if_neg hs]
    cases hf : cenv.fseg_create st.frame with
    | none =>
      intro h
      simp at h
    | some frame =>
      simp only []
      cases hl : (buf_dblwr_create_loop cfg cenv
          (TRX_SYS_DOUBLEWRITE_BLOCKS * cfg.TRX_SYS_DOUBLEWRITE_BLOCK_SIZE
            + cenv.FSP_EXTENT_SIZE / 2) 0
          ⟨frame, 0, st.trace ++ [CreateEvent.mtr_start] ++ [CreateEvent.fseg_create true]⟩).2 with
      | alloc_failed =>
        intro h
        simp at h
      | assert_failed =>
        intro h
        simp at h
      | done =>
        simp only []
        exact ih _

/-- C19. `buf_dblwr_create` is idempotent. When `buf_dblwr` is set it returns
true and the state is the one it was called with. When `buf_dblwr` is not
set and the header in the frame of the TRX_SYS page has the magic, it returns
true after `mtr.start()` and `mtr.commit()` alone (no page allocated, no
header field written, the frame unchanged), with `buf_dblwr` initialised from
the header: `block1` and `block2` are the 4-byte fields, `first_free` and
`b_reserved` are 0 and `batch_running` is false. And a call that follows a
call that returned true returns true and leaves the state as it found it. -/
theorem create_idempotent (cfg : Config) (cenv : CreateEnv) (fresh : Bytes)
    (fuel fuel2 : Nat) (st : CreateState) :
    (st.buf_dblwr.isSome = true →
      buf_dblwr_create cfg cenv fresh fuel st = (st, CreateOutcome.returned true)) ∧
    (st.buf_dblwr = none →
      mach_read_from_4 (st.frame.plus cfg.TRX_SYS_DOUBLEWRITE) cfg.TRX_SYS_DOUBLEWRITE_MAGIC
        = cfg.TRX_SYS_DOUBLEWRITE_MAGIC_N →
      buf_dblwr_create cfg cenv fresh (fuel + 1) st =
        (⟨some ⟨0, 0,
            mach_read_from_4 (st.frame.plus cfg.TRX_SYS_DOUBLEWRITE)
              cfg.TRX_SYS_DOUBLEWRITE_BLOCK1,
            mach_read_from_4 (st.frame.plus cfg.TRX_SYS_DOUBLEWRITE)
              cfg.TRX_SYS_DOUBLEWRITE_BLOCK2,
            false, fresh, fun _ => none⟩,
          false, st.frame,
          st.trace ++ [CreateEvent.mtr_start, CreateEvent.mtr_commit]⟩,
         CreateOutcome.returned true)) ∧
    ((buf_dblwr_create cfg cenv fresh fuel st).2 = CreateOutcome.returned true →
      buf_dblwr_create cfg cenv fresh fuel2 (buf_dblwr_create cfg cenv fresh fuel st).1
        = ((buf_dblwr_create cfg cenv fresh fuel st).1, CreateOutcome.returned true)) := by
  refine ⟨?_, ?_, ?_⟩
  · intro h
    simp only [buf_dblwr_create, h, if_true]
  · intro hb hm
    simp [buf_dblwr_create, hb, buf_dblwr_create_start_again, hm, buf_dblwr_init]
  · intro h
    have hs : (buf_dblwr_create cfg cenv fresh fuel st).1.buf_dblwr.isSome = true := by
      by_cases hb : st.buf_dblwr.isSome = true
      · simp only [buf_dblwr_create, hb, if_true]
      · simp only [buf_dblwr_create, hb, if_false] at h ⊢
        exact create_start_again_true cfg cenv fresh fuel st h
    generalize buf_dblwr_create cfg cenv fresh fuel st = r at hs
    simp only [buf_dblwr_create, hs, if_true]

set_option maxRecDepth 100000 in
/-- The creation on a TRX_SYS page that is all zero, with the allocator
`sample_cenv`: the first pass allocates 160 pages and writes the header, the
second pass through `start_again` finds the magic and returns true with
`block1 = 64` and `block2 = 128`. -/
theorem sample_create_run :
    (buf_dblwr_create innodb_config sample_cenv (fun _ => 0) 2 fresh_state).2
      = CreateOutcome.returned true ∧
    ((buf_dblwr_create innodb_config sample_cenv (fun _ => 0) 2 fresh_state).1.buf_dblwr.map
      (fun d => (d.first_free, d.b_reserved, d.block1, d.block2, d.batch_running)))
      = some (0, 0, 64, 128, false) ∧
    (buf_dblwr_create innodb_config sample_cenv (fun _ => 0) 2
      fresh_state).1.buf_dblwr_being_created = false ∧
    (buf_dblwr_create innodb_config sample_cenv (fun _ => 0) 1 fresh_state).2
      = CreateOutcome.out_of_fuel := by
  refine ⟨?_, ?_, ?_, ?_⟩ <;> rfl

set_option maxRecDepth 100000 in
theorem create_idempotent_witness :
    buf_dblwr_create innodb_config sample_cenv (fun _ => 0) 5
        (buf_dblwr_create innodb_config sample_cenv (fun _ => 0) 2 fresh_state).1
      = ((buf_dblwr_create innodb_config sample_cenv (fun _ => 0) 2 fresh_state).1,
         CreateOutcome.returned true) :=
  (create_idempotent innodb_config sample_cenv (fun _ => 0) 2 5 fresh_state).2.2 rfl

/-- The allocation loop when call `k` of `fseg_alloc_free_page` returns
`NULL` and the calls before it return pages that pass the `ut_a` checks: the
loop ends in the failure branch, and every request it adds to the trace is
one of `mtr.commit()`, `mtr.start()`, a call of `fseg_alloc_free_page`, or a
write of a block number; `P` is any property that these requests have. -/
theorem create_loop_alloc_failed (cfg : Config) (cenv : CreateEnv)
    (P : CreateEvent → Prop)
    (hP1 : P CreateEvent.mtr_commit) (hP2 : P CreateEvent.mtr_start)
    (hP3 : ∀ hint p, P (CreateEvent.fseg_alloc_free_page hint p))
    (hP4 : ∀ v, P (CreateEvent.mtr_write_4
      (cfg.TRX_SYS_DOUBLEWRITE + cfg.TRX_SYS_DOUBLEWRITE_BLOCK1) v))
    (hP5 : ∀ v, P (CreateEvent.mtr_write_4
      (cfg.TRX_SYS_DOUBLEWRITE + cenv.TRX_SYS_DOUBLEWRITE_REPEAT
        + cfg.TRX_SYS_DOUBLEWRITE_BLOCK1) v))
    (hP6 : ∀ v, P (CreateEvent.mtr_write_4
      (cfg.TRX_SYS_DOUBLEWRITE + cfg.TRX_SYS_DOUBLEWRITE_BLOCK2) v))
    (hP7 : ∀ v, P (CreateEvent.mtr_write_4
      (cfg.TRX_SYS_DOUBLEWRITE + cenv.TRX_SYS_DOUBLEWRITE_REPEAT
        + cfg.TRX_SYS_DOUBLEWRITE_BLOCK2) v))
    (k : Nat) (hk : cenv.fseg_alloc_free_page k = none)
    (hbefore : ∀ j, j < k → ∃ p, cenv.fseg_alloc_free_page j = some p ∧
      (j = cenv.FSP_EXTENT_SIZE / 2 → p = cenv.FSP_EXTENT_SIZE) ∧
      (j ≠ cenv.FSP_EXTENT_SIZE / 2 →
        j = cenv.FSP_EXTENT_SIZE / 2 + cfg.TRX_SYS_DOUBLEWRITE_BLOCK_SIZE →
        p = 2 * cenv.FSP_EXTENT_SIZE) ∧
      (j ≠ cenv.FSP_EXTENT_SIZE / 2 →
        j ≠ cenv.FSP_EXTENT_SIZE / 2 + cfg.TRX_SYS_DOUBLEWRITE_BLOCK_SIZE →
        j > cenv.FSP_EXTENT_SIZE / 2 →
        ∀ q, cenv.fseg_alloc_free_page (j - 1) = some q → p = q + 1)) (n : Nat) :
    ∀ (i : Nat) (st : AllocState), i ≤ k → k < i + n →
    (1 ≤ i → cenv.fseg_alloc_free_page (i - 1) = some st.prev_page_no) →
    (buf_dblwr_create_loop cfg cenv n i st).2 = AllocOutcome.alloc_failed ∧
    ∃ added, (buf_dblwr_create_loop cfg cenv n i st).1.trace = st.trace ++ added ∧
      ∀ ev ∈ added, P ev := by
  induction n with
  | zero =>
    intro i st h1 h2
    omega
  | succ n ih =>
    intro i st h1 h2 hprev
    by_cases hik : i = k
    · subst hik
      simp only [buf_dblwr_create_loop, hk]
      refine ⟨trivial, _, rfl, ?_⟩
      intro ev hev
      simp only [List.mem_cons, List.mem_singleton, List.not_mem_nil, or_false] at hev
      rcases hev with h | h
      · rw [h]
        exact hP3 _ _
      · rw [h]
        exact hP1
    · obtain ⟨p, hp, c1, c2, c3⟩ := hbefore i (by omega)
      have hnext : 1 ≤ i + 1 → cenv.fseg_alloc_free_page (i + 1 - 1) = some p := by
        intro _
        simpa using hp
      have hendt : ∀ s : AllocState, ∃ t, (buf_dblwr_create_loop_end i p s).trace = s.trace ++ t ∧
          ∀ ev ∈ t, P ev := by
        intro s
        simp only [buf_dblwr_create_loop_end]
        split_ifs
        · refine ⟨_, rfl, ?_⟩
          intro ev h
          simp only [List.mem_cons, List.mem_singleton, List.not_mem_nil, or_false] at h
          rcases h with h | h
          · rw [h]
            exact hP1
          · rw [h]
            exact hP2
        · exact ⟨[], by simp, by simp⟩
      simp only [buf_dblwr_create_loop, hp]
      by_cases b1 : i = cenv.FSP_EXTENT_SIZE / 2
      · rw [if_pos b1, if_pos (c1 b1)]
        obtain ⟨t, ht, htP⟩ := hendt (buf_dblwr_create_write_block cfg cenv
          cfg.TRX_SYS_DOUBLEWRITE_BLOCK1 p
          ⟨st.frame, st.prev_page_no, st.trace ++
            [CreateEvent.fseg_alloc_free_page (st.prev_page_no + 1) (some p)]⟩)
        obtain ⟨r1, added, r2, r3⟩ := ih (i + 1) (buf_dblwr_create_loop_end i p
          (buf_dblwr_create_write_block cfg cenv cfg.TRX_SYS_DOUBLEWRITE_BLOCK1 p
            ⟨st.frame, st.prev_page_no, st.trace ++
              [CreateEvent.fseg_alloc_free_page (st.prev_page_no + 1) (some p)]⟩))
          (by omega) (by omega) hnext
        refine ⟨r1, _, by rw [r2, ht]; simp only [buf_dblwr_create_write_block,
          List.append_assoc]; rfl, ?_⟩
        intro ev hev
        simp only [List.mem_append, List.mem_cons, List.mem_singleton, List.not_mem_nil,
          or_false] at hev
        rcases hev with h | (h | h) | h | h
        · rw [h]
          exact hP3 _ _
        · rw [h]
          exact hP4 _
        · rw [h]
          exact hP5 _
        · exact htP ev h
        · exact r3 ev h
      rw [if_neg b1]
      by_cases b2 : i = cenv.FSP_EXTENT_SIZE / 2 + cfg.TRX_SYS_DOUBLEWRITE_BLOCK_SIZE
      · rw [if_pos b2, if_pos (c2 b1 b2)]
        obtain ⟨t, ht, htP⟩ := hendt (buf_dblwr_create_write_block cfg cenv
          cfg.TRX_SYS_DOUBLEWRITE_BLOCK2 p
          ⟨st.frame, st.prev_page_no, st.trace ++
            [CreateEvent.fseg_alloc_free_page (st.prev_page_no + 1) (some p)]⟩)
        obtain ⟨r1, added, r2, r3⟩ := ih (i + 1) (buf_dblwr_create_loop_end i p
          (buf_dblwr_create_write_block cfg cenv cfg.TRX_SYS_DOUBLEWRITE_BLOCK2 p
            ⟨st.frame, st.prev_page_no, st.trace ++
              [CreateEvent.fseg_alloc_free_page (st.prev_page_no + 1) (some p)]⟩))
          (by omega) (by omega) hnext
        refine ⟨r1, _, by rw [r2, ht]; simp only [buf_dblwr_create_write_block,
          List.append_assoc]; rfl, ?_⟩
        intro ev hev
        simp only [List.mem_append, List.mem_cons, List.mem_singleton, List.not_mem_nil,
          or_false] at hev
        rcases hev with h | (h | h) | h | h
        · rw [h]
          exact hP3 _ _
        · rw [h]
          exact hP6 _
        · rw [h]
          exact hP7 _
        · exact htP ev h
        · exact r3 ev h
      rw [if_neg b2]
      have hcont : (buf_dblwr_create_loop cfg cenv n (i + 1)
          (buf_dblwr_create_loop_end i p ⟨st.frame, st.prev_page_no, st.trace ++
            [CreateEvent.fseg_alloc_free_page (st.prev_page_no + 1) (some p)]⟩)).2
            = AllocOutcome.alloc_failed ∧
          ∃ added, (buf_dblwr_create_loop cfg cenv n (i + 1)
            (buf_dblwr_create_loop_end i p ⟨st.frame, st.prev_page_no, st.trace ++
              [CreateEvent.fseg_alloc_free_page (st.prev_page_no + 1) (some p)]⟩)).1.trace
              = st.trace ++ added ∧ ∀ ev ∈ added, P ev := by
        obtain ⟨t, ht, htP⟩ := hendt ⟨st.frame, st.prev_page_no, st.trace ++
            [CreateEvent.fseg_alloc_free_page (st.prev_page_no + 1) (some p)]⟩
        obtain ⟨r1, added, r2, r3⟩ := ih (i + 1) (buf_dblwr_create_loop_end i p
          ⟨st.frame, st.prev_page_no, st.trace ++
            [CreateEvent.fseg_alloc_free_page (st.prev_page_no + 1) (some p)]⟩)
          (by omega) (by omega) hnext
        refine ⟨r1, _, by rw [r2, ht]; simp only [List.append_assoc]; rfl, ?_⟩
        intro ev hev
        simp only [List.mem_append, List.mem_cons, List.mem_singleton, List.not_mem_nil,
          or_false] at hev
        rcases hev with h | h | h
        · rw [h]
          exact hP3 _ _
        · exact htP ev h
        · exact r3 ev h
      by_cases b3 : i > cenv.FSP_EXTENT_SIZE / 2
      · rw [if_pos b3, if_pos (c3 b1 b2 b3 st.prev_page_no (hprev (by omega)))]
        exact hcont
      · rw [if_neg b3]
        exact hcont

/-- A pass through `start_again` in which the allocation loop ends in its
failure branch returns false with the state the loop left; the fuel plays no
part. -/
theorem create_pass_alloc_failed (cfg : Config) (cenv : CreateEnv) (fresh : Bytes)
    (fuel : Nat) (st : CreateState) (frame : Bytes)
    (hmagic : mach_read_from_4 (st.frame.plus cfg.TRX_SYS_DOUBLEWRITE)
      cfg.TRX_SYS_DOUBLEWRITE_MAGIC ≠ cfg.TRX_SYS_DOUBLEWRITE_MAGIC_N)
    (hsize : 3 * cenv.FSP_EXTENT_SIZE ≤ cenv.sys_space_first_size)
    (hf : cenv.fseg_create st.frame = some frame)
    (hl : (buf_dblwr_create_loop cfg cenv
        (TRX_SYS_DOUBLEWRITE_BLOCKS * cfg.TRX_SYS_DOUBLEWRITE_BLOCK_SIZE
          + cenv.FSP_EXTENT_SIZE / 2) 0
        ⟨frame, 0, st.trace ++ [CreateEvent.mtr_start] ++ [CreateEvent.fseg_create true]⟩).2
      = AllocOutcome.alloc_failed) :
    buf_dblwr_create_start_again cfg cenv fresh (fuel + 1) st =
      (⟨st.buf_dblwr, true,
        (buf_dblwr_create_loop cfg cenv
          (TRX_SYS_DOUBLEWRITE_BLOCKS * cfg.TRX_SYS_DOUBLEWRITE_BLOCK_SIZE
            + cenv.FSP_EXTENT_SIZE / 2) 0
          ⟨frame, 0, st.trace ++ [CreateEvent.mtr_start]
            ++ [CreateEvent.fseg_create true]⟩).1.frame,
        (buf_dblwr_create_loop cfg cenv
          (TRX_SYS_DOUBLEWRITE_BLOCKS * cfg.TRX_SYS_DOUBLEWRITE_BLOCK_SIZE
            + cenv.FSP_EXTENT_SIZE / 2) 0
          ⟨frame, 0, st.trace ++ [CreateEvent.mtr_start]
            ++ [CreateEvent.fseg_create true]⟩).1.trace⟩,
       CreateOutcome.returned false) := by
  simp only [buf_dblwr_create_start_again]
  rw [if_neg hmagic, if_neg (by omega)]
  simp only [hf, hl]

/-- C20. Let `buf_dblwr` be unset and the header without the magic. If the
first file of the system tablespace has fewer than `3 * FSP_EXTENT_SIZE`
pages, or `fseg_create` returns `NULL`, or call `k` of `fseg_alloc_free_page`
returns `NULL` (the calls before it passing the `ut_a` checks), then
`buf_dblwr_create` returns false and `buf_dblwr` stays unset, so that
`buf_dblwr_page_inside` is false for every page. The magic is not written: in
the first two cases the frame is unchanged and the requests are `mtr.start()`,
(`fseg_create`,) `mtr.commit()`; in the third no request writes the magic
field. The creation is not retried: the result is the same for every bound on
the passes through `start_again`, one pass included. -/
theorem create_failure (cfg : Config) (cenv : CreateEnv) (fresh : Bytes)
    (fuel fuel2 : Nat) (st : CreateState)
    (hb : st.buf_dblwr = none)
    (hmagic : mach_read_from_4 (st.frame.plus cfg.TRX_SYS_DOUBLEWRITE)
      cfg.TRX_SYS_DOUBLEWRITE_MAGIC ≠ cfg.TRX_SYS_DOUBLEWRITE_MAGIC_N) :
    (cenv.sys_space_first_size < 3 * cenv.FSP_EXTENT_SIZE →
      buf_dblwr_create cfg cenv fresh (fuel + 1) st =
        (⟨none, true, st.frame, st.trace ++ [CreateEvent.mtr_start, CreateEvent.mtr_commit]⟩,
         CreateOutcome.returned false)) ∧
    (3 * cenv.FSP_EXTENT_SIZE ≤ cenv.sys_space_first_size →
      cenv.fseg_create st.frame = none →
      buf_dblwr_create cfg cenv fresh (fuel + 1) st =
        (⟨none, true, st.frame, st.trace ++
          [CreateEvent.mtr_start, CreateEvent.fseg_create false, CreateEvent.mtr_commit]⟩,
         CreateOutcome.returned false)) ∧
    (3 * cenv.FSP_EXTENT_SIZE ≤ cenv.sys_space_first_size →
      ∀ frame k, cenv.fseg_create st.frame = some frame →
      k < TRX_SYS_DOUBLEWRITE_BLOCKS * cfg.TRX_SYS_DOUBLEWRITE_BLOCK_SIZE
        + cenv.FSP_EXTENT_SIZE / 2 →
      cenv.fseg_alloc_free_page k = none →
      (∀ j, j < k → ∃ p, cenv.fseg_alloc_free_page j = some p ∧
        (j = cenv.FSP_EXTENT_SIZE / 2 → p = cenv.FSP_EXTENT_SIZE) ∧
        (j ≠ cenv.FSP_EXTENT_SIZE / 2 →
          j = cenv.FSP_EXTENT_SIZE / 2 + cfg.TRX_SYS_DOUBLEWRITE_BLOCK_SIZE →
          p = 2 * cenv.FSP_EXTENT_SIZE) ∧
        (j ≠ cenv.FSP_EXTENT_SIZE / 2 →
          j ≠ cenv.FSP_EXTENT_SIZE / 2 + cfg.TRX_SYS_DOUBLEWRITE_BLOCK_SIZE →
          j > cenv.FSP_EXTENT_SIZE / 2 →
          ∀ q, cenv.fseg_alloc_free_page (j - 1) = some q → p = q + 1)) →
      cfg.TRX_SYS_DOUBLEWRITE_MAGIC ≠ cfg.TRX_SYS_DOUBLEWRITE_BLOCK1 →
      cfg.TRX_SYS_DOUBLEWRITE_MAGIC
        ≠ cenv.TRX_SYS_DOUBLEWRITE_REPEAT + cfg.TRX_SYS_DOUBLEWRITE_BLOCK1 →
      cfg.TRX_SYS_DOUBLEWRITE_MAGIC ≠ cfg.TRX_SYS_DOUBLEWRITE_BLOCK2 →
      cfg.TRX_SYS_DOUBLEWRITE_MAGIC
        ≠ cenv.TRX_SYS_DOUBLEWRITE_REPEAT + cfg.TRX_SYS_DOUBLEWRITE_BLOCK2 →
      (buf_dblwr_create cfg cenv fresh (fuel + 1) st).2 = CreateOutcome.returned false ∧
      (buf_dblwr_create cfg cenv fresh (fuel + 1) st).1.buf_dblwr = none ∧
      buf_dblwr_create cfg cenv fresh (fuel + 1) st
        = buf_dblwr_create cfg cenv fresh (fuel2 + 1) st ∧
      ∃ added, (buf_dblwr_create cfg cenv fresh (fuel + 1) st).1.trace = st.trace ++ added ∧
        ∀ ev ∈ added, ∀ v, ev ≠ CreateEvent.mtr_write_4
          (cfg.TRX_SYS_DOUBLEWRITE + cfg.TRX_SYS_DOUBLEWRITE_MAGIC) v) ∧
    ((buf_dblwr_create cfg cenv fresh (fuel + 1) st).1.buf_dblwr = none →
      ∀ p, buf_dblwr_page_inside cfg
        (buf_dblwr_create cfg cenv fresh (fuel + 1) st).1.buf_dblwr p = false) := by
  have hn : st.buf_dblwr.isSome = false := by rw [hb]; rfl
  refine ⟨?_, ?_, ?_, ?_⟩
  · intro hs
    simp [buf_dblwr_create, hn, buf_dblwr_create_start_again, hmagic, hs, hb]
  · intro hs hf
    have hs2 : ¬ cenv.sys_space_first_size < 3 * cenv.FSP_EXTENT_SIZE := by omega
    simp [buf_dblwr_create, hn, buf_dblwr_create_start_again, hmagic, hs2, hf, hb]
  · intro hs frame k hf hk hnone hbefore o1 o2 o3 o4
    obtain ⟨r1, added, r2, r3⟩ := create_loop_alloc_failed cfg cenv
      (fun ev => ∀ v, ev ≠ CreateEvent.mtr_write_4
          (cfg.TRX_SYS_DOUBLEWRITE + cfg.TRX_SYS_DOUBLEWRITE_MAGIC) v)
      (fun v h => CreateEvent.noConfusion h) (fun v h => CreateEvent.noConfusion h)
      (fun hint p v h => CreateEvent.noConfusion h)
      (fun v w h => o1 (by injection h with h1 _; omega))
      (fun v w h => o2 (by injection h with h1 _; omega))
      (fun v w h => o3 (by injection h with h1 _; omega))
      (fun v w h => o4 (by injection h with h1 _; omega))
      k hnone hbefore
      (TRX_SYS_DOUBLEWRITE_BLOCKS * cfg.TRX_SYS_DOUBLEWRITE_BLOCK_SIZE
        + cenv.FSP_EXTENT_SIZE / 2) 0
      ⟨frame, 0, st.trace ++ [CreateEvent.mtr_start] ++ [CreateEvent.fseg_create true]⟩
      (Nat.zero_le k) (by omega) (fun h => absurd h (by decide))
    have e1 := create_pass_alloc_failed cfg cenv fresh fuel st frame hmagic hs hf r1
    have e2 := create_pass_alloc_failed cfg cenv fresh fuel2 st frame hmagic hs hf r1
    simp only [buf_dblwr_create, hn, Bool.false_eq_true, if_false]
    rw [e1, e2]
    refine ⟨rfl, hb, rfl, [CreateEvent.mtr_start, CreateEvent.fseg_create true] ++ added, ?_, ?_⟩
    · simp only [r2]
      simp
    · intro ev hev
      simp only [List.cons_append, List.nil_append, List.mem_cons] at hev
      rcases hev with h | h | h
      · rw [h]
        exact fun v h => CreateEvent.noConfusion h
      · rw [h]
        exact fun v h => CreateEvent.noConfusion h
      · exact r3 ev h
  · intro h p
    rw [h]
    rfl

/-- The calls of `fseg_alloc_free_page` that precede call 40 of `full_cenv`
return pages that pass the `ut_a` checks of the allocation loop. -/
theorem full_cenv_before :
    ∀ j, j < 40 → ∃ p, full_cenv.fseg_alloc_free_page j = some p ∧
      (j = full_cenv.FSP_EXTENT_SIZE / 2 → p = full_cenv.FSP_EXTENT_SIZE) ∧
      (j ≠ full_cenv.FSP_EXTENT_SIZE / 2 →
        j = full_cenv.FSP_EXTENT_SIZE / 2 + innodb_config.TRX_SYS_DOUBLEWRITE_BLOCK_SIZE →
        p = 2 * full_cenv.FSP_EXTENT_SIZE) ∧
      (j ≠ full_cenv.FSP_EXTENT_SIZE / 2 →
        j ≠ full_cenv.FSP_EXTENT_SIZE / 2 + innodb_config.TRX_SYS_DOUBLEWRITE_BLOCK_SIZE →
        j > full_cenv.FSP_EXTENT_SIZE / 2 →
        ∀ q, full_cenv.fseg_alloc_free_page (j - 1) = some q → p = q + 1) := by
  intro j hj
  have hj1 : j - 1 < 40 := by omega
  refine ⟨j + 32, ?_, ?_, ?_, ?_⟩
  · simp [full_cenv, hj]
  · simp only [full_cenv, sample_cenv]
    omega
  · simp only [full_cenv, sample_cenv, innodb_config]
    omega
  · simp only [full_cenv, sample_cenv, innodb_config, if_pos hj1, Option.some.injEq]
    omega

theorem create_failure_witness :
    buf_dblwr_create innodb_config small_cenv (fun _ => 0) (0 + 1) fresh_state =
      (⟨none, true, fresh_state.frame,
        fresh_state.trace ++ [CreateEvent.mtr_start, CreateEvent.mtr_commit]⟩,
       CreateOutcome.returned false) ∧
    buf_dblwr_create innodb_config no_segment_cenv (fun _ => 0) (0 + 1) fresh_state =
      (⟨none, true, fresh_state.frame, fresh_state.trace ++
        [CreateEvent.mtr_start, CreateEvent.fseg_create false, CreateEvent.mtr_commit]⟩,
       CreateOutcome.returned false) ∧
    ((buf_dblwr_create innodb_config full_cenv (fun _ => 0) (0 + 1) fresh_state).2
        = CreateOutcome.returned false ∧
      (buf_dblwr_create innodb_config full_cenv (fun _ => 0) (0 + 1) fresh_state).1.buf_dblwr
        = none ∧
      buf_dblwr_create innodb_config full_cenv (fun _ => 0) (0 + 1) fresh_state
        = buf_dblwr_create innodb_config full_cenv (fun _ => 0) (7 + 1) fresh_state ∧
      ∃ added, (buf_dblwr_create innodb_config full_cenv (fun _ => 0) (0 + 1)
          fresh_state).1.trace = fresh_state.trace ++ added ∧
        ∀ ev ∈ added, ∀ v, ev ≠ CreateEvent.mtr_write_4
          (innodb_config.TRX_SYS_DOUBLEWRITE + innodb_config.TRX_SYS_DOUBLEWRITE_MAGIC) v) :=
  ⟨(create_failure innodb_config small_cenv (fun _ => 0) 0 7 fresh_state rfl
      (by decide)).1 (by decide),
   (create_failure innodb_config no_segment_cenv (fun _ => 0) 0 7 fresh_state rfl
      (by decide)).2.1 (by decide) rfl,
   (create_failure innodb_config full_cenv (fun _ => 0) 0 7 fresh_state rfl
      (by decide)).2.2.1 (by decide) (fun _ => 0) 40 rfl (by decide) rfl full_cenv_before
      (by decide) (by decide) (by decide) (by decide)⟩

set_option maxRecDepth 100000 in
/-- The failed creation with `full_cenv`, evaluated: the state it leaves has
`buf_dblwr` unset and `buf_dblwr_being_created` still set, the block number
64 is in the header, and the magic field of the header is 0. -/
theorem full_cenv_run :
    (buf_dblwr_create innodb_config full_cenv (fun _ => 0) 1 fresh_state).2
      = CreateOutcome.returned false ∧
    (buf_dblwr_create innodb_config full_cenv (fun _ => 0) 1
      fresh_state).1.buf_dblwr_being_created = true ∧
    mach_read_from_4
      ((buf_dblwr_create innodb_config full_cenv (fun _ => 0) 1 fresh_state).1.frame.plus
        innodb_config.TRX_SYS_DOUBLEWRITE) innodb_config.TRX_SYS_DOUBLEWRITE_BLOCK1 = 64 ∧
    mach_read_from_4
      ((buf_dblwr_create innodb_config full_cenv (fun _ => 0) 1 fresh_state).1.frame.plus
        innodb_config.TRX_SYS_DOUBLEWRITE) innodb_config.TRX_SYS_DOUBLEWRITE_MAGIC = 0 ∧
    (buf_dblwr_create innodb_config full_cenv (fun _ => 0) 1 fresh_state).1.trace.length
      = 50 := by
  refine ⟨?_, ?_, ?_, ?_, ?_⟩ <;> rfl

/-! ## The mini-transactions of the creation -/

/-- The allocation loop when every call of `fseg_alloc_free_page` from `i`
on returns a page that passes the `ut_a` checks: the loop runs to its end and
its requests are those of the iterations, in order. -/
theorem create_loop_done (cfg : Config) (cenv : CreateEnv) (n : Nat) :
    ∀ (i : Nat) (st : AllocState),
    (∀ j, i ≤ j → j < i + n → ∃ p, cenv.fseg_alloc_free_page j = some p ∧
      (j = cenv.FSP_EXTENT_SIZE / 2 → p = cenv.FSP_EXTENT_SIZE) ∧
      (j ≠ cenv.FSP_EXTENT_SIZE / 2 →
        j = cenv.FSP_EXTENT_SIZE / 2 + cfg.TRX_SYS_DOUBLEWRITE_BLOCK_SIZE →
        p = 2 * cenv.FSP_EXTENT_SIZE) ∧
      (j ≠ cenv.FSP_EXTENT_SIZE / 2 →
        j ≠ cenv.FSP_EXTENT_SIZE / 2 + cfg.TRX_SYS_DOUBLEWRITE_BLOCK_SIZE →
        j > cenv.FSP_EXTENT_SIZE / 2 →
        p = create_prev_page_no cenv j + 1)) →
    st.prev_page_no = create_prev_page_no cenv i →
    (buf_dblwr_create_loop cfg cenv n i st).2 = AllocOutcome.done ∧
    (buf_dblwr_create_loop cfg cenv n i st).1.trace =
      st.trace ++ (List.range' i n).flatMap (create_iteration_requests cfg cenv) := by
  induction n with
  | zero =>
    intro i st _ _
    simp [buf_dblwr_create_loop]
  | succ n ih =>
    intro i st hall hprev
    obtain ⟨p, hp, c1, c2, c3⟩ := hall i (Nat.le_refl i) (by omega)
    have hnext : ∀ s : AllocState,
        (buf_dblwr_create_loop_end i p s).prev_page_no = create_prev_page_no cenv (i + 1) := by
      intro s
      simp [buf_dblwr_create_loop_end, create_prev_page_no, hp]
    have hrest : ∀ j, i + 1 ≤ j → j < i + 1 + n → ∃ p, cenv.fseg_alloc_free_page j = some p ∧
        (j = cenv.FSP_EXTENT_SIZE / 2 → p = cenv.FSP_EXTENT_SIZE) ∧
        (j ≠ cenv.FSP_EXTENT_SIZE / 2 →
          j = cenv.FSP_EXTENT_SIZE / 2 + cfg.TRX_SYS_DOUBLEWRITE_BLOCK_SIZE →
          p = 2 * cenv.FSP_EXTENT_SIZE) ∧
        (j ≠ cenv.FSP_EXTENT_SIZE / 2 →
          j ≠ cenv.FSP_EXTENT_SIZE / 2 + cfg.TRX_SYS_DOUBLEWRITE_BLOCK_SIZE →
          j > cenv.FSP_EXTENT_SIZE / 2 →
          p = create_prev_page_no cenv j + 1) :=
      fun j h1 h2 => hall j (by omega) (by omega)
    simp only [buf_dblwr_create_loop, hp, List.range'_succ, List.flatMap_cons]
    by_cases b1 : i = cenv.FSP_EXTENT_SIZE / 2
    · rw [if_pos b1, if_pos (c1 b1)]
      obtain ⟨r1, r2⟩ := ih (i + 1) _ hrest (hnext _)
      refine ⟨r1, ?_⟩
      rw [r2]
      simp only [buf_dblwr_create_loop_end, buf_dblwr_create_write_block,
        create_iteration_requests, if_pos b1, hprev, hp, c1 b1]
      split_ifs <;> simp
    rw [if_neg b1]
    by_cases b2 : i = cenv.FSP_EXTENT_SIZE / 2 + cfg.TRX_SYS_DOUBLEWRITE_BLOCK_SIZE
    · rw [if_pos b2, if_pos (c2 b1 b2)]
      obtain ⟨r1, r2⟩ := ih (i + 1) _ hrest (hnext _)
      refine ⟨r1, ?_⟩
      rw [r2]
      simp only [buf_dblwr_create_loop_end, buf_dblwr_create_write_block,
        create_iteration_requests, if_neg b1, if_pos b2, hprev, hp, c2 b1 b2]
      split_ifs <;> simp
    rw [if_neg b2]
    have hcont : (buf_dblwr_create_loop cfg cenv n (i + 1)
        (buf_dblwr_create_loop_end i p ⟨st.frame, st.prev_page_no, st.trace ++
          [CreateEvent.fseg_alloc_free_page (st.prev_page_no + 1) (some p)]⟩)).2
          = AllocOutcome.done ∧
        (buf_dblwr_create_loop cfg cenv n (i + 1)
          (buf_dblwr_create_loop_end i p ⟨st.frame, st.prev_page_no, st.trace ++
            [CreateEvent.fseg_alloc_free_page (st.prev_page_no + 1) (some p)]⟩)).1.trace
          = st.trace ++ (create_iteration_requests cfg cenv i ++
            (List.range' (i + 1) n).flatMap (create_iteration_requests cfg cenv)) := by
      obtain ⟨r1, r2⟩ := ih (i + 1) _ hrest (hnext _)
      refine ⟨r1, ?_⟩
      rw [r2]
      simp only [buf_dblwr_create_loop_end, create_iteration_requests, if_neg b1, if_neg b2,
        hprev, hp]
      split_ifs <;> simp
    by_cases b3 : i > cenv.FSP_EXTENT_SIZE / 2
    · rw [if_pos b3, if_pos (by rw [hprev]; exact c3 b1 b2 b3)]
      exact hcont
    · rw [if_neg b3]
      exact hcont

/-- The number of restarts of the mini-transaction among the requests of the
first `n` iterations of the allocation loop: one for every 16 iterations. -/
theorem create_iterations_commits (cfg : Config) (cenv : CreateEnv) (n : Nat) :
    ((List.range n).flatMap (create_iteration_requests cfg cenv)).count CreateEvent.mtr_commit
      = n / 16 := by
  induction n with
  | zero => rfl
  | succ n ih =>
    rw [List.range_succ, List.flatMap_append, List.count_append, ih]
    have hand : (n + 1) &&& 15 = (n + 1) % 16 := Nat.and_pow_two_sub_one_eq_mod (n + 1) 4
    simp only [List.flatMap_cons, List.flatMap_nil, List.append_nil, create_iteration_requests,
      hand]
    split_ifs <;> simp [List.count_cons] <;> omega

/-- C21, amended. A creating call of `buf_dblwr_create` (no buffer, no magic,
a first file of at least three extents, `fseg_create` and every one of the
`2N + FSP_EXTENT_SIZE / 2` page allocations succeeding and passing the `ut_a`
checks) issues, in this order: `mtr.start()`, `fseg_create`, the requests of
the iterations `0 .. 2N + FSP_EXTENT_SIZE / 2 - 1` of the allocation loop (the
allocation, the writes of block 1 or block 2 at their iterations, and
`mtr.commit(); mtr.start()` whenever `((i + 1) & 15) == 0`), the writes of the
magic, its repeat and the space-id-stored marker, `mtr.commit()`,
`log_make_checkpoint()`, `buf_pool_invalidate()`; then it goes to
`start_again`. The allocation loop commits the mini-transaction
`(2N + FSP_EXTENT_SIZE / 2) / 16` times, so the allocations and the header
writes are spread over that many mini-transactions plus one; the magic is
written in the last of them, and the checkpoint follows its commit. -/
theorem create_restarts_mini_transaction (cfg : Config) (cenv : CreateEnv) (fresh : Bytes)
    (fuel : Nat) (st : CreateState) (frame : Bytes)
    (hb : st.buf_dblwr = none)
    (hmagic : mach_read_from_4 (st.frame.plus cfg.TRX_SYS_DOUBLEWRITE)
      cfg.TRX_SYS_DOUBLEWRITE_MAGIC ≠ cfg.TRX_SYS_DOUBLEWRITE_MAGIC_N)
    (hsize : 3 * cenv.FSP_EXTENT_SIZE ≤ cenv.sys_space_first_size)
    (hf : cenv.fseg_create st.frame = some frame)
    (hall : ∀ j, j < TRX_SYS_DOUBLEWRITE_BLOCKS * cfg.TRX_SYS_DOUBLEWRITE_BLOCK_SIZE
        + cenv.FSP_EXTENT_SIZE / 2 →
      ∃ p, cenv.fseg_alloc_free_page j = some p ∧
        (j = cenv.FSP_EXTENT_SIZE / 2 → p = cenv.FSP_EXTENT_SIZE) ∧
        (j ≠ cenv.FSP_EXTENT_SIZE / 2 →
          j = cenv.FSP_EXTENT_SIZE / 2 + cfg.TRX_SYS_DOUBLEWRITE_BLOCK_SIZE →
          p = 2 * cenv.FSP_EXTENT_SIZE) ∧
        (j ≠ cenv.FSP_EXTENT_SIZE / 2 →
          j ≠ cenv.FSP_EXTENT_SIZE / 2 + cfg.TRX_SYS_DOUBLEWRITE_BLOCK_SIZE →
          j > cenv.FSP_EXTENT_SIZE / 2 →
          ∀ q, cenv.fseg_alloc_free_page (j - 1) = some q → p = q + 1)) :
    (∃ frame2, buf_dblwr_create cfg cenv fresh (fuel + 1) st =
      buf_dblwr_create_start_again cfg cenv fresh fuel
        ⟨none, false, frame2,
          st.trace ++ [CreateEvent.mtr_start, CreateEvent.fseg_create true]
            ++ (List.range (TRX_SYS_DOUBLEWRITE_BLOCKS * cfg.TRX_SYS_DOUBLEWRITE_BLOCK_SIZE
                + cenv.FSP_EXTENT_SIZE / 2)).flatMap (create_iteration_requests cfg cenv)
            ++ [CreateEvent.mtr_write_4
                  (cfg.TRX_SYS_DOUBLEWRITE + cfg.TRX_SYS_DOUBLEWRITE_MAGIC)
                  cfg.TRX_SYS_DOUBLEWRITE_MAGIC_N,
                CreateEvent.mtr_write_4
                  (cfg.TRX_SYS_DOUBLEWRITE + cfg.TRX_SYS_DOUBLEWRITE_MAGIC
                    + cenv.TRX_SYS_DOUBLEWRITE_REPEAT)
                  cfg.TRX_SYS_DOUBLEWRITE_MAGIC_N,
                CreateEvent.mtr_write_4
                  (cfg.TRX_SYS_DOUBLEWRITE + cfg.TRX_SYS_DOUBLEWRITE_SPACE_ID_STORED)
                  cfg.TRX_SYS_DOUBLEWRITE_SPACE_ID_STORED_N]
            ++ [CreateEvent.mtr_commit, CreateEvent.log_make_checkpoint,
                CreateEvent.buf_pool_invalidate]⟩) ∧
    ((List.range (TRX_SYS_DOUBLEWRITE_BLOCKS * cfg.TRX_SYS_DOUBLEWRITE_BLOCK_SIZE
        + cenv.FSP_EXTENT_SIZE / 2)).flatMap
      (create_iteration_requests cfg cenv)).count CreateEvent.mtr_commit
      = (TRX_SYS_DOUBLEWRITE_BLOCKS * cfg.TRX_SYS_DOUBLEWRITE_BLOCK_SIZE
        + cenv.FSP_EXTENT_SIZE / 2) / 16 := by
  refine ⟨?_, create_iterations_commits cfg cenv _⟩
  have hn : st.buf_dblwr.isSome = false := by rw [hb]; rfl
  obtain ⟨r1, r2⟩ := create_loop_done cfg cenv
    (TRX_SYS_DOUBLEWRITE_BLOCKS * cfg.TRX_SYS_DOUBLEWRITE_BLOCK_SIZE
      + cenv.FSP_EXTENT_SIZE / 2) 0
    ⟨frame, 0, st.trace ++ [CreateEvent.mtr_start] ++ [CreateEvent.fseg_create true]⟩
    (by
      intro j _ hj
      obtain ⟨p, hp, c1, c2, c3⟩ := hall j (by omega)
      refine ⟨p, hp, c1, c2, ?_⟩
      intro b1 b2 b3
      cases j with
      | zero => omega
      | succ k =>
        obtain ⟨q, hq, _⟩ := hall k (by omega)
        have hpq := c3 b1 b2 b3 q (by simpa using hq)
        simp [create_prev_page_no, hq, hpq])
    rfl
  refine ⟨(buf_dblwr_create_write_magic cfg cenv (buf_dblwr_create_loop cfg cenv
    (TRX_SYS_DOUBLEWRITE_BLOCKS * cfg.TRX_SYS_DOUBLEWRITE_BLOCK_SIZE
      + cenv.FSP_EXTENT_SIZE / 2) 0
    ⟨frame, 0, st.trace ++ [CreateEvent.mtr_start]
      ++ [CreateEvent.fseg_create true]⟩).1).frame, ?_⟩
  simp only [List.append_assoc, List.singleton_append] at r1 r2
  simp only [buf_dblwr_create, hn, Bool.false_eq_true, if_false]
  rw [buf_dblwr_create_start_again]
  simp only []
  rw [if_neg hmagic, if_neg (by omega)]
  simp only [hf, r1, buf_dblwr_create_write_magic, r2, hb, List.range_eq_range',
    List.append_assoc, List.singleton_append, List.cons_append, List.nil_append]

/-- Every call of `fseg_alloc_free_page` of `sample_cenv` returns a page that
passes the `ut_a` checks of the allocation loop. -/
theorem sample_cenv_allocations :
    ∀ j, j < TRX_SYS_DOUBLEWRITE_BLOCKS * innodb_config.TRX_SYS_DOUBLEWRITE_BLOCK_SIZE
        + sample_cenv.FSP_EXTENT_SIZE / 2 →
      ∃ p, sample_cenv.fseg_alloc_free_page j = some p ∧
        (j = sample_cenv.FSP_EXTENT_SIZE / 2 → p = sample_cenv.FSP_EXTENT_SIZE) ∧
        (j ≠ sample_cenv.FSP_EXTENT_SIZE / 2 →
          j = sample_cenv.FSP_EXTENT_SIZE / 2 + innodb_config.TRX_SYS_DOUBLEWRITE_BLOCK_SIZE →
          p = 2 * sample_cenv.FSP_EXTENT_SIZE) ∧
        (j ≠ sample_cenv.FSP_EXTENT_SIZE / 2 →
          j ≠ sample_cenv.FSP_EXTENT_SIZE / 2 + innodb_config.TRX_SYS_DOUBLEWRITE_BLOCK_SIZE →
          j > sample_cenv.FSP_EXTENT_SIZE / 2 →
          ∀ q, sample_cenv.fseg_alloc_free_page (j - 1) = some q → p = q + 1) := by
  intro j _
  refine ⟨j + 32, rfl, ?_, ?_, ?_⟩
  · simp only [sample_cenv]
    omega
  · simp only [sample_cenv, innodb_config]
    omega
  · simp only [sample_cenv, innodb_config, Option.some.injEq]
    omega

set_option maxRecDepth 100000 in
/-- C21, as stated, fails for the standard build (16 KiB pages, blocks and
extents of 64 pages). The creation on an empty header with the allocator
`sample_cenv` returns true, and its trace has the first page allocation at
position 2, `mtr.commit()` at position 18 (after the 16th allocation), the
write of block 1 at position 39, that of block 2 at position 113 and the
write of the magic at position 186: the mini-transaction is committed 10
times between the first allocation and the write of the magic. -/
theorem create_commits_before_magic :
    (buf_dblwr_create innodb_config sample_cenv (fun _ => 0) 2 fresh_state).2
      = CreateOutcome.returned true ∧
    (buf_dblwr_create innodb_config sample_cenv (fun _ => 0) 2 fresh_state).1.trace.take 20
      = [CreateEvent.mtr_start, CreateEvent.fseg_create true]
        ++ (List.range 16).map (fun i =>
          CreateEvent.fseg_alloc_free_page (if i = 0 then 1 else i + 32) (some (i + 32)))
        ++ [CreateEvent.mtr_commit, CreateEvent.mtr_start] ∧
    (buf_dblwr_create innodb_config sample_cenv (fun _ => 0) 2 fresh_state).1.trace.indexOf
      (CreateEvent.fseg_alloc_free_page 1 (some 32)) = 2 ∧
    (buf_dblwr_create innodb_config sample_cenv (fun _ => 0) 2 fresh_state).1.trace.indexOf
      CreateEvent.mtr_commit = 18 ∧
    (buf_dblwr_create innodb_config sample_cenv (fun _ => 0) 2 fresh_state).1.trace.indexOf
      (CreateEvent.mtr_write_4
        (innodb_config.TRX_SYS_DOUBLEWRITE + innodb_config.TRX_SYS_DOUBLEWRITE_BLOCK1) 64)
      = 39 ∧
    (buf_dblwr_create innodb_config sample_cenv (fun _ => 0) 2 fresh_state).1.trace.indexOf
      (CreateEvent.mtr_write_4
        (innodb_config.TRX_SYS_DOUBLEWRITE + innodb_config.TRX_SYS_DOUBLEWRITE_BLOCK2) 128)
      = 113 ∧
    (buf_dblwr_create innodb_config sample_cenv (fun _ => 0) 2 fresh_state).1.trace.indexOf
      (CreateEvent.mtr_write_4
        (innodb_config.TRX_SYS_DOUBLEWRITE + innodb_config.TRX_SYS_DOUBLEWRITE_MAGIC)
        innodb_config.TRX_SYS_DOUBLEWRITE_MAGIC_N) = 186 ∧
    ((buf_dblwr_create innodb_config sample_cenv (fun _ => 0) 2
      fresh_state).1.trace.take 186).count CreateEvent.mtr_commit = 10 ∧
    (buf_dblwr_create innodb_config sample_cenv (fun _ => 0) 2 fresh_state).1.trace.drop 186
      = [CreateEvent.mtr_write_4 16194 536853855, CreateEvent.mtr_write_4 16206 536853855,
         CreateEvent.mtr_write_4 16218 1783657386, CreateEvent.mtr_commit,
         CreateEvent.log_make_checkpoint, CreateEvent.buf_pool_invalidate,
         CreateEvent.mtr_start, CreateEvent.mtr_commit] := by
  refine ⟨?_, ?_, ?_, ?_, ?_, ?_, ?_, ?_, ?_⟩ <;> rfl

theorem create_restarts_mini_transaction_witness :
    (∃ frame2, buf_dblwr_create innodb_config sample_cenv (fun _ => 0) (1 + 1) fresh_state =
      buf_dblwr_create_start_again innodb_config sample_cenv (fun _ => 0) 1
        ⟨none, false, frame2,
          fresh_state.trace ++ [CreateEvent.mtr_start, CreateEvent.fseg_create true]
            ++ (List.range
                (TRX_SYS_DOUBLEWRITE_BLOCKS * innodb_config.TRX_SYS_DOUBLEWRITE_BLOCK_SIZE
                  + sample_cenv.FSP_EXTENT_SIZE / 2)).flatMap
                (create_iteration_requests innodb_config sample_cenv)
            ++ [CreateEvent.mtr_write_4
                  (innodb_config.TRX_SYS_DOUBLEWRITE + innodb_config.TRX_SYS_DOUBLEWRITE_MAGIC)
                  innodb_config.TRX_SYS_DOUBLEWRITE_MAGIC_N,
                CreateEvent.mtr_write_4
                  (innodb_config.TRX_SYS_DOUBLEWRITE + innodb_config.TRX_SYS_DOUBLEWRITE_MAGIC
                    + sample_cenv.TRX_SYS_DOUBLEWRITE_REPEAT)
                  innodb_config.TRX_SYS_DOUBLEWRITE_MAGIC_N,
                CreateEvent.mtr_write_4
                  (innodb_config.TRX_SYS_DOUBLEWRITE
                    + innodb_config.TRX_SYS_DOUBLEWRITE_SPACE_ID_STORED)
                  innodb_config.TRX_SYS_DOUBLEWRITE_SPACE_ID_STORED_N]
            ++ [CreateEvent.mtr_commit, CreateEvent.log_make_checkpoint,
                CreateEvent.buf_pool_invalidate]⟩) ∧
    ((List.range (TRX_SYS_DOUBLEWRITE_BLOCKS * innodb_config.TRX_SYS_DOUBLEWRITE_BLOCK_SIZE
        + sample_cenv.FSP_EXTENT_SIZE / 2)).flatMap
      (create_iteration_requests innodb_config sample_cenv)).count CreateEvent.mtr_commit
      = (TRX_SYS_DOUBLEWRITE_BLOCKS * innodb_config.TRX_SYS_DOUBLEWRITE_BLOCK_SIZE
        + sample_cenv.FSP_EXTENT_SIZE / 2) / 16 :=
  create_restarts_mini_transaction innodb_config sample_cenv (fun _ => 0) 1 fresh_state
    (fun _ => 0) rfl (by decide) (by decide) rfl sample_cenv_allocations

/-! ## Validation before the stage writes -/

/-- When `buf_dblwr_check_block` reaches `buf_dblwr_assert_on_corrupt_block`:
for an index page type whose simple validation fails, and for a page type
that is not among the cases of the `switch`. -/
theorem check_block_false_iff (cfg : Config) (env : Env) (block : buf_page_t) :
    buf_dblwr_check_block cfg env block = false ↔
      (((fil_page_get_type cfg block.frame = cfg.FIL_PAGE_INDEX
          ∨ fil_page_get_type cfg block.frame = cfg.FIL_PAGE_TYPE_INSTANT
          ∨ fil_page_get_type cfg block.frame = cfg.FIL_PAGE_RTREE) ∧
        (if env.page_is_comp block.frame = true then env.page_simple_validate_new block.frame
          else env.page_simple_validate_old block.frame) = false) ∨
       (fil_page_get_type cfg block.frame ≠ cfg.FIL_PAGE_INDEX
        ∧ fil_page_get_type cfg block.frame ≠ cfg.FIL_PAGE_TYPE_INSTANT
        ∧ fil_page_get_type cfg block.frame ≠ cfg.FIL_PAGE_RTREE
        ∧ fil_page_get_type cfg block.frame ≠ cfg.FIL_PAGE_TYPE_FSP_HDR
        ∧ fil_page_get_type cfg block.frame ≠ cfg.FIL_PAGE_IBUF_BITMAP
        ∧ fil_page_get_type cfg block.frame ≠ cfg.FIL_PAGE_TYPE_UNKNOWN
        ∧ fil_page_get_type cfg block.frame ≠ cfg.FIL_PAGE_UNDO_LOG
        ∧ fil_page_get_type cfg block.frame ≠ cfg.FIL_PAGE_INODE
        ∧ fil_page_get_type cfg block.frame ≠ cfg.FIL_PAGE_IBUF_FREE_LIST
        ∧ fil_page_get_type cfg block.frame ≠ cfg.FIL_PAGE_TYPE_SYS
        ∧ fil_page_get_type cfg block.frame ≠ cfg.FIL_PAGE_TYPE_TRX_SYS
        ∧ fil_page_get_type cfg block.frame ≠ cfg.FIL_PAGE_TYPE_XDES
        ∧ fil_page_get_type cfg block.frame ≠ cfg.FIL_PAGE_TYPE_BLOB
        ∧ fil_page_get_type cfg block.frame ≠ cfg.FIL_PAGE_TYPE_ZBLOB
        ∧ fil_page_get_type cfg block.frame ≠ cfg.FIL_PAGE_TYPE_ZBLOB2
        ∧ fil_page_get_type cfg block.frame ≠ cfg.FIL_PAGE_TYPE_ALLOCATED)) := by
  simp only [buf_dblwr_check_block]
  by_cases h1 : fil_page_get_type cfg block.frame = cfg.FIL_PAGE_INDEX
      ∨ fil_page_get_type cfg block.frame = cfg.FIL_PAGE_TYPE_INSTANT
      ∨ fil_page_get_type cfg block.frame = cfg.FIL_PAGE_RTREE
  · rw [if_pos h1]
    constructor
    · intro h
      exact Or.inl ⟨h1, h⟩
    · rintro (⟨_, h⟩ | ⟨n1, n2, n3, _⟩)
      · exact h
      · rcases h1 with h | h | h
        · exact absurd h n1
        · exact absurd h n2
        · exact absurd h n3
  · rw [if_neg h1]
    by_cases h2 : fil_page_get_type cfg block.frame = cfg.FIL_PAGE_TYPE_FSP_HDR
      ∨ fil_page_get_type cfg block.frame = cfg.FIL_PAGE_IBUF_BITMAP
      ∨ fil_page_get_type cfg block.frame = cfg.FIL_PAGE_TYPE_UNKNOWN
      ∨ fil_page_get_type cfg block.frame = cfg.FIL_PAGE_UNDO_LOG
      ∨ fil_page_get_type cfg block.frame = cfg.FIL_PAGE_INODE
      ∨ fil_page_get_type cfg block.frame = cfg.FIL_PAGE_IBUF_FREE_LIST
      ∨ fil_page_get_type cfg block.frame = cfg.FIL_PAGE_TYPE_SYS
      ∨ fil_page_get_type cfg block.frame = cfg.FIL_PAGE_TYPE_TRX_SYS
      ∨ fil_page_get_type cfg block.frame = cfg.FIL_PAGE_TYPE_XDES
      ∨ fil_page_get_type cfg block.frame = cfg.FIL_PAGE_TYPE_BLOB
      ∨ fil_page_get_type cfg block.frame = cfg.FIL_PAGE_TYPE_ZBLOB
      ∨ fil_page_get_type cfg block.frame = cfg.FIL_PAGE_TYPE_ZBLOB2
    · rw [if_pos h2]
      constructor
      · intro h
        exact Bool.noConfusion h
      · rintro (⟨h, _⟩ | h)
        · exact absurd h h1
        · exfalso
          tauto
    · rw [if_neg h2]
      by_cases h3 : fil_page_get_type cfg block.frame = cfg.FIL_PAGE_TYPE_ALLOCATED
      · rw [if_pos h3]
        constructor
        · intro h
          exact Bool.noConfusion h
        · rintro (⟨h, _⟩ | h)
          · exact absurd h h1
          · exfalso
            tauto
      · rw [if_neg h3]
        constructor
        · intro _
          right
          tauto
        · intro _
          rfl

/-- The validation loop ends the process exactly when some slot below
`first_free` holds an uncompressed file page that `buf_dblwr_check_block`
rejects; the slots are assumed to hold pages. -/
theorem check_slots_false_iff (cfg : Config) (env : Env) (d : buf_dblwr_t)
    (hslots : ∀ i, i < d.first_free → ∃ e, d.buf_block_arr i = some e) :
    buf_dblwr_check_slots cfg env d = false ↔
      ∃ i e, i < d.first_free ∧ d.buf_block_arr i = some e ∧
        e.bpage.state = buf_page_state.BUF_BLOCK_FILE_PAGE ∧ e.bpage.zip_data = false ∧
        buf_dblwr_check_block cfg env e.bpage = false := by
  constructor
  · intro h
    by_contra hn
    have ht : buf_dblwr_check_slots cfg env d = true := by
      rw [check_slots_iff]
      intro i hi
      obtain ⟨e, he⟩ := hslots i hi
      simp only [buf_dblwr_check_slot, he]
      by_cases hc : e.bpage.state ≠ buf_page_state.BUF_BLOCK_FILE_PAGE ∨ e.bpage.zip_data = true
      · rw [if_pos hc]
      · rw [if_neg hc]
        by_contra hb
        apply hn
        refine ⟨i, e, hi, he, ?_, ?_, by simpa using hb⟩
        · by_contra hs
          exact hc (Or.inl hs)
        · by_contra hz
          exact hc (Or.inr (by simpa using hz))
    rw [ht] at h
    exact Bool.noConfusion h
  · rintro ⟨i, e, hi, he, hs, hz, hb⟩
    by_contra hn
    have ht : buf_dblwr_check_slots cfg env d = true := by simpa using hn
    rw [check_slots_iff] at ht
    have hi2 := ht i hi
    simp only [buf_dblwr_check_slot, he] at hi2
    rw [if_neg (by rw [hs, hz]; simp), hb] at hi2
    exact Bool.noConfusion hi2

/-- C22. In a flush that commits a batch (doublewrite enabled, a non-empty
buffer, no batch running, every slot below `first_free` holding a page):
`buf_dblwr_check_block` ends the process exactly for an index page type
(`FIL_PAGE_INDEX`, `FIL_PAGE_TYPE_INSTANT`, `FIL_PAGE_RTREE`) whose simple
validation for its row format fails and for a page type that is not among the
cases of the `switch`. The flush ends the process with no request issued
exactly when some slot holds an uncompressed file page (state
`BUF_BLOCK_FILE_PAGE`, no zip data) that `buf_dblwr_check_block` rejects;
slots with other pages play no part. And its trace starts with the stage
writes exactly when every such page passes. -/
theorem flush_validates_file_pages (cfg : Config) (env : Env) (d : buf_dblwr_t)
    (hen : cfg.srv_use_doublewrite_buf = true) (hpos : 0 < d.first_free)
    (hrun : d.batch_running = false)
    (hslots : ∀ i, i < d.first_free → ∃ e, d.buf_block_arr i = some e) :
    (∀ block : buf_page_t, buf_dblwr_check_block cfg env block = false ↔
      (((fil_page_get_type cfg block.frame = cfg.FIL_PAGE_INDEX
          ∨ fil_page_get_type cfg block.frame = cfg.FIL_PAGE_TYPE_INSTANT
          ∨ fil_page_get_type cfg block.frame = cfg.FIL_PAGE_RTREE) ∧
        (if env.page_is_comp block.frame = true then env.page_simple_validate_new block.frame
          else env.page_simple_validate_old block.frame) = false) ∨
       (fil_page_get_type cfg block.frame ≠ cfg.FIL_PAGE_INDEX
        ∧ fil_page_get_type cfg block.frame ≠ cfg.FIL_PAGE_TYPE_INSTANT
        ∧ fil_page_get_type cfg block.frame ≠ cfg.FIL_PAGE_RTREE
        ∧ fil_page_get_type cfg block.frame ≠ cfg.FIL_PAGE_TYPE_FSP_HDR
        ∧ fil_page_get_type cfg block.frame ≠ cfg.FIL_PAGE_IBUF_BITMAP
        ∧ fil_page_get_type cfg block.frame ≠ cfg.FIL_PAGE_TYPE_UNKNOWN
        ∧ fil_page_get_type cfg block.frame ≠ cfg.FIL_PAGE_UNDO_LOG
        ∧ fil_page_get_type cfg block.frame ≠ cfg.FIL_PAGE_INODE
        ∧ fil_page_get_type cfg block.frame ≠ cfg.FIL_PAGE_IBUF_FREE_LIST
        ∧ fil_page_get_type cfg block.frame ≠ cfg.FIL_PAGE_TYPE_SYS
        ∧ fil_page_get_type cfg block.frame ≠ cfg.FIL_PAGE_TYPE_TRX_SYS
        ∧ fil_page_get_type cfg block.frame ≠ cfg.FIL_PAGE_TYPE_XDES
        ∧ fil_page_get_type cfg block.frame ≠ cfg.FIL_PAGE_TYPE_BLOB
        ∧ fil_page_get_type cfg block.frame ≠ cfg.FIL_PAGE_TYPE_ZBLOB
        ∧ fil_page_get_type cfg block.frame ≠ cfg.FIL_PAGE_TYPE_ZBLOB2
        ∧ fil_page_get_type cfg block.frame ≠ cfg.FIL_PAGE_TYPE_ALLOCATED))) ∧
    ((∃ i e, i < d.first_free ∧ d.buf_block_arr i = some e ∧
        e.bpage.state = buf_page_state.BUF_BLOCK_FILE_PAGE ∧ e.bpage.zip_data = false ∧
        buf_dblwr_check_block cfg env e.bpage = false) ↔
      buf_dblwr_flush_buffered_writes cfg env (some d) =
        ⟨some ⟨d.first_free, d.b_reserved, d.block1, d.block2, true, d.write_buf,
          d.buf_block_arr⟩, [], Outcome.fatal⟩) ∧
    ((∀ i e, i < d.first_free → d.buf_block_arr i = some e →
        e.bpage.state = buf_page_state.BUF_BLOCK_FILE_PAGE → e.bpage.zip_data = false →
        buf_dblwr_check_block cfg env e.bpage = true) ↔
      (buf_dblwr_flush_buffered_writes cfg env (some d)).trace =
        buf_dblwr_stage_writes cfg d ++ [Event.fil_flush cfg.TRX_SYS_SPACE]
          ++ (buf_dblwr_write_blocks d 0 d.first_free).1) := by
  have h0 : d.first_free ≠ 0 := Nat.pos_iff_ne_zero.mp hpos
  have hfalse : buf_dblwr_check_slots cfg env d = false →
      buf_dblwr_flush_buffered_writes cfg env (some d) =
        ⟨some ⟨d.first_free, d.b_reserved, d.block1, d.block2, true, d.write_buf,
          d.buf_block_arr⟩, [], Outcome.fatal⟩ := by
    intro hc
    simp [buf_dblwr_flush_buffered_writes, hen, h0, hrun, check_slots_running, hc]
  refine ⟨check_block_false_iff cfg env, ?_, ?_⟩
  · rw [← check_slots_false_iff cfg env d hslots]
    constructor
    · exact hfalse
    · intro hf
      by_contra hc
      have ht : buf_dblwr_check_slots cfg env d = true := by simpa using hc
      rw [flush_commit_eq cfg env d hen hpos hrun ht] at hf
      have htr := congrArg Flushed.trace hf
      simp at htr
  · constructor
    · intro hall
      have ht : buf_dblwr_check_slots cfg env d = true := by
        by_contra hc
        have hc2 : buf_dblwr_check_slots cfg env d = false := by simpa using hc
        obtain ⟨i, e, hi, he, hs, hz, hb⟩ := (check_slots_false_iff cfg env d hslots).mp hc2
        rw [hall i e hi he hs hz] at hb
        exact Bool.noConfusion hb
      rw [flush_commit_eq cfg env d hen hpos hrun ht]
    · intro htr i e hi he hs hz
      by_contra hb
      have hc := (check_slots_false_iff cfg env d hslots).mpr
        ⟨i, e, hi, he, hs, hz, by simpa using hb⟩
      rw [hfalse hc] at htr
      have hlen := congrArg List.length htr
      simp at hlen
      omega

/-- The one slot of `index_page_batch` holds `index_page`. -/
theorem index_page_batch_slots (i : Nat) (hi : i < index_page_batch.first_free) :
    index_page_batch.buf_block_arr i = some ⟨index_page, false, 16384⟩ := by
  have h1 : index_page_batch.first_free = 1 := rfl
  have h0 : i = 0 := by omega
  subst h0
  rfl

/-- The page of `index_page_batch` passes `buf_dblwr_check_block` when the
simple validation accepts it. -/
theorem index_page_batch_passes (i : Nat) (e : element)
    (hi : i < index_page_batch.first_free) (he : index_page_batch.buf_block_arr i = some e) :
    buf_dblwr_check_block innodb_config lenient_env e.bpage = true := by
  rw [index_page_batch_slots i hi] at he
  cases he
  rfl

theorem flush_validates_file_pages_witness :
    buf_dblwr_flush_buffered_writes innodb_config strict_env (some index_page_batch) =
        ⟨some ⟨index_page_batch.first_free, index_page_batch.b_reserved,
          index_page_batch.block1, index_page_batch.block2, true, index_page_batch.write_buf,
          index_page_batch.buf_block_arr⟩, [], Outcome.fatal⟩ ∧
    (buf_dblwr_flush_buffered_writes innodb_config lenient_env (some index_page_batch)).trace =
        buf_dblwr_stage_writes innodb_config index_page_batch
          ++ [Event.fil_flush innodb_config.TRX_SYS_SPACE]
          ++ (buf_dblwr_write_blocks index_page_batch 0 index_page_batch.first_free).1 :=
  ⟨(flush_validates_file_pages innodb_config strict_env index_page_batch rfl (by decide) rfl
      (fun i hi => ⟨_, index_page_batch_slots i hi⟩)).2.1.mp
      ⟨0, ⟨index_page, false, 16384⟩, by decide, rfl, rfl, rfl, rfl⟩,
   (flush_validates_file_pages innodb_config lenient_env index_page_batch rfl (by decide) rfl
      (fun i hi => ⟨_, index_page_batch_slots i hi⟩)).2.2.mp
      (fun i e hi he _ _ => index_page_batch_passes i e hi he)⟩

/-! ## The assertions of the batch state machine -/

/-- C23. In every state reachable through `buf_dblwr_init`, `add_to_batch`,
`buf_dblwr_flush_buffered_writes` and `buf_dblwr_update` called once for each
dispatched data-file write whose completion is still outstanding, the
assertions of the debug build hold. With `batch_running` false,
`first_free == b_reserved`: this is the state in which a flush commits, and
it holds again in the state a call of `add_to_batch` leaves. At the point
where `add_to_batch` has stored the page, `batch_running` is false,
`first_free == b_reserved` and `b_reserved` is at most the capacity. When
`buf_dblwr_update` is entered for an outstanding write, `batch_running` is
true and `0 < b_reserved <= first_free`, so that `--b_reserved` does not wrap
around. -/
theorem debug_assertions_hold (cfg : Config) (env : Env) (s : Sys)
    (h : Reachable cfg env s) :
    (s.d.batch_running = false → s.d.first_free = s.d.b_reserved) ∧
    (∀ fuel bpage lru size,
      (Sys.add cfg env fuel s bpage lru size).d.batch_running = false →
      (Sys.add cfg env fuel s bpage lru size).d.first_free
        = (Sys.add cfg env fuel s bpage lru size).d.b_reserved) ∧
    (∀ bpage lru size, s.d.batch_running = false → s.d.first_free ≠ buf_size cfg →
      (add_to_batch_stored cfg s.d bpage lru size).batch_running = false ∧
      (add_to_batch_stored cfg s.d bpage lru size).first_free
        = (add_to_batch_stored cfg s.d bpage lru size).b_reserved ∧
      (add_to_batch_stored cfg s.d bpage lru size).b_reserved
        ≤ TRX_SYS_DOUBLEWRITE_BLOCKS * cfg.TRX_SYS_DOUBLEWRITE_BLOCK_SIZE) ∧
    (0 < s.pending →
      s.d.batch_running = true ∧ 0 < s.d.b_reserved ∧ s.d.b_reserved ≤ s.d.first_free ∧
      (buf_dblwr_update_decrement s.d).b_reserved + 1 = s.d.b_reserved) := by
  obtain ⟨i1, i2, i3, i4, _⟩ := reachable_inv cfg env s h
  refine ⟨fun hr => (i4 hr).1, ?_, ?_, ?_⟩
  · intro fuel bpage lru size hr
    obtain ⟨_, _, _, j4, _⟩ := reachable_inv cfg env _
      (Reachable.add s fuel bpage lru size h)
    exact (j4 hr).1
  · intro bpage lru size hr hne
    have hb : buf_size cfg = TRX_SYS_DOUBLEWRITE_BLOCKS * cfg.TRX_SYS_DOUBLEWRITE_BLOCK_SIZE :=
      rfl
    have he := (i4 hr).1
    have hinc : ulint_inc s.d.first_free = s.d.first_free + 1 :=
      ulint_inc_below cfg _ (by omega)
    have hincb : ulint_inc s.d.b_reserved = s.d.b_reserved + 1 := by
      rw [← he]
      exact hinc
    simp only [add_to_batch_stored, hinc, hincb]
    refine ⟨hr, by omega, by omega⟩
  · intro hp
    have hrun : s.d.batch_running = true := by
      by_contra hn
      have hf : s.d.batch_running = false := by simpa using hn
      have := (i4 hf).2
      omega
    refine ⟨hrun, by omega, i2, ?_⟩
    simp only [buf_dblwr_update_decrement, ulint_dec]
    rw [if_neg (by omega)]
    omega

theorem debug_assertions_hold_witness :
    committed_sys.d.batch_running = true ∧ 0 < committed_sys.d.b_reserved ∧
      committed_sys.d.b_reserved ≤ committed_sys.d.first_free ∧
      (buf_dblwr_update_decrement committed_sys.d).b_reserved + 1
        = committed_sys.d.b_reserved :=
  (debug_assertions_hold innodb_config lenient_env committed_sys
    committed_sys_reachable).2.2.2 (by decide)

end Dblwr
